import Mathlib

/-!
# Smart forest system: RBAC core and cascading deletes

A shallow embedding of the authentication controller, the JWT helpers, the
two gin middlewares and the cascading delete operations of the back end,
followed by the properties proved about them.

Conventions of the embedding

* The relational store is a record of tables, each table a list of rows in
  storage order.  A SQL statement is a function on that record.  SQL
  equality on keys and strings is equality of the values.
* Every call that reaches the store can fail.  An operation takes a fault
  plan `f : Nat → Option String`: `f k` is the driver error of the store
  call labelled `k` in the operation, or `none` when that call succeeds.
* `time.Now()` and SQL `NOW()` are a parameter `now` of each operation, in
  nanoseconds since the epoch: one call of an operation observes one
  instant.  `GenerateToken` is the exception: it cuts its readings to whole
  seconds and compares them, so it takes its three readings of the clock
  separately (`TokenClock`).
* Go `int64` and `int` values are `Int`; Go errors are values of `GoError`.
* The two libraries the code calls, bcrypt and golang-jwt, are parameters
  (`Bcrypt`, `JwtLib`) holding their primitives; the control flow of
  `jwt.ParseWithClaims` around those primitives is written out.
-/

namespace SmartForest

/-! ## Time -/

/-- Instants and durations, in nanoseconds (Go `time.Time` / `time.Duration`). -/
abbrev Time := Nat

/-- Go `time.Second`. -/
def Second : Time := 1000000000

/-- Go `time.Hour`. -/
def Hour : Time := 3600 * Second

/-! ## Errors -/

/-- Go error values produced by the embedded code. -/
inductive GoError where
  /-- Embeds `errors.New(msg)` -/
  | new (msg : String)
  /-- an error returned by the SQL driver (or by a cancelled context) -/
  | driver (msg : String)
  /-- Embeds `fmt.Errorf(format, err)` with one `%v` verb -/
  | errorfV (format : String) (cause : GoError)
  /-- Embeds `fmt.Errorf(format, id)` with one `%d` verb -/
  | errorfD (format : String) (id : Int)
  /-- Embeds `fmt.Errorf(format, t)` with one `%v` verb applied to a `*time.Time` -/
  | errorfT (format : String) (t : Option Time)
deriving DecidableEq, Repr

deriving instance DecidableEq for Except

/-- Fault plan of one operation: the driver error of its `k`-th store call, if that call fails. -/
abbrev Faults := Nat → Option String

/-- The plan in which every store call succeeds. -/
def noFaults : Faults := fun _ => none

/-! ## Data model (`model/models.go`) -/

structure User where
  ID : Int
  Username : String
  PasswordHash : String
  Email : String
  RealName : String
  Phone : Option String
  Status : String
  LoginAttempts : Int
  LastLoginAt : Option Time
  LockedUntil : Option Time
  CreatedAt : Time
  UpdatedAt : Time
deriving DecidableEq, Repr

structure Role where
  ID : Int
  RoleName : String
  Description : Option String
  CreatedAt : Time
  UpdatedAt : Time
deriving DecidableEq, Repr

structure Permission where
  ID : Int
  PermissionName : String
  Resource : String
  Action : String
  Description : Option String
  CreatedAt : Time
  UpdatedAt : Time
deriving DecidableEq, Repr

structure UserRole where
  UserID : Int
  RoleID : Int
  CreatedAt : Time
deriving DecidableEq, Repr

structure RolePermission where
  RoleID : Int
  PermissionID : Int
  CreatedAt : Time
deriving DecidableEq, Repr

/-- Row of `regions`; `Data` stands for the columns no embedded statement reads. -/
structure Region where
  ID : Int
  Name : String
  RegionType : String
  ManagerID : Option Int
  Data : String
deriving DecidableEq, Repr

structure Sensor where
  ID : Int
  RegionID : Int
  Data : String
deriving DecidableEq, Repr

structure SensorReading where
  ID : Int
  SensorID : Int
  Data : String
deriving DecidableEq, Repr

structure AlertRule where
  ID : Int
  Data : String
deriving DecidableEq, Repr

structure Alert where
  ID : Int
  RuleID : Int
  RegionID : Int
  Data : String
deriving DecidableEq, Repr

structure Notification where
  ID : Int
  AlertID : Int
  ReceiverID : Int
  Data : String
deriving DecidableEq, Repr

structure Resource where
  ID : Int
  RegionID : Int
  Data : String
deriving DecidableEq, Repr

structure ResourceChange where
  ID : Int
  ResourceID : Int
  Data : String
deriving DecidableEq, Repr

structure Device where
  ID : Int
  InstallRegionID : Option Int
  Data : String
deriving DecidableEq, Repr

structure MaintenanceRecord where
  ID : Int
  DeviceID : Int
  Data : String
deriving DecidableEq, Repr

structure DeviceStatusLog where
  ID : Int
  DeviceID : Int
  Data : String
deriving DecidableEq, Repr

/-- The relational store: one list of rows per table. -/
structure DB where
  users : List User
  roles : List Role
  permissions : List Permission
  user_roles : List UserRole
  role_permissions : List RolePermission
  regions : List Region
  sensors : List Sensor
  sensor_readings : List SensorReading
  alert_rules : List AlertRule
  alerts : List Alert
  notifications : List Notification
  resources : List Resource
  resource_changes : List ResourceChange
  devices : List Device
  maintenance_records : List MaintenanceRecord
  device_status_logs : List DeviceStatusLog
deriving DecidableEq, Repr

/-- The store with no rows. -/
def DB.empty : DB :=
  ⟨[], [], [], [], [], [], [], [], [], [], [], [], [], [], [], []⟩

/-! ## Password hashing collaborator (`golang.org/x/crypto/bcrypt`) -/

/-- The two bcrypt entry points the controller calls. -/
structure Bcrypt where
  /-- Embeds `bcrypt.GenerateFromPassword(password, DefaultCost)`; `none` is an error result. -/
  GenerateFromPassword : String → Option String
  /-- Embeds `bcrypt.CompareHashAndPassword(hash, password) == nil` -/
  CompareHashAndPassword : String → String → Bool

/-! ## Credential store (`controller/auth_controller.go`) -/

/-- One `UPDATE users SET ... WHERE user_id = ?` statement sent with `ExecContext`. -/
def execUpdateUser (fail : Option String) (db : DB) (userID : Int) (set : User → User) :
    DB × Option GoError :=
  match fail with
  | some e => (db, some (GoError.driver e))
  | none =>
    ({ db with users := db.users.map fun u => if u.ID = userID then set u else u }, none)

/-- Embeds `GetUserByUsername`: the first row of `users` with that username. -/
def GetUserByUsername (fail : Option String) (db : DB) (username : String) :
    Except GoError User :=
  match fail with
  | some e => .error (GoError.driver e)
  | none =>
    match db.users.find? (fun u => u.Username = username) with
    | some u => .ok u
    | none => .error (GoError.new "sql: no rows in result set")

/-- Embeds `UpdateLoginAttempts`: `SET login_attempts = ?, updated_at = NOW()`. -/
def UpdateLoginAttempts (fail : Option String) (now : Time) (db : DB) (userID : Int)
    (attempts : Int) : DB × Option GoError :=
  execUpdateUser fail db userID fun u => { u with LoginAttempts := attempts, UpdatedAt := now }

/-- Embeds `LockUser`: `SET status = 'LOCKED', locked_until = now + duration, updated_at = NOW()`. -/
def LockUser (fail : Option String) (now : Time) (db : DB) (userID : Int) (duration : Time) :
    DB × Option GoError :=
  let lockedUntil := now + duration
  execUpdateUser fail db userID fun u =>
    { u with Status := "LOCKED", LockedUntil := some lockedUntil, UpdatedAt := now }

/-- Embeds `UnlockUser`: `SET status = 'ACTIVE', locked_until = NULL, login_attempts = 0, updated_at = NOW()`. -/
def UnlockUser (fail : Option String) (now : Time) (db : DB) (userID : Int) :
    DB × Option GoError :=
  execUpdateUser fail db userID fun u =>
    { u with Status := "ACTIVE", LockedUntil := none, LoginAttempts := 0, UpdatedAt := now }

/-- The statement `UPDATE users SET last_login_at = NOW(), updated_at = NOW() WHERE user_id = ?`. -/
def updateLoginTime (fail : Option String) (now : Time) (db : DB) (userID : Int) :
    DB × Option GoError :=
  execUpdateUser fail db userID fun u => { u with LastLoginAt := some now, UpdatedAt := now }

/-- Embeds `user.LockedUntil != nil && user.LockedUntil.After(time.Now())`. -/
def lockedInFuture (user : User) (now : Time) : Bool :=
  match user.LockedUntil with
  | some t => decide (now < t)
  | none => false

/-- The password check of `VerifyPassword`: the literal development password, else bcrypt. -/
def passwordValid (B : Bcrypt) (user : User) (password : String) : Bool :=
  if password = "123456" then true
  else B.CompareHashAndPassword user.PasswordHash password

/-- The part of `VerifyPassword` after the status checks (from the password check on).
`user` is the row as it was read at the start of the call. -/
def verifyPasswordCheck (B : Bcrypt) (f : Faults) (now : Time) (db : DB) (user : User)
    (password : String) : DB × Except GoError User :=
  if passwordValid B user password = false then
    let newAttempts := user.LoginAttempts + 1
    match UpdateLoginAttempts (f 2) now db user.ID newAttempts with
    | (db1, some _) => (db1, .error (GoError.new "更新登录尝试次数失败"))
    | (db1, none) =>
      if newAttempts ≥ 5 then
        match LockUser (f 3) now db1 user.ID Hour with
        | (db2, some _) => (db2, .error (GoError.new "锁定用户失败"))
        | (db2, none) => (db2, .error (GoError.new "用户名或密码错误"))
      else (db1, .error (GoError.new "用户名或密码错误"))
  else
    match UpdateLoginAttempts (f 4) now db user.ID 0 with
    | (db1, some _) => (db1, .error (GoError.new "重置登录尝试次数失败"))
    | (db1, none) =>
      match updateLoginTime (f 5) now db1 user.ID with
      | (db2, some _) => (db2, .error (GoError.new "更新最后登录时间失败"))
      | (db2, none) => (db2, .ok user)

/-- Embeds `AuthController.VerifyPassword`.  Store calls are labelled 0 `GetUserByUsername`,
1 `UnlockUser`, 2 `UpdateLoginAttempts` (failure count), 3 `LockUser`,
4 `UpdateLoginAttempts` (reset), 5 the last-login update.  The result is the store
after the call and the returned `(*User, error)`. -/
def VerifyPassword (B : Bcrypt) (f : Faults) (now : Time) (db : DB)
    (username password : String) : DB × Except GoError User :=
  match GetUserByUsername (f 0) db username with
  | .error _ => (db, .error (GoError.new "用户名或密码错误"))
  | .ok user =>
    if user.Status = "INACTIVE" then (db, .error (GoError.new "用户账号已禁用"))
    else if user.Status = "LOCKED" then
      if lockedInFuture user now then
        (db, .error (GoError.errorfT "用户账号已锁定，解锁时间：%v" user.LockedUntil))
      else
        match UnlockUser (f 1) now db user.ID with
        | (db1, some _) => (db1, .error (GoError.new "解锁用户失败"))
        | (db1, none) => verifyPasswordCheck B f now db1 user password
    else verifyPasswordCheck B f now db user password

/-! ## Transactions (`database/sql`) -/

/-- A `*sql.Tx`: the committed store, the store as the transaction sees it, and whether
the transaction has ended. -/
structure Tx where
  base : DB
  work : DB
  done : Bool
deriving DecidableEq, Repr

/-- Embeds `db.BeginTx(ctx, nil)`. -/
def BeginTx (fail : Option String) (db : DB) : Except GoError Tx :=
  match fail with
  | some e => .error (GoError.driver e)
  | none => .ok { base := db, work := db, done := false }

/-- Embeds `tx.ExecContext(ctx, stmt, ...)`: a failed statement changes no row; a successful one
gives the number of rows affected. -/
def Tx.ExecContext (tx : Tx) (fail : Option String) (stmt : DB → DB × Nat) :
    Tx × Except GoError Nat :=
  match fail with
  | some e => (tx, .error (GoError.driver e))
  | none => ({ tx with work := (stmt tx.work).1 }, .ok (stmt tx.work).2)

/-- Embeds `tx.Commit()`: on success the working store becomes the committed one; a failed commit
ends the transaction without installing it. -/
def Tx.Commit (tx : Tx) (fail : Option String) : Tx × Option GoError :=
  match fail with
  | some e => ({ tx with work := tx.base, done := true }, some (GoError.driver e))
  | none => ({ tx with base := tx.work, done := true }, none)

/-- Embeds `tx.Rollback()`: discards the working store unless the transaction has already ended. -/
def Tx.Rollback (tx : Tx) : Tx :=
  if tx.done then tx else { tx with work := tx.base, done := true }

/-- Rows kept and number of rows removed by `DELETE FROM t WHERE p`. -/
def deleteWhere {α : Type} (p : α → Bool) (rows : List α) : List α × Nat :=
  (rows.filter fun r => !p r, (rows.filter p).length)

/-! ### The delete statements -/

/-- Embeds `SELECT sensor_id FROM sensors WHERE region_id = ?` -/
def sensorIdsOfRegion (db : DB) (id : Int) : List Int :=
  (db.sensors.filter fun s => s.RegionID = id).map fun s => s.ID

/-- Embeds `SELECT alert_id FROM alerts WHERE region_id = ?` -/
def alertIdsOfRegion (db : DB) (id : Int) : List Int :=
  (db.alerts.filter fun a => a.RegionID = id).map fun a => a.ID

/-- Embeds `SELECT alert_id FROM alerts WHERE rule_id = ?` -/
def alertIdsOfRule (db : DB) (id : Int) : List Int :=
  (db.alerts.filter fun a => a.RuleID = id).map fun a => a.ID

/-- Embeds `SELECT resource_id FROM resources WHERE region_id = ?` -/
def resourceIdsOfRegion (db : DB) (id : Int) : List Int :=
  (db.resources.filter fun r => r.RegionID = id).map fun r => r.ID

/-- Embeds `SELECT device_id FROM devices WHERE install_region_id = ?` -/
def deviceIdsOfRegion (db : DB) (id : Int) : List Int :=
  (db.devices.filter fun d => d.InstallRegionID = some id).map fun d => d.ID

/-- Embeds `DELETE FROM sensor_readings WHERE sensor_id IN (SELECT sensor_id FROM sensors WHERE region_id = ?)` -/
def delReadingsOfRegion (id : Int) (db : DB) : DB × Nat :=
  let r := deleteWhere (fun x : SensorReading => decide (x.SensorID ∈ sensorIdsOfRegion db id))
    db.sensor_readings
  ({ db with sensor_readings := r.1 }, r.2)

/-- Embeds `DELETE FROM sensors WHERE region_id = ?` -/
def delSensorsOfRegion (id : Int) (db : DB) : DB × Nat :=
  let r := deleteWhere (fun x : Sensor => decide (x.RegionID = id)) db.sensors
  ({ db with sensors := r.1 }, r.2)

/-- Embeds `DELETE FROM notifications WHERE alert_id IN (SELECT alert_id FROM alerts WHERE region_id = ?)` -/
def delNotificationsOfRegion (id : Int) (db : DB) : DB × Nat :=
  let r := deleteWhere (fun x : Notification => decide (x.AlertID ∈ alertIdsOfRegion db id))
    db.notifications
  ({ db with notifications := r.1 }, r.2)

/-- Embeds `DELETE FROM alerts WHERE region_id = ?` -/
def delAlertsOfRegion (id : Int) (db : DB) : DB × Nat :=
  let r := deleteWhere (fun x : Alert => decide (x.RegionID = id)) db.alerts
  ({ db with alerts := r.1 }, r.2)

/-- Embeds `DELETE FROM resource_changes WHERE resource_id IN (SELECT resource_id FROM resources WHERE region_id = ?)` -/
def delChangesOfRegion (id : Int) (db : DB) : DB × Nat :=
  let r := deleteWhere (fun x : ResourceChange => decide (x.ResourceID ∈ resourceIdsOfRegion db id))
    db.resource_changes
  ({ db with resource_changes := r.1 }, r.2)

/-- Embeds `DELETE FROM resources WHERE region_id = ?` -/
def delResourcesOfRegion (id : Int) (db : DB) : DB × Nat :=
  let r := deleteWhere (fun x : Resource => decide (x.RegionID = id)) db.resources
  ({ db with resources := r.1 }, r.2)

/-- Embeds `DELETE FROM maintenance_records WHERE device_id IN (SELECT device_id FROM devices WHERE install_region_id = ?)` -/
def delMaintenanceOfRegion (id : Int) (db : DB) : DB × Nat :=
  let r := deleteWhere (fun x : MaintenanceRecord => decide (x.DeviceID ∈ deviceIdsOfRegion db id))
    db.maintenance_records
  ({ db with maintenance_records := r.1 }, r.2)

/-- Embeds `DELETE FROM device_status_logs WHERE device_id IN (SELECT device_id FROM devices WHERE install_region_id = ?)` -/
def delStatusLogsOfRegion (id : Int) (db : DB) : DB × Nat :=
  let r := deleteWhere (fun x : DeviceStatusLog => decide (x.DeviceID ∈ deviceIdsOfRegion db id))
    db.device_status_logs
  ({ db with device_status_logs := r.1 }, r.2)

/-- Embeds `DELETE FROM devices WHERE install_region_id = ?` -/
def delDevicesOfRegion (id : Int) (db : DB) : DB × Nat :=
  let r := deleteWhere (fun x : Device => decide (x.InstallRegionID = some id)) db.devices
  ({ db with devices := r.1 }, r.2)

/-- Embeds `DELETE FROM regions WHERE region_id = ?` -/
def delRegion (id : Int) (db : DB) : DB × Nat :=
  let r := deleteWhere (fun x : Region => decide (x.ID = id)) db.regions
  ({ db with regions := r.1 }, r.2)

/-- Embeds `DELETE FROM maintenance_records WHERE device_id = ?` -/
def delMaintenanceOfDevice (id : Int) (db : DB) : DB × Nat :=
  let r := deleteWhere (fun x : MaintenanceRecord => decide (x.DeviceID = id)) db.maintenance_records
  ({ db with maintenance_records := r.1 }, r.2)

/-- Embeds `DELETE FROM device_status_logs WHERE device_id = ?` -/
def delStatusLogsOfDevice (id : Int) (db : DB) : DB × Nat :=
  let r := deleteWhere (fun x : DeviceStatusLog => decide (x.DeviceID = id)) db.device_status_logs
  ({ db with device_status_logs := r.1 }, r.2)

/-- Embeds `DELETE FROM devices WHERE device_id = ?` -/
def delDevice (id : Int) (db : DB) : DB × Nat :=
  let r := deleteWhere (fun x : Device => decide (x.ID = id)) db.devices
  ({ db with devices := r.1 }, r.2)

/-- Embeds `DELETE FROM sensor_readings WHERE sensor_id = ?` -/
def delReadingsOfSensor (id : Int) (db : DB) : DB × Nat :=
  let r := deleteWhere (fun x : SensorReading => decide (x.SensorID = id)) db.sensor_readings
  ({ db with sensor_readings := r.1 }, r.2)

/-- Embeds `DELETE FROM sensors WHERE sensor_id = ?` -/
def delSensor (id : Int) (db : DB) : DB × Nat :=
  let r := deleteWhere (fun x : Sensor => decide (x.ID = id)) db.sensors
  ({ db with sensors := r.1 }, r.2)

/-- Embeds `DELETE FROM notifications WHERE alert_id IN (SELECT alert_id FROM alerts WHERE rule_id = ?)` -/
def delNotificationsOfRule (id : Int) (db : DB) : DB × Nat :=
  let r := deleteWhere (fun x : Notification => decide (x.AlertID ∈ alertIdsOfRule db id))
    db.notifications
  ({ db with notifications := r.1 }, r.2)

/-- Embeds `DELETE FROM alerts WHERE rule_id = ?` -/
def delAlertsOfRule (id : Int) (db : DB) : DB × Nat :=
  let r := deleteWhere (fun x : Alert => decide (x.RuleID = id)) db.alerts
  ({ db with alerts := r.1 }, r.2)

/-- Embeds `DELETE FROM alert_rules WHERE rule_id = ?` -/
def delAlertRule (id : Int) (db : DB) : DB × Nat :=
  let r := deleteWhere (fun x : AlertRule => decide (x.ID = id)) db.alert_rules
  ({ db with alert_rules := r.1 }, r.2)

/-- Embeds `DELETE FROM resource_changes WHERE resource_id = ?` -/
def delChangesOfResource (id : Int) (db : DB) : DB × Nat :=
  let r := deleteWhere (fun x : ResourceChange => decide (x.ResourceID = id)) db.resource_changes
  ({ db with resource_changes := r.1 }, r.2)

/-- Embeds `DELETE FROM resources WHERE resource_id = ?` -/
def delResource (id : Int) (db : DB) : DB × Nat :=
  let r := deleteWhere (fun x : Resource => decide (x.ID = id)) db.resources
  ({ db with resources := r.1 }, r.2)

/-! ## Cascading deletes -/

/-- Body of `RegionController.DeleteRegion` between `BeginTx` and the deferred rollback.
The statements are labelled 1 to 10 in source order; 11 is `tx.Commit()`. -/
def deleteRegionBody (f : Faults) (id : Int) (tx : Tx) : Tx × Option GoError :=
  match tx.ExecContext (f 1) (delReadingsOfRegion id) with
  | (tx, .error e) => (tx, some (GoError.errorfV "删除传感器读数失败: %v" e))
  | (tx, .ok _) =>
  match tx.ExecContext (f 2) (delSensorsOfRegion id) with
  | (tx, .error e) => (tx, some (GoError.errorfV "删除传感器失败: %v" e))
  | (tx, .ok _) =>
  match tx.ExecContext (f 3) (delNotificationsOfRegion id) with
  | (tx, .error e) => (tx, some (GoError.errorfV "删除预警通知失败: %v" e))
  | (tx, .ok _) =>
  match tx.ExecContext (f 4) (delAlertsOfRegion id) with
  | (tx, .error e) => (tx, some (GoError.errorfV "删除预警失败: %v" e))
  | (tx, .ok _) =>
  match tx.ExecContext (f 5) (delChangesOfRegion id) with
  | (tx, .error e) => (tx, some (GoError.errorfV "删除资源变更失败: %v" e))
  | (tx, .ok _) =>
  match tx.ExecContext (f 6) (delResourcesOfRegion id) with
  | (tx, .error e) => (tx, some (GoError.errorfV "删除资源失败: %v" e))
  | (tx, .ok _) =>
  match tx.ExecContext (f 7) (delMaintenanceOfRegion id) with
  | (tx, .error e) => (tx, some (GoError.errorfV "删除设备维护记录失败: %v" e))
  | (tx, .ok _) =>
  match tx.ExecContext (f 8) (delStatusLogsOfRegion id) with
  | (tx, .error e) => (tx, some (GoError.errorfV "删除设备状态日志失败: %v" e))
  | (tx, .ok _) =>
  match tx.ExecContext (f 9) (delDevicesOfRegion id) with
  | (tx, .error e) => (tx, some (GoError.errorfV "删除设备失败: %v" e))
  | (tx, .ok _) =>
  match tx.ExecContext (f 10) (delRegion id) with
  | (tx, .error e) => (tx, some (GoError.errorfV "删除区域失败: %v" e))
  | (tx, .ok affected) =>
    if affected = 0 then (tx, some (GoError.errorfD "区域不存在或已被删除, id=%d" id))
    else tx.Commit (f 11)

/-- Embeds `RegionController.DeleteRegion`: the store after the call and the returned error.
Store call 0 is `BeginTx`; `defer tx.Rollback()` runs when the body returns. -/
def DeleteRegion (f : Faults) (db : DB) (id : Int) : DB × Option GoError :=
  match BeginTx (f 0) db with
  | .error e => (db, some e)
  | .ok tx =>
    let r := deleteRegionBody f id tx
    (r.1.Rollback.base, r.2)

/-- Body of `DeviceController.DeleteDevice`: statements 1 to 3, then 4 `tx.Commit()`. -/
def deleteDeviceBody (f : Faults) (id : Int) (tx : Tx) : Tx × Option GoError :=
  match tx.ExecContext (f 1) (delMaintenanceOfDevice id) with
  | (tx, .error e) => (tx, some (GoError.errorfV "删除设备维护记录失败: %v" e))
  | (tx, .ok _) =>
  match tx.ExecContext (f 2) (delStatusLogsOfDevice id) with
  | (tx, .error e) => (tx, some (GoError.errorfV "删除设备状态日志失败: %v" e))
  | (tx, .ok _) =>
  match tx.ExecContext (f 3) (delDevice id) with
  | (tx, .error e) => (tx, some (GoError.errorfV "删除设备失败: %v" e))
  | (tx, .ok affected) =>
    if affected = 0 then (tx, some (GoError.errorfD "设备不存在或已被删除, id=%d" id))
    else tx.Commit (f 4)

/-- Embeds `DeviceController.DeleteDevice`. -/
def DeleteDevice (f : Faults) (db : DB) (id : Int) : DB × Option GoError :=
  match BeginTx (f 0) db with
  | .error e => (db, some e)
  | .ok tx =>
    let r := deleteDeviceBody f id tx
    (r.1.Rollback.base, r.2)

/-- Body of `SensorController.DeleteSensor`: statements 1 and 2, then 3 `tx.Commit()`. -/
def deleteSensorBody (f : Faults) (id : Int) (tx : Tx) : Tx × Option GoError :=
  match tx.ExecContext (f 1) (delReadingsOfSensor id) with
  | (tx, .error e) => (tx, some (GoError.errorfV "删除传感器读数失败: %v" e))
  | (tx, .ok _) =>
  match tx.ExecContext (f 2) (delSensor id) with
  | (tx, .error e) => (tx, some (GoError.errorfV "删除传感器失败: %v" e))
  | (tx, .ok affected) =>
    if affected = 0 then (tx, some (GoError.errorfD "传感器不存在或已被删除, id=%d" id))
    else tx.Commit (f 3)

/-- Embeds `SensorController.DeleteSensor`. -/
def DeleteSensor (f : Faults) (db : DB) (id : Int) : DB × Option GoError :=
  match BeginTx (f 0) db with
  | .error e => (db, some e)
  | .ok tx =>
    let r := deleteSensorBody f id tx
    (r.1.Rollback.base, r.2)

/-- Body of `AlertController.DeleteAlertRule`: statements 1 to 3, then 4 `tx.Commit()`. -/
def deleteAlertRuleBody (f : Faults) (id : Int) (tx : Tx) : Tx × Option GoError :=
  match tx.ExecContext (f 1) (delNotificationsOfRule id) with
  | (tx, .error e) => (tx, some (GoError.errorfV "删除预警通知失败: %v" e))
  | (tx, .ok _) =>
  match tx.ExecContext (f 2) (delAlertsOfRule id) with
  | (tx, .error e) => (tx, some (GoError.errorfV "删除预警失败: %v" e))
  | (tx, .ok _) =>
  match tx.ExecContext (f 3) (delAlertRule id) with
  | (tx, .error e) => (tx, some (GoError.errorfV "删除预警规则失败: %v" e))
  | (tx, .ok affected) =>
    if affected = 0 then (tx, some (GoError.errorfD "预警规则不存在或已被删除, id=%d" id))
    else tx.Commit (f 4)

/-- Embeds `AlertController.DeleteAlertRule`. -/
def DeleteAlertRule (f : Faults) (db : DB) (id : Int) : DB × Option GoError :=
  match BeginTx (f 0) db with
  | .error e => (db, some e)
  | .ok tx =>
    let r := deleteAlertRuleBody f id tx
    (r.1.Rollback.base, r.2)

/-- Body of `ResourceController.DeleteResource`: statements 1 and 2, then 3 `tx.Commit()`. -/
def deleteResourceBody (f : Faults) (id : Int) (tx : Tx) : Tx × Option GoError :=
  match tx.ExecContext (f 1) (delChangesOfResource id) with
  | (tx, .error e) => (tx, some (GoError.errorfV "删除资源变更记录失败: %v" e))
  | (tx, .ok _) =>
  match tx.ExecContext (f 2) (delResource id) with
  | (tx, .error e) => (tx, some (GoError.errorfV "删除资源失败: %v" e))
  | (tx, .ok affected) =>
    if affected = 0 then (tx, some (GoError.errorfD "资源不存在或已被删除, id=%d" id))
    else tx.Commit (f 3)

/-- Embeds `ResourceController.DeleteResource`. -/
def DeleteResource (f : Faults) (db : DB) (id : Int) : DB × Option GoError :=
  match BeginTx (f 0) db with
  | .error e => (db, some e)
  | .ok tx =>
    let r := deleteResourceBody f id tx
    (r.1.Rollback.base, r.2)

/-! ## Permission graph -/

/-- Rows of `permissions p JOIN role_permissions rp ON p.permission_id = rp.permission_id
JOIN user_roles ur ON rp.role_id = ur.role_id WHERE ur.user_id = ? AND p.resource = ? AND
p.action = ?`, the query of `AuthController.CheckUserPermission`. -/
def permissionJoinRows (db : DB) (userID : Int) (resource action : String) :
    List (Permission × RolePermission × UserRole) :=
  db.permissions.flatMap fun p =>
    (db.role_permissions.filter fun rp => p.ID = rp.PermissionID).flatMap fun rp =>
      ((db.user_roles.filter fun ur => rp.RoleID = ur.RoleID).filter fun ur =>
        ur.UserID = userID ∧ p.Resource = resource ∧ p.Action = action).map fun ur =>
          (p, rp, ur)

/-- Embeds `AuthController.CheckUserPermission`: `SELECT COUNT(*) ...` scanned into `count`, then
`count > 0`. -/
def CheckUserPermission (fail : Option String) (db : DB) (userID : Int)
    (resource action : String) : Bool × Option GoError :=
  match fail with
  | some e => (false, some (GoError.driver e))
  | none =>
    let count : Int := (permissionJoinRows db userID resource action).length
    (decide (count > 0), none)

/-- The `SELECT EXISTS(SELECT 1 FROM user_roles ur JOIN role_permissions rp ON ur.role_id =
rp.role_id JOIN permissions p ON rp.permission_id = p.permission_id WHERE ur.user_id = ? AND
p.resource = ? AND p.action = ?)` query of `CheckPermissionMiddleware`. -/
def hasPermissionQuery (db : DB) (userID : Int) (resource action : String) : Bool :=
  db.user_roles.any fun ur =>
    db.role_permissions.any fun rp =>
      decide (ur.RoleID = rp.RoleID) && db.permissions.any fun p =>
        decide (rp.PermissionID = p.ID) &&
          decide (ur.UserID = userID ∧ p.Resource = resource ∧ p.Action = action)

/-! ## Token service (`util/jwt.go`) -/

/-- The process-wide signing key `jwtSecret`. -/
def jwtSecret : String := "smart-forest-system-secret-key"

/-- Embeds `jwt.RegisteredClaims`. -/
structure RegisteredClaims where
  Issuer : String
  Subject : String
  Audience : List String
  ExpiresAt : Option Time
  NotBefore : Option Time
  IssuedAt : Option Time
  ID : String
deriving DecidableEq, Repr

/-- Embeds `util.Claims`: the two custom fields and the embedded registered claims. -/
structure Claims where
  UserID : Int
  Username : String
  Registered : RegisteredClaims
deriving DecidableEq, Repr

/-- Embeds `jwt.NewNumericDate(t)`: the instant truncated to `jwt.TimePrecision`, one second. -/
def NewNumericDate (t : Time) : Time := t - t % Second

/-- A token string decoded into its three segments. -/
structure RawToken where
  /-- the `alg` entry of the header, when it is present and a string -/
  Alg : Option String
  Claims : Claims
  /-- the first two segments joined by a dot: the text that is signed -/
  SigningInput : String
  /-- the third segment -/
  Signature : String
deriving DecidableEq, Repr

/-- The encoding and keyed-hash primitives of `github.com/golang-jwt/jwt/v5`. -/
structure JwtLib where
  /-- Embeds `Token.SigningString` for a header naming the method `alg` -/
  SigningString : String → Claims → String
  /-- Embeds `SigningMethodHMAC.Sign` of the method `alg` on a text under a key, encoded -/
  Sign : String → String → String → String
  /-- the decoding done by `Parser.ParseUnverified`; `none` for a malformed token -/
  Decode : String → Option RawToken

/-- The signing methods registered by the library. -/
inductive SigningMethod where
  | HMAC (alg : String)
  | RSA (alg : String)
  | RSAPSS (alg : String)
  | ECDSA (alg : String)
  | Ed25519
  | None
deriving DecidableEq, Repr

/-- Embeds `jwt.GetSigningMethod(alg)`. -/
def GetSigningMethod (alg : String) : Option SigningMethod :=
  if alg = "HS256" ∨ alg = "HS384" ∨ alg = "HS512" then some (SigningMethod.HMAC alg)
  else if alg = "RS256" ∨ alg = "RS384" ∨ alg = "RS512" then some (SigningMethod.RSA alg)
  else if alg = "PS256" ∨ alg = "PS384" ∨ alg = "PS512" then some (SigningMethod.RSAPSS alg)
  else if alg = "ES256" ∨ alg = "ES384" ∨ alg = "ES512" then some (SigningMethod.ECDSA alg)
  else if alg = "EdDSA" then some SigningMethod.Ed25519
  else if alg = "none" then some SigningMethod.None
  else none

/-- Embeds `token.Method.Verify(text, sig, key) == nil` for a key of type `[]byte`: an HMAC method
recomputes the keyed hash and compares; every other method rejects a byte-slice key. -/
def verifySignature (J : JwtLib) (m : SigningMethod) (text sig key : String) : Bool :=
  match m with
  | SigningMethod.HMAC alg => decide (sig = J.Sign alg text key)
  | _ => false

/-- Embeds `Validator.Validate` with the default options: `exp` and `nbf` are checked when present,
without leeway. -/
def validateClaims (now : Time) (c : Claims) : Option GoError :=
  let expOk := match c.Registered.ExpiresAt with
    | some e => decide (now < e)
    | none => true
  let nbfOk := match c.Registered.NotBefore with
    | some n => decide (n ≤ now)
    | none => true
  if expOk = false then
    some (GoError.errorfV "token has invalid claims: %v" (GoError.new "token is expired"))
  else if nbfOk = false then
    some (GoError.errorfV "token has invalid claims: %v" (GoError.new "token is not valid yet"))
  else none

/-- A parsed `*jwt.Token`. -/
structure Token where
  Method : SigningMethod
  Claims : Claims
  Valid : Bool
deriving DecidableEq, Repr

/-- Embeds `jwt.ParseWithClaims(tokenString, &Claims, keyFunc)`. -/
def ParseWithClaims (J : JwtLib) (now : Time) (tokenString : String)
    (keyFunc : SigningMethod → Except GoError String) : Except GoError Token :=
  match J.Decode tokenString with
  | none => .error (GoError.new "token is malformed")
  | some raw =>
    match raw.Alg with
    | none => .error (GoError.new "token is unverifiable: signing method (alg) is unspecified")
    | some alg =>
      match GetSigningMethod alg with
      | none => .error (GoError.new "token is unverifiable: signing method (alg) is unavailable")
      | some method =>
        match keyFunc method with
        | .error e =>
          .error (GoError.errorfV "token is unverifiable: error while executing keyfunc: %v" e)
        | .ok key =>
          if verifySignature J method raw.SigningInput raw.Signature key = false then
            .error (GoError.new "token signature is invalid")
          else
            match validateClaims now raw.Claims with
            | some e => .error e
            | none => .ok { Method := method, Claims := raw.Claims, Valid := true }

/-- The key function `ParseToken` passes to the parser:
`if _, ok := token.Method.(*jwt.SigningMethodHMAC); !ok`. -/
def parseTokenKeyFunc (m : SigningMethod) : Except GoError String :=
  match m with
  | SigningMethod.HMAC _ => .ok jwtSecret
  | _ => .error (GoError.new "无效的签名方法")

/-- Embeds `util.ParseToken`. -/
def ParseToken (J : JwtLib) (now : Time) (tokenString : String) : Except GoError Claims :=
  match ParseWithClaims J now tokenString parseTokenKeyFunc with
  | .error e => .error e
  | .ok token =>
    if token.Valid then .ok token.Claims
    else .error (GoError.new "无效的令牌")

/-- The three readings of `time.Now()` in `GenerateToken`, in source order: the one
`expirationTime` is computed from, the one of `IssuedAt` and the one of `NotBefore`. -/
structure TokenClock where
  forExpiry : Time
  forIssuedAt : Time
  forNotBefore : Time
deriving DecidableEq, Repr

/-- The claims `GenerateToken` builds. -/
def generateClaims (clock : TokenClock) (userID : Int) (username : String) : Claims :=
  let expirationTime := clock.forExpiry + 2 * Hour
  { UserID := userID
    Username := username
    Registered :=
      { ExpiresAt := some (NewNumericDate expirationTime)
        IssuedAt := some (NewNumericDate clock.forIssuedAt)
        NotBefore := some (NewNumericDate clock.forNotBefore)
        Issuer := "smart-forest-system"
        Subject := "user-authentication"
        Audience := []
        ID := "" } }

/-- Embeds `util.GenerateToken`: `jwt.NewWithClaims(jwt.SigningMethodHS256, claims)` followed by
`token.SignedString(jwtSecret)`, which cannot fail for an HMAC method and a byte-slice key. -/
def GenerateToken (J : JwtLib) (clock : TokenClock) (userID : Int) (username : String) :
    Except GoError String :=
  let claims := generateClaims clock userID username
  let text := J.SigningString "HS256" claims
  .ok (text ++ "." ++ J.Sign "HS256" text jwtSecret)

/-! ## Authorization middleware (`middleware/auth.go`) -/

/-- The part of a `*gin.Context` the middlewares touch: request headers, the two context
keys the program sets, the JSON error response (status and `error` text) and the abort
flag. -/
structure GinContext where
  Headers : List (String × String)
  user_id : Option Int
  username : Option String
  Response : Option (Nat × String)
  Aborted : Bool
deriving DecidableEq, Repr

/-- Embeds `c.GetHeader(key)`: the empty string when the header is absent. -/
def GinContext.GetHeader (c : GinContext) (key : String) : String :=
  match c.Headers.find? (fun h => h.1 = key) with
  | some h => h.2
  | none => ""

/-- Embeds `c.JSON(status, gin.H("error": msg))`. -/
def GinContext.JSON (c : GinContext) (status : Nat) (msg : String) : GinContext :=
  { c with Response := some (status, msg) }

/-- Embeds `c.Abort()`. -/
def GinContext.Abort (c : GinContext) : GinContext :=
  { c with Aborted := true }

/-- The handler chain of a route: handlers run in order and a handler that aborted stops the
chain.  A `c.Next()` in tail position of a handler is its return. -/
def runChain : List (GinContext → GinContext) → GinContext → GinContext
  | [], c => c
  | h :: hs, c => if (h c).Aborted then h c else runChain hs (h c)

/-- Embeds `strings.SplitN(s, " ", 2)`: the whole string when it has no space, else the text
before the first space and the text after it. -/
def splitN2 (s : String) : List String :=
  match s.toList.dropWhile (fun ch => ch != ' ') with
  | [] => [s]
  | _ :: rest => [String.mk (s.toList.takeWhile fun ch => ch != ' '), String.mk rest]

/-- Embeds `middleware.JWTAuthMiddleware()`. -/
def JWTAuthMiddleware (J : JwtLib) (now : Time) (c : GinContext) : GinContext :=
  let authHeader := c.GetHeader "Authorization"
  if authHeader = "" then (c.JSON 401 "缺少认证令牌").Abort
  else
    let parts := splitN2 authHeader
    if ¬ (parts.length = 2 ∧ parts.getD 0 "" = "Bearer") then
      (c.JSON 401 "无效的令牌格式").Abort
    else
      match ParseToken J now (parts.getD 1 "") with
      | .error _ => (c.JSON 401 "无效的令牌").Abort
      | .ok claims => { c with user_id := some claims.UserID, username := some claims.Username }

/-- Embeds `middleware.CheckPermissionMiddleware(db, resource, action)`; `fail` is the outcome of
its one query. -/
def CheckPermissionMiddleware (fail : Option String) (db : DB) (resource action : String)
    (c : GinContext) : GinContext :=
  match c.user_id with
  | none => (c.JSON 401 "未认证的用户").Abort
  | some userID =>
    match fail with
    | some _ => (c.JSON 500 "权限检查失败").Abort
    | none =>
      let hasPermission := hasPermissionQuery db userID resource action
      if hasPermission = false then (c.JSON 403 "没有操作权限").Abort
      else c

/-! ## User administration and registration (`controller/auth_controller.go`) -/

/-- Embeds `model.UserRegistration`, the body of a registration request. -/
structure UserRegistration where
  Username : String
  Password : String
  Email : String
  RealName : String
  Phone : String
  RoleID : Int
deriving DecidableEq, Repr

/-- Modelled from the spec: the declaration of the `users` table is not in the source.  A
row inserted without `login_attempts`, `last_login_at` and `locked_until` starts with the
counter at 0 and neither timestamp set (data model: `login_attempts` a counter from 0,
`last_login_at` optional, `locked_until` optional).  `newID` is the `AUTO_INCREMENT` key the
store gives the row, the value `LastInsertId` reports. -/
def insertedUser (newID : Int) (username hash email realName phone status : String)
    (now : Time) : User :=
  { ID := newID, Username := username, PasswordHash := hash, Email := email,
    RealName := realName, Phone := some phone, Status := status, LoginAttempts := 0,
    LastLoginAt := none, LockedUntil := none, CreatedAt := now, UpdatedAt := now }

/-- Embeds `SELECT COUNT(*) FROM users WHERE username = ?`. -/
def countUsersByUsername (db : DB) (username : String) : Int :=
  (db.users.filter fun u => u.Username = username).length

/-- Embeds `SELECT COUNT(*) FROM users WHERE email = ?`. -/
def countUsersByEmail (db : DB) (email : String) : Int :=
  (db.users.filter fun u => u.Email = email).length

/-- Embeds `SELECT COUNT(*) FROM roles WHERE role_id = ?`. -/
def countRolesByID (db : DB) (roleID : Int) : Int :=
  (db.roles.filter fun r => r.ID = roleID).length

/-- The error `bcrypt.GenerateFromPassword` returns when it fails; its text stands for
whichever error the library gave. -/
def bcryptError : GoError := GoError.new "bcrypt: password length exceeds 72 bytes"

/-- Embeds the `INSERT INTO users (...) VALUES (?, ?, ?, ?, ?, status, NOW(), NOW())`
statement of `RegisterUser` and `CreateUser`. -/
def insertUser (row : User) (db : DB) : DB × Nat :=
  ({ db with users := db.users ++ [row] }, 1)

/-- Embeds `INSERT INTO user_roles (user_id, role_id, created_at) VALUES (?, ?, NOW())`. -/
def insertUserRole (row : UserRole) (db : DB) : DB × Nat :=
  ({ db with user_roles := db.user_roles ++ [row] }, 1)

/-- Body of `RegisterUser` between `BeginTx` and the deferred rollback: store call 4 inserts
the user, 5 inserts the role link, 6 is `tx.Commit()`. -/
def registerUserBody (f : Faults) (now : Time) (newID : Int) (hashedPassword phone : String)
    (registration : UserRegistration) (tx : Tx) : Tx × Except GoError Int :=
  match tx.ExecContext (f 4) (insertUser (insertedUser newID registration.Username
      hashedPassword registration.Email registration.RealName phone "ACTIVE" now)) with
  | (tx, .error e) => (tx, .error e)
  | (tx, .ok _) =>
    let userID := newID
    match tx.ExecContext (f 5) (insertUserRole ⟨userID, registration.RoleID, now⟩) with
    | (tx, .error e) => (tx, .error e)
    | (tx, .ok _) =>
      match tx.Commit (f 6) with
      | (tx, some e) => (tx, .error e)
      | (tx, none) => (tx, .ok userID)

/-- Embeds `AuthController.RegisterUser`.  Store calls: 0, 1, 2 the three `COUNT(*)` queries
(username, email, role), 3 `BeginTx`, 4 and 5 the two inserts, 6 `Commit`.  `newID` is the
key the store assigns to the inserted user.  The result is the store after the call and the
returned `(int64, error)`. -/
def RegisterUser (B : Bcrypt) (f : Faults) (now : Time) (newID : Int) (db : DB)
    (registration : UserRegistration) : DB × Except GoError Int :=
  match f 0 with
  | some e => (db, .error (GoError.driver e))
  | none =>
  if countUsersByUsername db registration.Username > 0 then
    (db, .error (GoError.new "用户名已存在"))
  else
  match f 1 with
  | some e => (db, .error (GoError.driver e))
  | none =>
  if countUsersByEmail db registration.Email > 0 then
    (db, .error (GoError.new "邮箱已存在"))
  else
  match f 2 with
  | some e => (db, .error (GoError.driver e))
  | none =>
  if countRolesByID db registration.RoleID = 0 then
    (db, .error (GoError.new "选择的角色不存在"))
  else
  match B.GenerateFromPassword registration.Password with
  | none => (db, .error bcryptError)
  | some hashedPassword =>
    let phone := if registration.Phone ≠ "" then registration.Phone else ""
    match BeginTx (f 3) db with
    | .error e => (db, .error e)
    | .ok tx =>
      let r := registerUserBody f now newID hashedPassword phone registration tx
      (r.1.Rollback.base, r.2)

/-- Embeds `AuthController.CreateUser`; `user.PasswordHash` carries the plain password.
Store calls: 0 and 1 the two `COUNT(*)` queries, 2 the insert. -/
def CreateUser (B : Bcrypt) (f : Faults) (now : Time) (newID : Int) (db : DB) (user : User) :
    DB × Except GoError Int :=
  match f 0 with
  | some e => (db, .error (GoError.driver e))
  | none =>
  if countUsersByUsername db user.Username > 0 then
    (db, .error (GoError.new "用户名已存在"))
  else
  match f 1 with
  | some e => (db, .error (GoError.driver e))
  | none =>
  if countUsersByEmail db user.Email > 0 then
    (db, .error (GoError.new "邮箱已存在"))
  else
  match B.GenerateFromPassword user.PasswordHash with
  | none => (db, .error bcryptError)
  | some hashedPassword =>
    let phone := match user.Phone with
      | some p => p
      | none => ""
    let status := if user.Status ≠ "" then user.Status else "ACTIVE"
    match f 2 with
    | some e => (db, .error (GoError.driver e))
    | none =>
      ((insertUser (insertedUser newID user.Username hashedPassword user.Email user.RealName
          phone status now) db).1, .ok newID)

/-- Embeds `AuthController.GetUserByID`. -/
def GetUserByID (fail : Option String) (db : DB) (id : Int) : Except GoError User :=
  match fail with
  | some e => .error (GoError.driver e)
  | none =>
    match db.users.find? (fun u => u.ID = id) with
    | some u => .ok u
    | none => .error (GoError.new "sql: no rows in result set")

/-- Embeds `AuthController.UpdateUser`:
`SET email = ?, real_name = ?, phone = ?, status = ?, updated_at = NOW()`. -/
def UpdateUser (fail : Option String) (now : Time) (db : DB) (user : User) :
    DB × Option GoError :=
  execUpdateUser fail db user.ID fun u =>
    { u with Email := user.Email, RealName := user.RealName, Phone := user.Phone,
             Status := user.Status, UpdatedAt := now }

/-- Embeds `AuthController.UpdatePassword`: `SET password_hash = ?, updated_at = NOW()`. -/
def UpdatePassword (B : Bcrypt) (fail : Option String) (now : Time) (db : DB) (userID : Int)
    (newPassword : String) : DB × Option GoError :=
  match B.GenerateFromPassword newPassword with
  | none => (db, some bcryptError)
  | some hashedPassword =>
    execUpdateUser fail db userID fun u =>
      { u with PasswordHash := hashedPassword, UpdatedAt := now }

/-- Embeds `AuthController.GetUserRoles`: `roles r JOIN user_roles ur ON r.role_id =
ur.role_id WHERE ur.user_id = ?`. -/
def GetUserRoles (fail : Option String) (db : DB) (userID : Int) : Except GoError (List Role) :=
  match fail with
  | some e => .error (GoError.driver e)
  | none =>
    .ok (db.roles.flatMap fun r =>
      ((db.user_roles.filter fun ur => r.ID = ur.RoleID).filter fun ur =>
        ur.UserID = userID).map fun _ => r)

/-- The invariant of the data model on `users`: a row whose status is LOCKED has
`locked_until` set. -/
def lockedHasUntil (db : DB) : Prop :=
  ∀ u ∈ db.users, u.Status = "LOCKED" → u.LockedUntil ≠ none

instance (db : DB) : Decidable (lockedHasUntil db) := by
  unfold lockedHasUntil
  infer_instance

/-! ## Role and permission administration (`controller/auth_controller.go`) -/

/-- Modelled from the spec: the declarations of the join tables `role_permissions` and
`user_roles` are not in the source.  The pair of ids is the key of a join row (an
assignment of a pair that already exists is a no-op, not an error), so `INSERT IGNORE`
adds the row when no row with that key is present and otherwise skips it without error. -/
def insertIgnore {α : Type} (sameKey : α → Bool) (row : α) (rows : List α) : List α :=
  if rows.any sameKey then rows else rows ++ [row]

/-- Embeds `AuthController.AssignPermissionToRole`: `INSERT IGNORE INTO role_permissions
(role_id, permission_id, created_at) VALUES (?, ?, NOW())`. -/
def AssignPermissionToRole (fail : Option String) (now : Time) (db : DB)
    (roleID permissionID : Int) : DB × Option GoError :=
  match fail with
  | some e => (db, some (GoError.driver e))
  | none =>
    let rows := insertIgnore
      (fun x : RolePermission => decide (x.RoleID = roleID ∧ x.PermissionID = permissionID))
      ⟨roleID, permissionID, now⟩ db.role_permissions
    ({ db with role_permissions := rows }, none)

/-- Embeds `AuthController.AssignRoleToUser`: `INSERT IGNORE INTO user_roles (user_id,
role_id, created_at) VALUES (?, ?, NOW())`. -/
def AssignRoleToUser (fail : Option String) (now : Time) (db : DB) (userID roleID : Int) :
    DB × Option GoError :=
  match fail with
  | some e => (db, some (GoError.driver e))
  | none =>
    let rows := insertIgnore
      (fun x : UserRole => decide (x.UserID = userID ∧ x.RoleID = roleID))
      ⟨userID, roleID, now⟩ db.user_roles
    ({ db with user_roles := rows }, none)

/-- Embeds `AuthController.DeleteRole`: store call 0 is `DELETE FROM role_permissions WHERE
role_id = ?`, store call 1 is `DELETE FROM roles WHERE role_id = ?`; neither runs in a
transaction. -/
def DeleteRole (f : Faults) (db : DB) (id : Int) : DB × Option GoError :=
  match f 0 with
  | some e => (db, some (GoError.driver e))
  | none =>
    let db1 := { db with role_permissions :=
      (deleteWhere (fun x : RolePermission => decide (x.RoleID = id)) db.role_permissions).1 }
    match f 1 with
    | some e => (db1, some (GoError.driver e))
    | none =>
      ({ db1 with roles := (deleteWhere (fun x : Role => decide (x.ID = id)) db1.roles).1 },
       none)

/-- Embeds `AuthController.DeletePermission`: store call 0 is `DELETE FROM role_permissions
WHERE permission_id = ?`, store call 1 is `DELETE FROM permissions WHERE permission_id = ?`. -/
def DeletePermission (f : Faults) (db : DB) (id : Int) : DB × Option GoError :=
  match f 0 with
  | some e => (db, some (GoError.driver e))
  | none =>
    let db1 := { db with role_permissions :=
      (deleteWhere (fun x : RolePermission => decide (x.PermissionID = id))
        db.role_permissions).1 }
    match f 1 with
    | some e => (db1, some (GoError.driver e))
    | none =>
      ({ db1 with permissions :=
          (deleteWhere (fun x : Permission => decide (x.ID = id)) db1.permissions).1 },
       none)

/-! ## Reading an aggregate root by id -/

/-- Embeds `SensorController.GetSensorByID`. -/
def GetSensorByID (fail : Option String) (db : DB) (id : Int) : Except GoError Sensor :=
  match fail with
  | some e => .error (GoError.driver e)
  | none =>
    match db.sensors.find? (fun x => x.ID = id) with
    | some x => .ok x
    | none => .error (GoError.new "sql: no rows in result set")

/-- Embeds `DeviceController.GetDeviceByID`. -/
def GetDeviceByID (fail : Option String) (db : DB) (id : Int) : Except GoError Device :=
  match fail with
  | some e => .error (GoError.driver e)
  | none =>
    match db.devices.find? (fun x => x.ID = id) with
    | some x => .ok x
    | none => .error (GoError.new "sql: no rows in result set")

/-- Embeds `ResourceController.GetResourceByID`. -/
def GetResourceByID (fail : Option String) (db : DB) (id : Int) : Except GoError Resource :=
  match fail with
  | some e => .error (GoError.driver e)
  | none =>
    match db.resources.find? (fun x => x.ID = id) with
    | some x => .ok x
    | none => .error (GoError.new "sql: no rows in result set")

/-- Embeds `AlertController.GetAlertRuleByID`. -/
def GetAlertRuleByID (fail : Option String) (db : DB) (id : Int) : Except GoError AlertRule :=
  match fail with
  | some e => .error (GoError.driver e)
  | none =>
    match db.alert_rules.find? (fun x => x.ID = id) with
    | some x => .ok x
    | none => .error (GoError.new "sql: no rows in result set")

/-! ## The registration handler (`api/handlers/handlers.go`) -/

/-- Go `fmt.Sprintf(format, arg)` for a format whose only verb is the two characters at its
end, which is the shape of every format string in the embedded code. -/
def sprintfTail (format arg : String) : String := format.dropRight 2 ++ arg

/-- The text `err.Error()` of an error; `layout` renders an instant the way `%v` prints a
`time.Time`. -/
def GoError.Error (layout : Time → String) : GoError → String
  | GoError.new msg => msg
  | GoError.driver msg => msg
  | GoError.errorfV format cause => sprintfTail format (cause.Error layout)
  | GoError.errorfD format id => sprintfTail format (toString id)
  | GoError.errorfT format (some t) => sprintfTail format (layout t)
  | GoError.errorfT format none => sprintfTail format "<nil>"

/-- Go `strings.Contains(s, substr)`. -/
def stringsContains (s substr : String) : Bool :=
  decide (substr.toList <:+: s.toList)

/-- A JSON scalar in a response body. -/
inductive JSONValue where
  | str (s : String)
  | int (i : Int)
  | bool (b : Bool)
deriving DecidableEq, Repr

/-- What `c.JSON(status, gin.H(...))` sends: the status code and the fields of the body. -/
structure HTTPResponse where
  status : Nat
  body : List (String × JSONValue)
deriving DecidableEq, Repr

/-- Embeds `Handlers.Register`.  `bind` is the outcome of `c.ShouldBindJSON(&req)`: the
decoded and validated request, or the text of the binding error. -/
def Register (layout : Time → String) (B : Bcrypt) (f : Faults) (now : Time) (newID : Int)
    (db : DB) (bind : Except String UserRegistration) : DB × HTTPResponse :=
  match bind with
  | .error msg => (db, ⟨400, [("error", JSONValue.str msg)]⟩)
  | .ok req =>
    match RegisterUser B f now newID db req with
    | (db1, .error err) =>
      if stringsContains (err.Error layout) "已存在" ∨ stringsContains (err.Error layout) "不存在"
      then (db1, ⟨400, [("error", JSONValue.str (err.Error layout))]⟩)
      else (db1, ⟨500, [("error", JSONValue.str ("注册失败: " ++ err.Error layout))]⟩)
    | (db1, .ok userID) =>
      (db1, ⟨201, [("user_id", JSONValue.int userID),
                   ("message", JSONValue.str "用户注册成功"),
                   ("role_selected", JSONValue.bool true)]⟩)

/-! ## Further operations of the controllers -/

/-- Embeds `SensorController.UpdateSensor`: `UPDATE sensors SET region_id = ?, model = ?, ...
WHERE sensor_id = ?`, then the test `affected == 0`.  `Data` carries the other columns the
statement sets.  `foundRows` tells whether the driver reports the rows matched (DSN option
`clientFoundRows`) or, as MySQL does by default, the rows whose values changed. -/
def UpdateSensor (foundRows : Bool) (fail : Option String) (db : DB) (sensor : Sensor) :
    DB × Option GoError :=
  match fail with
  | some e => (db, some (GoError.driver e))
  | none =>
    let set := fun x : Sensor => { x with RegionID := sensor.RegionID, Data := sensor.Data }
    let matched := db.sensors.filter fun x => x.ID = sensor.ID
    let affected := if foundRows then matched.length
      else (matched.filter fun x => set x ≠ x).length
    let db1 := { db with sensors := db.sensors.map fun x => if x.ID = sensor.ID then set x else x }
    if affected = 0 then (db1, some (GoError.errorfD "no sensor updated for id=%d" sensor.ID))
    else (db1, none)

/-- Embeds `AuthController.UpdateRole`: `UPDATE roles SET role_name = ?, description = ?,
updated_at = NOW() WHERE role_id = ?`; the result of `ExecContext` is discarded but for its
error. -/
def UpdateRole (fail : Option String) (now : Time) (db : DB) (role : Role) :
    DB × Option GoError :=
  match fail with
  | some e => (db, some (GoError.driver e))
  | none =>
    ({ db with roles := db.roles.map fun x =>
        if x.ID = role.ID then
          { x with RoleName := role.RoleName, Description := role.Description, UpdatedAt := now }
        else x }, none)

/-- Embeds `AuthController.UpdatePermission`: `UPDATE permissions SET permission_name = ?,
resource = ?, action = ?, description = ?, updated_at = NOW() WHERE permission_id = ?`. -/
def UpdatePermission (fail : Option String) (now : Time) (db : DB) (permission : Permission) :
    DB × Option GoError :=
  match fail with
  | some e => (db, some (GoError.driver e))
  | none =>
    ({ db with permissions := db.permissions.map fun x =>
        if x.ID = permission.ID then
          { x with PermissionName := permission.PermissionName,
                   Resource := permission.Resource, Action := permission.Action,
                   Description := permission.Description, UpdatedAt := now }
        else x }, none)

/-- Embeds `AuthController.RemovePermissionFromRole`: `DELETE FROM role_permissions WHERE
role_id = ? AND permission_id = ?`. -/
def RemovePermissionFromRole (fail : Option String) (db : DB) (roleID permissionID : Int) :
    DB × Option GoError :=
  match fail with
  | some e => (db, some (GoError.driver e))
  | none =>
    ({ db with role_permissions := db.role_permissions.filter fun x =>
        !decide (x.RoleID = roleID ∧ x.PermissionID = permissionID) }, none)

/-- Embeds `AuthController.GetRolePermissions`: `permissions p JOIN role_permissions rp ON
p.permission_id = rp.permission_id WHERE rp.role_id = ?`. -/
def GetRolePermissions (fail : Option String) (db : DB) (roleID : Int) :
    Except GoError (List Permission) :=
  match fail with
  | some e => .error (GoError.driver e)
  | none =>
    .ok (db.permissions.flatMap fun p =>
      ((db.role_permissions.filter fun rp => p.ID = rp.PermissionID).filter fun rp =>
        rp.RoleID = roleID).map fun _ => p)

/-- The order of `ORDER BY role_id`. -/
def roleIdLE (a b : Role) : Prop := a.ID ≤ b.ID

instance : DecidableRel roleIdLE := fun a b => inferInstanceAs (Decidable (a.ID ≤ b.ID))

/-- Embeds `AuthController.GetAvailableRoles`: `SELECT ... FROM roles ORDER BY role_id`. -/
def GetAvailableRoles (fail : Option String) (db : DB) : Except GoError (List Role) :=
  match fail with
  | some e => .error (GoError.driver e)
  | none => .ok (db.roles.insertionSort roleIdLE)

/-- The contract of bcrypt the controller relies on: a hash it generated for a password
compares equal with that password. -/
def Bcrypt.Sound (B : Bcrypt) : Prop :=
  ∀ p h, B.GenerateFromPassword p = some h → B.CompareHashAndPassword h p = true

/-- Decimal digits read left to right onto an accumulator; `none` at a character that is not
a digit. -/
def parseDigits : List Char → Nat → Option Nat
  | [], acc => some acc
  | c :: cs, acc =>
    if c.isDigit then parseDigits cs (10 * acc + (c.toNat - '0'.toNat)) else none

/-- The digits part of `strconv.ParseInt(s, 10, 64)` after the optional sign: at least one
digit, and a value in the range of `int64`. -/
def parseIntBody (negative : Bool) (ds : List Char) : Option Int :=
  match ds with
  | [] => none
  | _ =>
    match parseDigits ds 0 with
    | none => none
    | some n =>
      let v : Int := if negative then -(n : Int) else (n : Int)
      if -(2 ^ 63 : Int) ≤ v ∧ v ≤ 2 ^ 63 - 1 then some v else none

/-- Embeds `strconv.ParseInt(s, 10, 64)`; `none` is an error result. -/
def ParseInt (s : String) : Option Int :=
  match s.toList with
  | '-' :: ds => parseIntBody true ds
  | '+' :: ds => parseIntBody false ds
  | ds => parseIntBody false ds

/-- Splits the characters of a path at each slash (`acc` holds the current segment,
reversed). -/
def splitSegments : List Char → List Char → List String
  | [], acc => [String.mk acc.reverse]
  | c :: cs, acc =>
    if c = '/' then String.mk acc.reverse :: splitSegments cs []
    else splitSegments cs (c :: acc)

/-- The segments of a path or of a route pattern. -/
def pathSegments (path : String) : List String := splitSegments path.toList []

/-- How the router binds the path parameters of a pattern without catch-all: a pattern
segment `:name` matches any non-empty segment and binds `name` to it, any other pattern
segment matches itself. -/
def matchSegments : List String → List String → Option (List (String × String))
  | [], [] => some []
  | pat :: ps, seg :: ss =>
    match pat.toList with
    | ':' :: name =>
      if seg = "" then none
      else (matchSegments ps ss).map fun rest => (String.mk name, seg) :: rest
    | _ => if pat = seg then matchSegments ps ss else none
  | _, _ => none

/-- Embeds `c.Param(key)`: the value bound to `key`, or the empty string. -/
def Param (params : List (String × String)) (key : String) : String :=
  match params.find? (fun kv => kv.1 = key) with
  | some kv => kv.2
  | none => ""

/-- Embeds `Handlers.AssignPermission`.  `params` are the path parameters of the matched
route and `bind` is the outcome of `c.ShouldBindJSON(&req)`, the `permission_id` of the
body. -/
def AssignPermission (layout : Time → String) (fail : Option String) (now : Time) (db : DB)
    (params : List (String × String)) (bind : Except String Int) : DB × HTTPResponse :=
  match ParseInt (Param params "role_id") with
  | none => (db, ⟨400, [("error", JSONValue.str "无效的角色ID")]⟩)
  | some roleID =>
    match bind with
    | .error _ => (db, ⟨400, [("error", JSONValue.str "无效的请求数据")]⟩)
    | .ok permissionID =>
      match AssignPermissionToRole fail now db roleID permissionID with
      | (db1, some err) => (db1, ⟨500, [("error", JSONValue.str (err.Error layout))]⟩)
      | (db1, none) => (db1, ⟨200, [("message", JSONValue.str "权限分配成功")]⟩)

/-- Embeds `Handlers.RemovePermission`. -/
def RemovePermission (layout : Time → String) (fail : Option String) (db : DB)
    (params : List (String × String)) : DB × HTTPResponse :=
  match ParseInt (Param params "role_id") with
  | none => (db, ⟨400, [("error", JSONValue.str "无效的角色ID")]⟩)
  | some roleID =>
    match ParseInt (Param params "permission_id") with
    | none => (db, ⟨400, [("error", JSONValue.str "无效的权限ID")]⟩)
    | some permissionID =>
      match RemovePermissionFromRole fail db roleID permissionID with
      | (db1, some err) => (db1, ⟨500, [("error", JSONValue.str (err.Error layout))]⟩)
      | (db1, none) => (db1, ⟨200, [("message", JSONValue.str "权限移除成功")]⟩)

/-- The answer of the `GetRolePermissions` handler: an error status and text, or a status
and the permissions sent as `data`. -/
inductive RolePermissionsResponse where
  | error (status : Nat) (msg : String)
  | data (status : Nat) (permissions : List Permission)
deriving DecidableEq, Repr

/-- Embeds `Handlers.GetRolePermissions`. -/
def GetRolePermissionsHandler (layout : Time → String) (fail : Option String) (db : DB)
    (params : List (String × String)) : RolePermissionsResponse :=
  match ParseInt (Param params "role_id") with
  | none => RolePermissionsResponse.error 400 "无效的角色ID"
  | some roleID =>
    match GetRolePermissions fail db roleID with
    | .error err => RolePermissionsResponse.error 500 (err.Error layout)
    | .ok permissions => RolePermissionsResponse.data 200 permissions

/-! ## The route table (`api/server.go`) -/

/-- One registration of a route: method, full path, whether it is registered on the group
that uses `JWTAuthMiddleware`, the `CheckPermissionMiddleware(resource, action)` placed in
front of its handler, if any, and the name of the handler. -/
structure Route where
  Method : String
  Path : String
  JWT : Bool
  Permission : Option (String × String)
  Handler : String
deriving DecidableEq, Repr

/-- The registrations of `r.Static("/static", ...)` and `r.StaticFile("/", ...)`, each for GET and HEAD. -/
def staticRoutes : List Route :=
  [Route.mk "GET" "/static/*filepath" false none "Static",
   Route.mk "HEAD" "/static/*filepath" false none "Static",
   Route.mk "GET" "/" false none "StaticFile",
   Route.mk "HEAD" "/" false none "StaticFile"]

/-- The routes of the group `auth := r.Group("/")`, which has no filter. -/
def authRoutes : List Route :=
  [Route.mk "POST" "/register" false none "Register",
   Route.mk "POST" "/login" false none "Login",
   Route.mk "GET" "/roles" false none "GetAvailableRoles"]

/-- The routes of the group `public := r.Group("/api")`, which has no filter. -/
def publicRoutes : List Route :=
  [Route.mk "GET" "/api/regions" false none "ListRegions",
   Route.mk "GET" "/api/regions/:id" false none "GetRegion"]

/-- The first routes of the group `api := r.Group("/api")` with `api.Use(middleware.JWTAuthMiddleware())`, in source order. -/
def apiRoutesA : List Route :=
  [Route.mk "GET" "/api/user/me" true none "GetCurrentUser",
   Route.mk "PUT" "/api/user/password" true none "UpdatePassword",
   Route.mk "POST" "/api/regions" true (some ("regions", "manage")) "CreateRegion",
   Route.mk "PUT" "/api/regions/:id" true (some ("regions", "manage")) "UpdateRegion",
   Route.mk "DELETE" "/api/regions/:id" true (some ("regions", "manage")) "DeleteRegion",
   Route.mk "GET" "/api/sensors" true (some ("sensors", "view")) "ListSensors",
   Route.mk "GET" "/api/sensors/:id" true (some ("sensors", "view")) "GetSensor",
   Route.mk "POST" "/api/sensors" true (some ("sensors", "manage")) "CreateSensor",
   Route.mk "PUT" "/api/sensors/:id" true (some ("sensors", "manage")) "UpdateSensor",
   Route.mk "PATCH" "/api/sensors/:id/status" true (some ("sensors", "manage")) "UpdateSensorStatus",
   Route.mk "DELETE" "/api/sensors/:id" true (some ("sensors", "manage")) "DeleteSensor",
   Route.mk "GET" "/api/sensors/:id/readings" true none "GetSensorReadings",
   Route.mk "POST" "/api/sensors/:id/readings" true none "CreateSensorReading",
   Route.mk "POST" "/api/sensors/readings/batch" true none "BatchCreateSensorReadings",
   Route.mk "GET" "/api/alert-rules" true (some ("alerts", "view")) "ListAlertRules",
   Route.mk "GET" "/api/alert-rules/:id" true (some ("alerts", "view")) "GetAlertRule",
   Route.mk "POST" "/api/alert-rules" true (some ("alerts", "manage")) "CreateAlertRule",
   Route.mk "PUT" "/api/alert-rules/:id" true (some ("alerts", "manage")) "UpdateAlertRule",
   Route.mk "DELETE" "/api/alert-rules/:id" true (some ("alerts", "manage")) "DeleteAlertRule",
   Route.mk "GET" "/api/alerts" true (some ("alerts", "view")) "ListAlerts",
   Route.mk "GET" "/api/alerts/:id" true (some ("alerts", "view")) "GetAlert",
   Route.mk "POST" "/api/alerts" true (some ("alerts", "manage")) "CreateAlert",
   Route.mk "PUT" "/api/alerts/:id" true (some ("alerts", "manage")) "UpdateAlert",
   Route.mk "DELETE" "/api/alerts/:id" true (some ("alerts", "manage")) "DeleteAlert",
   Route.mk "GET" "/api/alerts/:id/notifications" true none "GetNotifications",
   Route.mk "POST" "/api/notifications" true none "CreateNotification",
   Route.mk "GET" "/api/resources" true (some ("resources", "view")) "ListResources",
   Route.mk "GET" "/api/resources/:id" true (some ("resources", "view")) "GetResource",
   Route.mk "POST" "/api/resources" true (some ("resources", "manage")) "CreateResource",
   Route.mk "PUT" "/api/resources/:id" true (some ("resources", "manage")) "UpdateResource",
   Route.mk "PATCH" "/api/resources/:id/growth-stage" true (some ("resources", "manage")) "UpdateResourceGrowthStage",
   Route.mk "DELETE" "/api/resources/:id" true (some ("resources", "manage")) "DeleteResource",
   Route.mk "GET" "/api/resources/:id/changes" true none "GetResourceChanges",
   Route.mk "POST" "/api/resource-changes" true none "CreateResourceChange",
   Route.mk "GET" "/api/resources/summary" true none "GetResourceSummary",
   Route.mk "GET" "/api/devices" true (some ("devices", "view")) "ListDevices",
   Route.mk "GET" "/api/devices/:id" true (some ("devices", "view")) "GetDevice",
   Route.mk "POST" "/api/devices" true (some ("devices", "manage")) "CreateDevice",
   Route.mk "PUT" "/api/devices/:id" true (some ("devices", "manage")) "UpdateDevice",
   Route.mk "DELETE" "/api/devices/:id" true (some ("devices", "manage")) "DeleteDevice",
   Route.mk "GET" "/api/devices/:id/status" true none "GetDeviceStatus",
   Route.mk "GET" "/api/devices/:id/status/logs" true none "GetDeviceStatusLogs",
   Route.mk "POST" "/api/devices/:id/status" true none "CreateDeviceStatus"]

/-- The remaining routes of the authenticated group `api`, in source order. -/
def apiRoutesB : List Route :=
  [Route.mk "GET" "/api/devices/:id/maintenance" true none "GetMaintenanceRecords",
   Route.mk "POST" "/api/devices/:id/maintenance" true none "CreateMaintenanceRecord",
   Route.mk "DELETE" "/api/maintenance/:id" true none "DeleteMaintenanceRecord",
   Route.mk "GET" "/api/report-templates" true (some ("reports", "view")) "ListReportTemplates",
   Route.mk "GET" "/api/report-templates/:id" true (some ("reports", "view")) "GetReportTemplate",
   Route.mk "POST" "/api/report-templates" true (some ("reports", "manage")) "CreateReportTemplate",
   Route.mk "PUT" "/api/report-templates/:id" true (some ("reports", "manage")) "UpdateReportTemplate",
   Route.mk "DELETE" "/api/report-templates/:id" true (some ("reports", "manage")) "DeleteReportTemplate",
   Route.mk "GET" "/api/reports" true (some ("reports", "view")) "ListReports",
   Route.mk "GET" "/api/reports/:id" true (some ("reports", "view")) "GetReport",
   Route.mk "POST" "/api/reports" true (some ("reports", "manage")) "CreateReport",
   Route.mk "PUT" "/api/reports/:id" true (some ("reports", "manage")) "UpdateReport",
   Route.mk "DELETE" "/api/reports/:id" true (some ("reports", "manage")) "DeleteReport",
   Route.mk "POST" "/api/reports/generate" true none "GenerateReport",
   Route.mk "GET" "/api/reports/:id/export" true none "ExportReport",
   Route.mk "GET" "/api/statistics/device-faults" true (some ("statistics", "view")) "GetDeviceFaults",
   Route.mk "GET" "/api/statistics/sensor-validity" true (some ("statistics", "view")) "GetSensorValidity",
   Route.mk "GET" "/api/statistics/region-alerts" true (some ("statistics", "view")) "GetRegionAlertStats",
   Route.mk "GET" "/api/statistics/fire-alerts" true (some ("statistics", "view")) "GetFireAlerts",
   Route.mk "GET" "/api/statistics/environment-trend" true (some ("statistics", "view")) "GetEnvironmentTrend",
   Route.mk "GET" "/api/statistics/air-quality" true (some ("statistics", "view")) "GetAirQuality",
   Route.mk "GET" "/api/statistics/anomaly-data" true (some ("statistics", "view")) "GetAnomalyData",
   Route.mk "GET" "/api/statistics/sensor-summary" true (some ("statistics", "view")) "GetSensorDataSummary",
   Route.mk "GET" "/api/statistics/region-daily-averages" true (some ("statistics", "view")) "GetRegionDailyAverages",
   Route.mk "POST" "/api/roles" true (some ("roles", "manage")) "CreateRole",
   Route.mk "GET" "/api/roles/:id" true (some ("roles", "view")) "GetRole",
   Route.mk "PUT" "/api/roles/:id" true (some ("roles", "manage")) "UpdateRole",
   Route.mk "DELETE" "/api/roles/:id" true (some ("roles", "manage")) "DeleteRole",
   Route.mk "POST" "/api/users/:user_id/roles" true (some ("users", "manage")) "AssignRole",
   Route.mk "DELETE" "/api/users/:user_id/roles/:role_id" true (some ("users", "manage")) "RemoveRole",
   Route.mk "GET" "/api/users/:user_id/roles" true (some ("users", "view")) "GetUserRoles",
   Route.mk "POST" "/api/permissions" true (some ("permissions", "manage")) "CreatePermission",
   Route.mk "GET" "/api/permissions/:id" true (some ("permissions", "view")) "GetPermission",
   Route.mk "PUT" "/api/permissions/:id" true (some ("permissions", "manage")) "UpdatePermission",
   Route.mk "DELETE" "/api/permissions/:id" true (some ("permissions", "manage")) "DeletePermission",
   Route.mk "POST" "/api/roles/:id/permissions" true (some ("permissions", "manage")) "AssignPermission",
   Route.mk "DELETE" "/api/roles/:id/permissions/:permission_id" true (some ("permissions", "manage")) "RemovePermission",
   Route.mk "GET" "/api/roles/:id/permissions" true (some ("permissions", "view")) "GetRolePermissions",
   Route.mk "GET" "/api/users/:user_id/permissions" true (some ("users", "view")) "GetUserPermissions",
   Route.mk "GET" "/api/users/:user_id/check-permission" true (some ("users", "view")) "CheckUserPermission",
   Route.mk "POST" "/api/backup" true (some ("permissions", "manage")) "BackupDatabase",
   Route.mk "POST" "/api/restore" true (some ("permissions", "manage")) "RestoreDatabase",
   Route.mk "GET" "/api/backups" true (some ("permissions", "manage")) "ListBackups"]

/-- The routes `main` registers, in source order. -/
def routes : List Route :=
  staticRoutes ++ authRoutes ++ publicRoutes ++ apiRoutesA ++ apiRoutesB

/-- The handlers gin runs for a route, after the global middlewares (logger, recovery and
CORS, which neither read nor write what the two filters use; CORS stops only `OPTIONS`
requests, for which no route is registered): the authentication filter if the route is on
the authenticated group, then its permission filter if it declares one, then the business
handler. -/
def routeChain (J : JwtLib) (now : Time) (fail : Option String) (db : DB) (r : Route)
    (handler : GinContext → GinContext) : List (GinContext → GinContext) :=
  (if r.JWT then [JWTAuthMiddleware J now] else []) ++
  (match r.Permission with
    | some ra => [CheckPermissionMiddleware fail db ra.1 ra.2]
    | none => []) ++
  [handler]

/-! ## Observing the order of the statements of a cascade -/

/-- The names of the tables whose contents differ between two stores. -/
def changedTables (a b : DB) : List String :=
  (if a.users = b.users then [] else ["users"]) ++
  (if a.roles = b.roles then [] else ["roles"]) ++
  (if a.permissions = b.permissions then [] else ["permissions"]) ++
  (if a.user_roles = b.user_roles then [] else ["user_roles"]) ++
  (if a.role_permissions = b.role_permissions then [] else ["role_permissions"]) ++
  (if a.regions = b.regions then [] else ["regions"]) ++
  (if a.sensors = b.sensors then [] else ["sensors"]) ++
  (if a.sensor_readings = b.sensor_readings then [] else ["sensor_readings"]) ++
  (if a.alert_rules = b.alert_rules then [] else ["alert_rules"]) ++
  (if a.alerts = b.alerts then [] else ["alerts"]) ++
  (if a.notifications = b.notifications then [] else ["notifications"]) ++
  (if a.resources = b.resources then [] else ["resources"]) ++
  (if a.resource_changes = b.resource_changes then [] else ["resource_changes"]) ++
  (if a.devices = b.devices then [] else ["devices"]) ++
  (if a.maintenance_records = b.maintenance_records then [] else ["maintenance_records"]) ++
  (if a.device_status_logs = b.device_status_logs then [] else ["device_status_logs"])

/-- The fault plan that lets the first `k` statements of a cascade of `n` statements run and
fails statement `k + 1`; for `k = n` nothing fails. -/
def stopAfter (n k : Nat) : Faults :=
  fun i => if i = k + 1 ∧ k < n then some "stop" else none

/-- The store as the transaction of a cascade sees it once its first `k` statements have
run: the working store the body leaves when run under `stopAfter n k`. -/
def workAfter (body : Faults → Int → Tx → Tx × Option GoError) (n k : Nat) (id : Int)
    (db : DB) : DB :=
  (body (stopAfter n k) id { base := db, work := db, done := false }).1.work

/-- The foreign keys of the cascade tables, as (referencing table, referenced table): the
id columns of `model/models.go` (`SensorReading.SensorID`, `Sensor.RegionID`, ...). -/
def tableReferences : List (String × String) :=
  [("sensor_readings", "sensors"), ("sensors", "regions"),
   ("notifications", "alerts"), ("alerts", "regions"), ("alerts", "alert_rules"),
   ("resource_changes", "resources"), ("resources", "regions"),
   ("maintenance_records", "devices"), ("device_status_logs", "devices"),
   ("devices", "regions")]

/-- The tables the ten statements of `DeleteRegion` delete from, in source order. -/
def regionCascadeOrder : List String :=
  ["sensor_readings", "sensors", "notifications", "alerts", "resource_changes", "resources",
   "maintenance_records", "device_status_logs", "devices", "regions"]

/-- The tables the statements of `DeleteDevice` delete from, in source order. -/
def deviceCascadeOrder : List String := ["maintenance_records", "device_status_logs", "devices"]

/-- The tables the statements of `DeleteSensor` delete from, in source order. -/
def sensorCascadeOrder : List String := ["sensor_readings", "sensors"]

/-- The tables the statements of `DeleteAlertRule` delete from, in source order. -/
def alertRuleCascadeOrder : List String := ["notifications", "alerts", "alert_rules"]

/-- The tables the statements of `DeleteResource` delete from, in source order. -/
def resourceCascadeOrder : List String := ["resource_changes", "resources"]

/-! ## Contracts of the libraries used in the statements -/

instance : IsTotal Role roleIdLE := ⟨fun a b => Int.le_total a.ID b.ID⟩

instance : IsTrans Role roleIdLE := ⟨fun _ _ _ h1 h2 => Int.le_trans h1 h2⟩

/-- The header, claims and signature `GenerateToken` puts into the token it issues with
the clock readings `clock` for a user: what a JWT library decodes that token to. -/
def issuedRaw (J : JwtLib) (clock : TokenClock) (userID : Int) (username : String) :
    RawToken :=
  { Alg := some "HS256"
    Claims := generateClaims clock userID username
    SigningInput := J.SigningString "HS256" (generateClaims clock userID username)
    Signature := J.Sign "HS256"
      (J.SigningString "HS256" (generateClaims clock userID username)) jwtSecret }

/-- The contract of the JWT library the program relies on, which speaks of the library
alone: the compact token the library builds for a method, claims and a key (the signing
string, a dot, the signature over the signing string) is decoded by the library to that
method, those claims, that signing string and that signature. -/
def JwtLib.Sound (J : JwtLib) : Prop :=
  ∀ (alg : String) (claims : Claims) (key : String),
    J.Decode (J.SigningString alg claims ++ "." ++
        J.Sign alg (J.SigningString alg claims) key)
      = some { Alg := some alg
               Claims := claims
               SigningInput := J.SigningString alg claims
               Signature := J.Sign alg (J.SigningString alg claims) key }

/-- A toy bcrypt used to evaluate the model on concrete data: the hash of `p` is `"$" ++ p`. -/
def toyBcrypt : Bcrypt where
  GenerateFromPassword p := some ("$" ++ p)
  CompareHashAndPassword h p := decide (h = "$" ++ p)

/-- A sample account: ACTIVE, no failed attempts, password `secret1`. -/
def alice : User :=
  { ID := 7, Username := "alice", PasswordHash := "$secret1", Email := "alice@example.org",
    RealName := "Alice", Phone := none, Status := "ACTIVE", LoginAttempts := 0,
    LastLoginAt := none, LockedUntil := none, CreatedAt := 0, UpdatedAt := 0 }

/-- A store holding only the sample account. -/
def aliceDB : DB := { DB.empty with users := [alice] }

/-- The fault plan in which exactly the store call labelled `k` fails, with driver error `msg`. -/
def failAt (k : Nat) (msg : String) : Faults := fun i => if i = k then some msg else none

/-- A store with two regions; region 1 owns one row in each dependent table, region 2 also. -/
def forestDB : DB :=
  { DB.empty with
    regions := [⟨1, "north", "FOREST", none, ""⟩, ⟨2, "south", "GRASSLAND", none, ""⟩]
    sensors := [⟨10, 1, ""⟩, ⟨20, 2, ""⟩]
    sensor_readings := [⟨100, 10, ""⟩, ⟨200, 20, ""⟩, ⟨101, 10, ""⟩]
    alert_rules := [⟨5, ""⟩]
    alerts := [⟨11, 5, 1, ""⟩, ⟨21, 5, 2, ""⟩]
    notifications := [⟨110, 11, 7, ""⟩, ⟨210, 21, 7, ""⟩]
    resources := [⟨12, 1, ""⟩, ⟨22, 2, ""⟩]
    resource_changes := [⟨120, 12, ""⟩, ⟨220, 22, ""⟩]
    devices := [⟨13, some 1, ""⟩, ⟨23, some 2, ""⟩, ⟨33, none, ""⟩]
    maintenance_records := [⟨130, 13, ""⟩, ⟨230, 23, ""⟩]
    device_status_logs := [⟨131, 13, ""⟩, ⟨231, 23, ""⟩, ⟨331, 33, ""⟩] }

/-- A permission graph: user 1 holds roles 1 and 2; role 1 grants (sensors, manage), role 2
grants (alerts, view); permission (devices, manage) exists but is granted to role 3 only. -/
def rbacDB : DB :=
  { DB.empty with
    roles := [⟨1, "ranger", none, 0, 0⟩, ⟨2, "analyst", none, 0, 0⟩, ⟨3, "technician", none, 0, 0⟩]
    permissions := [⟨1, "manage sensors", "sensors", "manage", none, 0, 0⟩,
                    ⟨2, "view alerts", "alerts", "view", none, 0, 0⟩,
                    ⟨3, "manage devices", "devices", "manage", none, 0, 0⟩]
    user_roles := [⟨1, 1, 0⟩, ⟨1, 2, 0⟩, ⟨2, 3, 0⟩]
    role_permissions := [⟨1, 1, 0⟩, ⟨2, 2, 0⟩, ⟨3, 3, 0⟩] }

/-- A request context that passed authentication as user 1. -/
def authedContext : GinContext :=
  { Headers := [], user_id := some 1, username := some "alice", Response := none,
    Aborted := false }

/-- A toy `Token.SigningString`: the method name, a dot, and the username. -/
def toySigningString (alg : String) (c : Claims) : String := alg ++ "." ++ c.Username

/-- A toy keyed hash: the text of its three arguments. -/
def toySign (alg text key : String) : String := "mac-" ++ alg ++ "-" ++ key ++ "-" ++ text

/-- The token string the toy library issues for claims `c` under method `alg` and key `key`. -/
def toyToken (alg key : String) (c : Claims) : String :=
  toySigningString alg c ++ "." ++ toySign alg (toySigningString alg c) key

/-- The decoded form of `toyToken alg key c`. -/
def toyRaw (alg key : String) (c : Claims) : RawToken :=
  { Alg := some alg, Claims := c, SigningInput := toySigningString alg c,
    Signature := toySign alg (toySigningString alg c) key }

/-- Claims issued at instant 0 for user 42, `alice`. -/
def aliceClaims : Claims := generateClaims ⟨0, 0, 0⟩ 42 "alice"

/-- A toy JWT library that can decode four tokens carrying `aliceClaims`: signed with the
process key under HS256, HS384 and `none`, and signed under HS256 with another key. -/
def toyJwt : JwtLib where
  SigningString := toySigningString
  Sign := toySign
  Decode s :=
    if s = toyToken "HS256" jwtSecret aliceClaims then
      some (toyRaw "HS256" jwtSecret aliceClaims)
    else if s = toyToken "HS384" jwtSecret aliceClaims then
      some (toyRaw "HS384" jwtSecret aliceClaims)
    else if s = toyToken "none" jwtSecret aliceClaims then
      some (toyRaw "none" jwtSecret aliceClaims)
    else if s = toyToken "HS256" "another-key" aliceClaims then
      some (toyRaw "HS256" "another-key" aliceClaims)
    else none

/-- A request carrying the token of `aliceClaims` as bearer token. -/
def bearerContext : GinContext :=
  { Headers := [("Authorization", "Bearer " ++ toyToken "HS256" jwtSecret aliceClaims)],
    user_id := none, username := none, Response := none, Aborted := false }

/-- The sample account after a lockout that began at instant 0: LOCKED, five failed
attempts, `locked_until` one hour after the lock. -/
def lockedAlice : User :=
  { alice with Status := "LOCKED", LoginAttempts := 5, LockedUntil := some Hour }

/-- A store holding only the locked sample account. -/
def lockedAliceDB : DB := { DB.empty with users := [lockedAlice] }

/-- The sample account disabled by an administrator. -/
def inactiveAlice : User := { alice with Status := "INACTIVE" }

/-- A store holding only the disabled sample account. -/
def inactiveAliceDB : DB := { DB.empty with users := [inactiveAlice] }

/-- The sample permission graph with the sample account as its only user. -/
def registryDB : DB := { rbacDB with users := [alice] }

/-- A registration for a new user `bob` with role 2. -/
def bobRegistration : UserRegistration :=
  { Username := "bob", Password := "hunter22", Email := "bob@example.org", RealName := "Bob",
    Phone := "", RoleID := 2 }

/-- A layout for instants used when an error text is evaluated: the nanosecond count. -/
def toyLayout (t : Time) : String := toString t

/-- The sample store with rows that reference ids no root row has: a sensor, an alert, a
resource and a device of region 9, and a reading, a notification, a change, a maintenance
record and a status log of sensor, alert, resource and device 9; alert 91 names rule 9. -/
def orphanDB : DB :=
  { forestDB with
    sensors := forestDB.sensors ++ [⟨90, 9, ""⟩]
    sensor_readings := forestDB.sensor_readings ++ [⟨900, 9, ""⟩]
    alerts := forestDB.alerts ++ [⟨91, 9, 9, ""⟩]
    notifications := forestDB.notifications ++ [⟨910, 9, 7, ""⟩]
    resources := forestDB.resources ++ [⟨92, 9, ""⟩]
    resource_changes := forestDB.resource_changes ++ [⟨920, 9, ""⟩]
    devices := forestDB.devices ++ [⟨93, some 9, ""⟩]
    maintenance_records := forestDB.maintenance_records ++ [⟨930, 9, ""⟩]
    device_status_logs := forestDB.device_status_logs ++ [⟨931, 9, ""⟩] }

/-- The five system roles of `role_system_test.go`, held by the table in no particular
order. -/
def seededRolesDB : DB :=
  { DB.empty with
    roles := [⟨4, "PUBLIC_USER", none, 0, 0⟩, ⟨1, "SYSTEM_ADMIN", none, 0, 0⟩,
              ⟨5, "INSPECTOR", none, 0, 0⟩, ⟨3, "FOREST_GUARD", none, 0, 0⟩,
              ⟨2, "DATA_ADMIN", none, 0, 0⟩] }

/-- A request without headers: no token. -/
def anonContext : GinContext :=
  { Headers := [], user_id := none, username := none, Response := none, Aborted := false }

/-- Characters are numbered by their code points. -/
instance : Encodable Char :=
  Encodable.ofLeftInjection (fun c => c.toNat) (fun n => some (Char.ofNat n))
    (fun c => by simp [Char.ofNat_toNat])

/-- Strings are numbered as lists of characters. -/
instance : Encodable String :=
  Encodable.ofLeftInjection String.data (fun l => some (String.mk l)) (fun _ => rfl)

/-- Registered claims are numbered as the tuple of their fields. -/
instance : Encodable RegisteredClaims :=
  Encodable.ofLeftInjection
    (fun r => (r.Issuer, r.Subject, r.Audience, r.ExpiresAt, r.NotBefore, r.IssuedAt, r.ID))
    (fun t => some ⟨t.1, t.2.1, t.2.2.1, t.2.2.2.1, t.2.2.2.2.1, t.2.2.2.2.2.1, t.2.2.2.2.2.2⟩)
    (fun _ => rfl)

/-- Claims are numbered as the tuple of their fields. -/
instance : Encodable Claims :=
  Encodable.ofLeftInjection (fun c => (c.UserID, c.Username, c.Registered))
    (fun t => some ⟨t.1, t.2.1, t.2.2⟩) (fun _ => rfl)

theorem find_map_update (users : List User) (name : String) (u : User) (g : User → User)
    (hg : ∀ x, (g x).Username = x.Username)
    (h : users.find? (fun x => x.Username = name) = some u) :
    (users.map fun x => if x.ID = u.ID then g x else x).find? (fun x => x.Username = name)
      = some (g u) := by
  induction users with
  | nil => simp at h
  | cons x xs ih =>
    by_cases hx : x.Username = name
    · have hxu : x = u := by simpa [List.find?, hx] using h
      subst hxu
      simp [List.find?, hg, hx]
    · have h2 : xs.find? (fun x => x.Username = name) = some u := by
        simpa [List.find?, hx] using h
      have ih2 := ih h2
      by_cases hid : x.ID = u.ID
      · simp [List.find?, hid, hg, hx]
        simpa using ih2
      · simp [List.find?, hid, hx]
        simpa using ih2

theorem passwordValid_congr (B : Bcrypt) (u v : User) (p : String)
    (h : v.PasswordHash = u.PasswordHash) : passwordValid B v p = passwordValid B u p := by
  simp [passwordValid, h]

theorem verify_fail_active_lt (B : Bcrypt) (f : Faults) (t : Time) (db : DB) (name p : String)
    (u : User) (hf0 : f 0 = none) (hf2 : f 2 = none)
    (hu : db.users.find? (fun x => x.Username = name) = some u)
    (hs : u.Status = "ACTIVE") (hp : passwordValid B u p = false)
    (hn : u.LoginAttempts + 1 < 5) :
    ∃ db1 u1, VerifyPassword B f t db name p = (db1, .error (GoError.new "用户名或密码错误")) ∧
      db1.users.find? (fun x => x.Username = name) = some u1 ∧
      u1.Status = "ACTIVE" ∧ u1.LoginAttempts = u.LoginAttempts + 1 ∧
      u1.PasswordHash = u.PasswordHash ∧ u1.LockedUntil = u.LockedUntil := by
  refine ⟨(UpdateLoginAttempts none t db u.ID (u.LoginAttempts + 1)).1,
    { u with LoginAttempts := u.LoginAttempts + 1, UpdatedAt := t }, ?_, ?_, hs, rfl, rfl, rfl⟩
  · have hn2 : ¬ (5 ≤ u.LoginAttempts + 1) := by omega
    simp [VerifyPassword, GetUserByUsername, hf0, hu, hs, verifyPasswordCheck, hp, hf2,
      UpdateLoginAttempts, execUpdateUser, hn2]
  · simp only [UpdateLoginAttempts, execUpdateUser]
    exact find_map_update db.users name u _ (fun _ => rfl) hu

theorem verify_fail_active_ge (B : Bcrypt) (f : Faults) (t : Time) (db : DB) (name p : String)
    (u : User) (hf0 : f 0 = none) (hf2 : f 2 = none) (hf3 : f 3 = none)
    (hu : db.users.find? (fun x => x.Username = name) = some u)
    (hs : u.Status = "ACTIVE") (hp : passwordValid B u p = false)
    (hn : 5 ≤ u.LoginAttempts + 1) :
    ∃ db1 u1, VerifyPassword B f t db name p = (db1, .error (GoError.new "用户名或密码错误")) ∧
      db1.users.find? (fun x => x.Username = name) = some u1 ∧
      u1.Status = "LOCKED" ∧ u1.LoginAttempts = u.LoginAttempts + 1 ∧
      u1.PasswordHash = u.PasswordHash ∧ u1.LockedUntil = some (t + Hour) := by
  refine ⟨(LockUser none t (UpdateLoginAttempts none t db u.ID (u.LoginAttempts + 1)).1
    u.ID Hour).1,
    { u with LoginAttempts := u.LoginAttempts + 1, Status := "LOCKED",
             LockedUntil := some (t + Hour), UpdatedAt := t }, ?_, ?_, rfl, rfl, rfl, rfl⟩
  · simp [VerifyPassword, GetUserByUsername, hf0, hu, hs, verifyPasswordCheck, hp, hf2, hf3,
      UpdateLoginAttempts, LockUser, execUpdateUser, hn]
  · have h1 := find_map_update db.users name u
      (fun x => { x with LoginAttempts := u.LoginAttempts + 1, UpdatedAt := t })
      (fun _ => rfl) hu
    have h2 := find_map_update _ name _
      (fun x => { x with Status := "LOCKED", LockedUntil := some (t + Hour), UpdatedAt := t })
      (fun _ => rfl) h1
    simpa [UpdateLoginAttempts, LockUser, execUpdateUser] using h2

theorem verify_locked_future (B : Bcrypt) (f : Faults) (t l : Time) (db : DB) (name p : String)
    (u : User) (hf0 : f 0 = none)
    (hu : db.users.find? (fun x => x.Username = name) = some u)
    (hs : u.Status = "LOCKED") (hl : u.LockedUntil = some l) (ht : t < l) :
    VerifyPassword B f t db name p
      = (db, .error (GoError.errorfT "用户账号已锁定，解锁时间：%v" (some l))) := by
  simp [VerifyPassword, GetUserByUsername, hf0, hu, hs, lockedInFuture, hl, ht]

theorem getUser_ok_iff (db : DB) (name : String) (u : User) :
    GetUserByUsername none db name = .ok u ↔
      db.users.find? (fun x => x.Username = name) = some u := by
  unfold GetUserByUsername
  cases h : db.users.find? (fun x => x.Username = name) <;> simp

/-! ## C1: lockout after five failed attempts -/

/-- C1. Starting from an ACTIVE account with `login_attempts = 0`, five consecutive
`VerifyPassword` calls (at any instants `t1 … t5`, every store call succeeding) with
non-matching passwords, that is passwords the password check of `VerifyPassword` rejects
(not the literal `123456` and no bcrypt match with the stored hash), each return the
invalid-credentials error; after the fifth call the stored row is LOCKED with
`locked_until = t5 + 1 hour`; and every call made at an instant before `locked_until`
returns the account-locked error for every password, the correct one and `123456`
included, leaving the store as it is. -/
theorem lockout_after_five_failures (B : Bcrypt) (db : DB) (name : String) (u : User)
    (p1 p2 p3 p4 p5 : String) (t1 t2 t3 t4 t5 : Time)
    (hu : GetUserByUsername none db name = .ok u)
    (hs : u.Status = "ACTIVE") (ha : u.LoginAttempts = 0)
    (h1 : passwordValid B u p1 = false) (h2 : passwordValid B u p2 = false)
    (h3 : passwordValid B u p3 = false) (h4 : passwordValid B u p4 = false)
    (h5 : passwordValid B u p5 = false) :
    let r1 := VerifyPassword B noFaults t1 db name p1
    let r2 := VerifyPassword B noFaults t2 r1.1 name p2
    let r3 := VerifyPassword B noFaults t3 r2.1 name p3
    let r4 := VerifyPassword B noFaults t4 r3.1 name p4
    let r5 := VerifyPassword B noFaults t5 r4.1 name p5
    (r1.2 = .error (GoError.new "用户名或密码错误") ∧
      r2.2 = .error (GoError.new "用户名或密码错误") ∧
      r3.2 = .error (GoError.new "用户名或密码错误") ∧
      r4.2 = .error (GoError.new "用户名或密码错误") ∧
      r5.2 = .error (GoError.new "用户名或密码错误")) ∧
    (∃ u5, GetUserByUsername none r5.1 name = .ok u5 ∧ u5.Status = "LOCKED" ∧
      u5.LoginAttempts = 5 ∧ u5.LockedUntil = some (t5 + Hour)) ∧
    (∀ (t : Time) (pw : String), t < t5 + Hour →
      VerifyPassword B noFaults t r5.1 name pw
        = (r5.1, .error (GoError.errorfT "用户账号已锁定，解锁时间：%v" (some (t5 + Hour))))) := by
  intro r1 r2 r3 r4 r5
  rw [getUser_ok_iff] at hu
  obtain ⟨d1, u1, e1, f1, s1, a1, w1, -⟩ :=
    verify_fail_active_lt B noFaults t1 db name p1 u rfl rfl hu hs h1 (by omega)
  have e1 : r1 = (d1, .error (GoError.new "用户名或密码错误")) := e1
  obtain ⟨d2, u2, e2, f2, s2, a2, w2, -⟩ :=
    verify_fail_active_lt B noFaults t2 d1 name p2 u1 rfl rfl f1 s1
      (by rw [← h2]; exact passwordValid_congr B _ _ _ w1) (by omega)
  have e2 : r2 = (d2, .error (GoError.new "用户名或密码错误")) := by
    simpa [r2, e1] using e2
  obtain ⟨d3, u3, e3, f3, s3, a3, w3, -⟩ :=
    verify_fail_active_lt B noFaults t3 d2 name p3 u2 rfl rfl f2 s2
      (by rw [← h3]; exact passwordValid_congr B _ _ _ (w2.trans w1)) (by omega)
  have e3 : r3 = (d3, .error (GoError.new "用户名或密码错误")) := by
    simpa [r3, e2] using e3
  obtain ⟨d4, u4, e4, f4, s4, a4, w4, -⟩ :=
    verify_fail_active_lt B noFaults t4 d3 name p4 u3 rfl rfl f3 s3
      (by rw [← h4]; exact passwordValid_congr B _ _ _ (w3.trans (w2.trans w1))) (by omega)
  have e4 : r4 = (d4, .error (GoError.new "用户名或密码错误")) := by
    simpa [r4, e3] using e4
  obtain ⟨d5, u5, e5, f5, s5, a5, -, l5⟩ :=
    verify_fail_active_ge B noFaults t5 d4 name p5 u4 rfl rfl rfl f4 s4
      (by rw [← h5]; exact passwordValid_congr B _ _ _ (w4.trans (w3.trans (w2.trans w1))))
      (by omega)
  have e5 : r5 = (d5, .error (GoError.new "用户名或密码错误")) := by
    simpa [r5, e4] using e5
  refine ⟨⟨by rw [e1], by rw [e2], by rw [e3], by rw [e4], by rw [e5]⟩, ?_, ?_⟩
  · refine ⟨u5, ?_, s5, by omega, l5⟩
    rw [getUser_ok_iff, e5]; exact f5
  · intro t pw ht
    rw [e5]
    exact verify_locked_future B noFaults t (t5 + Hour) d5 name pw u5 rfl f5 s5 l5 ht

/-- Witness for C1 on the sample account: the hypotheses hold there and the first wrong
attempt is answered with the invalid-credentials error. -/
theorem lockout_after_five_failures_witness :
    (GetUserByUsername none aliceDB "alice" = .ok alice ∧ alice.Status = "ACTIVE" ∧
      alice.LoginAttempts = 0 ∧ passwordValid toyBcrypt alice "wrong" = false) ∧
    (VerifyPassword toyBcrypt noFaults 10 aliceDB "alice" "wrong").2
      = .error (GoError.new "用户名或密码错误") :=
  ⟨⟨by decide, by decide, by decide, by decide⟩,
   (lockout_after_five_failures toyBcrypt aliceDB "alice" alice
      "wrong" "wrong" "wrong" "wrong" "wrong" 10 20 30 40 50
      (by decide) (by decide) (by decide) (by decide) (by decide) (by decide) (by decide)
      (by decide)).1.1⟩

/-! ## C2: a failing statement rolls the cascade back -/

theorem DeleteRegion_fault (f : Faults) (db : DB) (id : Int)
    (h : ∃ k, 1 ≤ k ∧ k ≤ 10 ∧ f k ≠ none) :
    (DeleteRegion f db id).1 = db ∧ (DeleteRegion f db id).2 ≠ none := by
  obtain ⟨k, hk1, hk2, hk⟩ := h
  rcases e0 : f 0 with _ | m
  swap
  · simp [DeleteRegion, BeginTx, e0]
  rcases e1 : f 1 with _ | m
  swap
  · simp [DeleteRegion, BeginTx, deleteRegionBody, Tx.ExecContext, Tx.Rollback, e0, e1]
  rcases e2 : f 2 with _ | m
  swap
  · simp [DeleteRegion, BeginTx, deleteRegionBody, Tx.ExecContext, Tx.Rollback, e0, e1, e2]
  rcases e3 : f 3 with _ | m
  swap
  · simp [DeleteRegion, BeginTx, deleteRegionBody, Tx.ExecContext, Tx.Rollback, e0, e1, e2, e3]
  rcases e4 : f 4 with _ | m
  swap
  · simp [DeleteRegion, BeginTx, deleteRegionBody, Tx.ExecContext, Tx.Rollback, e0, e1, e2, e3, e4]
  rcases e5 : f 5 with _ | m
  swap
  · simp [DeleteRegion, BeginTx, deleteRegionBody, Tx.ExecContext, Tx.Rollback, e0, e1, e2, e3, e4, e5]
  rcases e6 : f 6 with _ | m
  swap
  · simp [DeleteRegion, BeginTx, deleteRegionBody, Tx.ExecContext, Tx.Rollback, e0, e1, e2, e3, e4, e5, e6]
  rcases e7 : f 7 with _ | m
  swap
  · simp [DeleteRegion, BeginTx, deleteRegionBody, Tx.ExecContext, Tx.Rollback, e0, e1, e2, e3, e4, e5, e6, e7]
  rcases e8 : f 8 with _ | m
  swap
  · simp [DeleteRegion, BeginTx, deleteRegionBody, Tx.ExecContext, Tx.Rollback, e0, e1, e2, e3, e4, e5, e6, e7, e8]
  rcases e9 : f 9 with _ | m
  swap
  · simp [DeleteRegion, BeginTx, deleteRegionBody, Tx.ExecContext, Tx.Rollback, e0, e1, e2, e3, e4, e5, e6, e7, e8, e9]
  rcases e10 : f 10 with _ | m
  swap
  · simp [DeleteRegion, BeginTx, deleteRegionBody, Tx.ExecContext, Tx.Rollback, e0, e1, e2, e3, e4, e5, e6, e7, e8, e9, e10]
  interval_cases k <;> simp_all

theorem DeleteDevice_fault (f : Faults) (db : DB) (id : Int)
    (h : ∃ k, 1 ≤ k ∧ k ≤ 3 ∧ f k ≠ none) :
    (DeleteDevice f db id).1 = db ∧ (DeleteDevice f db id).2 ≠ none := by
  obtain ⟨k, hk1, hk2, hk⟩ := h
  rcases e0 : f 0 with _ | m
  swap
  · simp [DeleteDevice, BeginTx, e0]
  rcases e1 : f 1 with _ | m
  swap
  · simp [DeleteDevice, BeginTx, deleteDeviceBody, Tx.ExecContext, Tx.Rollback, e0, e1]
  rcases e2 : f 2 with _ | m
  swap
  · simp [DeleteDevice, BeginTx, deleteDeviceBody, Tx.ExecContext, Tx.Rollback, e0, e1, e2]
  rcases e3 : f 3 with _ | m
  swap
  · simp [DeleteDevice, BeginTx, deleteDeviceBody, Tx.ExecContext, Tx.Rollback, e0, e1, e2, e3]
  interval_cases k <;> simp_all

theorem DeleteSensor_fault (f : Faults) (db : DB) (id : Int)
    (h : ∃ k, 1 ≤ k ∧ k ≤ 2 ∧ f k ≠ none) :
    (DeleteSensor f db id).1 = db ∧ (DeleteSensor f db id).2 ≠ none := by
  obtain ⟨k, hk1, hk2, hk⟩ := h
  rcases e0 : f 0 with _ | m
  swap
  · simp [DeleteSensor, BeginTx, e0]
  rcases e1 : f 1 with _ | m
  swap
  · simp [DeleteSensor, BeginTx, deleteSensorBody, Tx.ExecContext, Tx.Rollback, e0, e1]
  rcases e2 : f 2 with _ | m
  swap
  · simp [DeleteSensor, BeginTx, deleteSensorBody, Tx.ExecContext, Tx.Rollback, e0, e1, e2]
  interval_cases k <;> simp_all

theorem DeleteAlertRule_fault (f : Faults) (db : DB) (id : Int)
    (h : ∃ k, 1 ≤ k ∧ k ≤ 3 ∧ f k ≠ none) :
    (DeleteAlertRule f db id).1 = db ∧ (DeleteAlertRule f db id).2 ≠ none := by
  obtain ⟨k, hk1, hk2, hk⟩ := h
  rcases e0 : f 0 with _ | m
  swap
  · simp [DeleteAlertRule, BeginTx, e0]
  rcases e1 : f 1 with _ | m
  swap
  · simp [DeleteAlertRule, BeginTx, deleteAlertRuleBody, Tx.ExecContext, Tx.Rollback, e0, e1]
  rcases e2 : f 2 with _ | m
  swap
  · simp [DeleteAlertRule, BeginTx, deleteAlertRuleBody, Tx.ExecContext, Tx.Rollback, e0, e1, e2]
  rcases e3 : f 3 with _ | m
  swap
  · simp [DeleteAlertRule, BeginTx, deleteAlertRuleBody, Tx.ExecContext, Tx.Rollback, e0, e1, e2, e3]
  interval_cases k <;> simp_all

theorem DeleteResource_fault (f : Faults) (db : DB) (id : Int)
    (h : ∃ k, 1 ≤ k ∧ k ≤ 2 ∧ f k ≠ none) :
    (DeleteResource f db id).1 = db ∧ (DeleteResource f db id).2 ≠ none := by
  obtain ⟨k, hk1, hk2, hk⟩ := h
  rcases e0 : f 0 with _ | m
  swap
  · simp [DeleteResource, BeginTx, e0]
  rcases e1 : f 1 with _ | m
  swap
  · simp [DeleteResource, BeginTx, deleteResourceBody, Tx.ExecContext, Tx.Rollback, e0, e1]
  rcases e2 : f 2 with _ | m
  swap
  · simp [DeleteResource, BeginTx, deleteResourceBody, Tx.ExecContext, Tx.Rollback, e0, e1, e2]
  interval_cases k <;> simp_all

/-- C2. For each of `DeleteRegion`, `DeleteDevice`, `DeleteSensor`, `DeleteAlertRule` and
`DeleteResource`: when any delete statement of the cascade fails (statement `k` of the
operation, whatever the earlier statements did), the operation returns an error and the
store after the call is the store before the call. -/
theorem cascade_delete_failure_rolls_back (f : Faults) (db : DB) (id : Int) :
    ((∃ k, 1 ≤ k ∧ k ≤ 10 ∧ f k ≠ none) →
      (DeleteRegion f db id).1 = db ∧ (DeleteRegion f db id).2 ≠ none) ∧
    ((∃ k, 1 ≤ k ∧ k ≤ 3 ∧ f k ≠ none) →
      (DeleteDevice f db id).1 = db ∧ (DeleteDevice f db id).2 ≠ none) ∧
    ((∃ k, 1 ≤ k ∧ k ≤ 2 ∧ f k ≠ none) →
      (DeleteSensor f db id).1 = db ∧ (DeleteSensor f db id).2 ≠ none) ∧
    ((∃ k, 1 ≤ k ∧ k ≤ 3 ∧ f k ≠ none) →
      (DeleteAlertRule f db id).1 = db ∧ (DeleteAlertRule f db id).2 ≠ none) ∧
    ((∃ k, 1 ≤ k ∧ k ≤ 2 ∧ f k ≠ none) →
      (DeleteResource f db id).1 = db ∧ (DeleteResource f db id).2 ≠ none) :=
  ⟨DeleteRegion_fault f db id, DeleteDevice_fault f db id, DeleteSensor_fault f db id,
   DeleteAlertRule_fault f db id, DeleteResource_fault f db id⟩

/-- Witness for C2: statement 5 of `DeleteRegion` (resource changes) fails on the sample
store after four deletes went through; the call errs and the store is untouched. -/
theorem cascade_delete_failure_rolls_back_witness :
    (∃ k, 1 ≤ k ∧ k ≤ 10 ∧ failAt 5 "lock wait timeout" k ≠ none) ∧
    (DeleteRegion (failAt 5 "lock wait timeout") forestDB 1).1 = forestDB ∧
    (DeleteRegion (failAt 5 "lock wait timeout") forestDB 1).2 ≠ none :=
  ⟨⟨5, by decide, by decide, by decide⟩,
   (cascade_delete_failure_rolls_back (failAt 5 "lock wait timeout") forestDB 1).1
     ⟨5, by decide, by decide, by decide⟩⟩

/-! ## C3: a successful `DeleteRegion` removes the region and its subtree -/

theorem deleteRegion_ok (db : DB) (id : Int) (hex : ∃ r ∈ db.regions, r.ID = id) :
    DeleteRegion noFaults db id =
      ({ db with
          regions := db.regions.filter fun r => !decide (r.ID = id)
          sensors := db.sensors.filter fun s => !decide (s.RegionID = id)
          sensor_readings := db.sensor_readings.filter fun x =>
            !decide (x.SensorID ∈ sensorIdsOfRegion db id)
          alerts := db.alerts.filter fun a => !decide (a.RegionID = id)
          notifications := db.notifications.filter fun n =>
            !decide (n.AlertID ∈ alertIdsOfRegion db id)
          resources := db.resources.filter fun r => !decide (r.RegionID = id)
          resource_changes := db.resource_changes.filter fun c =>
            !decide (c.ResourceID ∈ resourceIdsOfRegion db id)
          devices := db.devices.filter fun d => !decide (d.InstallRegionID = some id)
          maintenance_records := db.maintenance_records.filter fun m =>
            !decide (m.DeviceID ∈ deviceIdsOfRegion db id)
          device_status_logs := db.device_status_logs.filter fun l =>
            !decide (l.DeviceID ∈ deviceIdsOfRegion db id) }, none) := by
  obtain ⟨r, hr, hid⟩ := hex
  have hne : (db.regions.filter fun x => decide (x.ID = id)) ≠ [] := by
    intro h
    have : r ∈ db.regions.filter fun x => decide (x.ID = id) := by
      simp [List.mem_filter, hr, hid]
    rw [h] at this
    simp at this
  simp [DeleteRegion, BeginTx, noFaults, deleteRegionBody, Tx.ExecContext, Tx.Commit,
    Tx.Rollback, delReadingsOfRegion, delSensorsOfRegion, delNotificationsOfRegion,
    delAlertsOfRegion, delChangesOfRegion, delResourcesOfRegion, delMaintenanceOfRegion,
    delStatusLogsOfRegion, delDevicesOfRegion, delRegion, deleteWhere, sensorIdsOfRegion,
    alertIdsOfRegion, resourceIdsOfRegion, deviceIdsOfRegion, hne]

/-- C3. If a region with the given id exists and no store call fails, `DeleteRegion(id)`
returns no error and afterwards: no region row has that id; no sensor has `region_id = id`
and no reading belongs to such a sensor; no alert has `region_id = id` and no notification
belongs to such an alert; no resource has `region_id = id` and no resource change belongs to
such a resource; no device has `install_region_id = id` and no maintenance record or status
log belongs to such a device.  Every table keeps, in order, exactly its rows that did not
belong to the region, and the tables outside the cascade are unchanged. -/
theorem deleteRegion_removes_region_subtree (db : DB) (id : Int)
    (hex : ∃ r ∈ db.regions, r.ID = id) :
    let after := (DeleteRegion noFaults db id).1
    (DeleteRegion noFaults db id).2 = none ∧
    (∀ r ∈ after.regions, r.ID ≠ id) ∧
    (∀ s ∈ after.sensors, s.RegionID ≠ id) ∧
    (∀ x ∈ after.sensor_readings, ∀ s ∈ db.sensors, s.RegionID = id → x.SensorID ≠ s.ID) ∧
    (∀ a ∈ after.alerts, a.RegionID ≠ id) ∧
    (∀ n ∈ after.notifications, ∀ a ∈ db.alerts, a.RegionID = id → n.AlertID ≠ a.ID) ∧
    (∀ r ∈ after.resources, r.RegionID ≠ id) ∧
    (∀ c ∈ after.resource_changes, ∀ r ∈ db.resources, r.RegionID = id → c.ResourceID ≠ r.ID) ∧
    (∀ d ∈ after.devices, d.InstallRegionID ≠ some id) ∧
    (∀ m ∈ after.maintenance_records, ∀ d ∈ db.devices,
      d.InstallRegionID = some id → m.DeviceID ≠ d.ID) ∧
    (∀ l ∈ after.device_status_logs, ∀ d ∈ db.devices,
      d.InstallRegionID = some id → l.DeviceID ≠ d.ID) ∧
    after =
      { db with
          regions := db.regions.filter fun r => decide (r.ID ≠ id)
          sensors := db.sensors.filter fun s => decide (s.RegionID ≠ id)
          sensor_readings := db.sensor_readings.filter fun x =>
            decide (∀ s ∈ db.sensors, s.RegionID = id → x.SensorID ≠ s.ID)
          alerts := db.alerts.filter fun a => decide (a.RegionID ≠ id)
          notifications := db.notifications.filter fun n =>
            decide (∀ a ∈ db.alerts, a.RegionID = id → n.AlertID ≠ a.ID)
          resources := db.resources.filter fun r => decide (r.RegionID ≠ id)
          resource_changes := db.resource_changes.filter fun c =>
            decide (∀ r ∈ db.resources, r.RegionID = id → c.ResourceID ≠ r.ID)
          devices := db.devices.filter fun d => decide (d.InstallRegionID ≠ some id)
          maintenance_records := db.maintenance_records.filter fun m =>
            decide (∀ d ∈ db.devices, d.InstallRegionID = some id → m.DeviceID ≠ d.ID)
          device_status_logs := db.device_status_logs.filter fun l =>
            decide (∀ d ∈ db.devices, d.InstallRegionID = some id → l.DeviceID ≠ d.ID) } := by
  intro after
  have h := deleteRegion_ok db id hex
  have ha : after = (DeleteRegion noFaults db id).1 := rfl
  rw [h] at ha ⊢
  simp only at ha
  clear_value after
  subst ha
  refine ⟨rfl, ?_, ?_, ?_, ?_, ?_, ?_, ?_, ?_, ?_, ?_, ?_⟩
  · intro r hr; simpa using (List.mem_filter.mp hr).2
  · intro r hr; simpa using (List.mem_filter.mp hr).2
  · intro x hx t ht hid
    have := (List.mem_filter.mp hx).2
    simp [sensorIdsOfRegion] at this
    exact fun e => this t ht hid e.symm
  · intro r hr; simpa using (List.mem_filter.mp hr).2
  · intro x hx t ht hid
    have := (List.mem_filter.mp hx).2
    simp [alertIdsOfRegion] at this
    exact fun e => this t ht hid e.symm
  · intro r hr; simpa using (List.mem_filter.mp hr).2
  · intro x hx t ht hid
    have := (List.mem_filter.mp hx).2
    simp [resourceIdsOfRegion] at this
    exact fun e => this t ht hid e.symm
  · intro r hr; simpa using (List.mem_filter.mp hr).2
  · intro x hx t ht hid
    have := (List.mem_filter.mp hx).2
    simp [deviceIdsOfRegion] at this
    exact fun e => this t ht hid e.symm
  · intro x hx t ht hid
    have := (List.mem_filter.mp hx).2
    simp [deviceIdsOfRegion] at this
    exact fun e => this t ht hid e.symm
  · have key : ∀ (ids : List Int) (P : Int → Prop) [DecidablePred P],
        (∀ i, i ∈ ids ↔ ¬ P i) → ∀ i, (!decide (i ∈ ids)) = decide (P i) := by
      intro ids P _ hP i
      by_cases hi : P i
      · have : i ∉ ids := fun hm => (hP i).mp hm hi
        simp [hi, this]
      · have : i ∈ ids := (hP i).mpr hi
        simp [hi, this]
    have e1 : ∀ i, i ∈ sensorIdsOfRegion db id
        ↔ ¬ (∀ s ∈ db.sensors, s.RegionID = id → i ≠ s.ID) := by
      intro i
      simp only [sensorIdsOfRegion, List.mem_map, List.mem_filter, decide_eq_true_eq]
      constructor
      · rintro ⟨t, ⟨ht, hid⟩, e⟩ hn; exact hn t ht hid e.symm
      · intro hn
        by_contra hc
        exact hn fun t ht hid e => hc ⟨t, ⟨ht, hid⟩, e.symm⟩
    have e2 : ∀ i, i ∈ alertIdsOfRegion db id
        ↔ ¬ (∀ a ∈ db.alerts, a.RegionID = id → i ≠ a.ID) := by
      intro i
      simp only [alertIdsOfRegion, List.mem_map, List.mem_filter, decide_eq_true_eq]
      constructor
      · rintro ⟨t, ⟨ht, hid⟩, e⟩ hn; exact hn t ht hid e.symm
      · intro hn
        by_contra hc
        exact hn fun t ht hid e => hc ⟨t, ⟨ht, hid⟩, e.symm⟩
    have e3 : ∀ i, i ∈ resourceIdsOfRegion db id
        ↔ ¬ (∀ r ∈ db.resources, r.RegionID = id → i ≠ r.ID) := by
      intro i
      simp only [resourceIdsOfRegion, List.mem_map, List.mem_filter, decide_eq_true_eq]
      constructor
      · rintro ⟨t, ⟨ht, hid⟩, e⟩ hn; exact hn t ht hid e.symm
      · intro hn
        by_contra hc
        exact hn fun t ht hid e => hc ⟨t, ⟨ht, hid⟩, e.symm⟩
    have e4 : ∀ i, i ∈ deviceIdsOfRegion db id
        ↔ ¬ (∀ d ∈ db.devices, d.InstallRegionID = some id → i ≠ d.ID) := by
      intro i
      simp only [deviceIdsOfRegion, List.mem_map, List.mem_filter, decide_eq_true_eq]
      constructor
      · rintro ⟨t, ⟨ht, hid⟩, e⟩ hn; exact hn t ht hid e.symm
      · intro hn
        by_contra hc
        exact hn fun t ht hid e => hc ⟨t, ⟨ht, hid⟩, e.symm⟩
    have k1 := key _ _ e1
    have k2 := key _ _ e2
    have k3 := key _ _ e3
    have k4 := key _ _ e4
    simp only [k1, k2, k3, k4, ← decide_not, ne_eq]

/-- Witness for C3 on the sample store: region 1 exists and its deletion succeeds. -/
theorem deleteRegion_removes_region_subtree_witness :
    (∃ r ∈ forestDB.regions, r.ID = 1) ∧ (DeleteRegion noFaults forestDB 1).2 = none :=
  ⟨⟨⟨1, "north", "FOREST", none, ""⟩, by decide, rfl⟩,
   (deleteRegion_removes_region_subtree forestDB 1
      ⟨⟨1, "north", "FOREST", none, ""⟩, by decide, rfl⟩).1⟩

/-! ## C4: the permission check is the two-hop join -/

theorem permissionJoinRows_ne_nil_iff (db : DB) (userID : Int) (resource action : String) :
    permissionJoinRows db userID resource action ≠ [] ↔
      ∃ ur ∈ db.user_roles, ∃ rp ∈ db.role_permissions, ∃ p ∈ db.permissions,
        ur.UserID = userID ∧ rp.RoleID = ur.RoleID ∧ rp.PermissionID = p.ID ∧
        p.Resource = resource ∧ p.Action = action := by
  rw [← List.length_pos, List.length_pos_iff_exists_mem]
  constructor
  · rintro ⟨⟨p, rp, ur⟩, hm⟩
    simp only [permissionJoinRows, List.mem_flatMap, List.mem_filter, List.mem_map,
      decide_eq_true_eq, Prod.mk.injEq] at hm
    obtain ⟨p1, hp1, rp1, ⟨hrp1, e1⟩, ur1, ⟨⟨hur1, e2⟩, e3, e4, e5⟩, -⟩ := hm
    exact ⟨ur1, hur1, rp1, hrp1, p1, hp1, e3, e2, e1.symm, e4, e5⟩
  · rintro ⟨ur, hur, rp, hrp, p, hp, e1, e2, e3, e4, e5⟩
    refine ⟨(p, rp, ur), ?_⟩
    simp only [permissionJoinRows, List.mem_flatMap, List.mem_filter, List.mem_map,
      decide_eq_true_eq, Prod.mk.injEq]
    exact ⟨p, hp, rp, ⟨hrp, e3.symm⟩, ur, ⟨⟨hur, e2⟩, e1, e4, e5⟩, rfl, rfl, rfl⟩

/-- C4. When its query is answered, `CheckUserPermission(userID, resource, action)` returns
true exactly when some `user_roles` row `(userID, r)` and some `role_permissions` row
`(r, p)` lead to a permission `p` with that resource and that action, and false otherwise.
In particular the user is granted every permission of every role it holds, and is denied a
`(resource, action)` that no permission of any of its roles carries.  Whatever the outcome
of the query, true is never returned without such a path. -/
theorem checkUserPermission_iff_two_hop_path (db : DB) (userID : Int)
    (resource action : String) :
    (CheckUserPermission none db userID resource action = (true, none) ↔
      ∃ ur ∈ db.user_roles, ∃ rp ∈ db.role_permissions, ∃ p ∈ db.permissions,
        ur.UserID = userID ∧ rp.RoleID = ur.RoleID ∧ rp.PermissionID = p.ID ∧
        p.Resource = resource ∧ p.Action = action) ∧
    (CheckUserPermission none db userID resource action = (false, none) ↔
      ¬ ∃ ur ∈ db.user_roles, ∃ rp ∈ db.role_permissions, ∃ p ∈ db.permissions,
        ur.UserID = userID ∧ rp.RoleID = ur.RoleID ∧ rp.PermissionID = p.ID ∧
        p.Resource = resource ∧ p.Action = action) ∧
    (∀ ur ∈ db.user_roles, ∀ rp ∈ db.role_permissions, ∀ p ∈ db.permissions,
      ur.UserID = userID → rp.RoleID = ur.RoleID → rp.PermissionID = p.ID →
      CheckUserPermission none db userID p.Resource p.Action = (true, none)) ∧
    ((∀ ur ∈ db.user_roles, ∀ rp ∈ db.role_permissions, ∀ p ∈ db.permissions,
        ur.UserID = userID → rp.RoleID = ur.RoleID → rp.PermissionID = p.ID →
        ¬ (p.Resource = resource ∧ p.Action = action)) →
      CheckUserPermission none db userID resource action = (false, none)) ∧
    (∀ fail, (CheckUserPermission fail db userID resource action).1 = true →
      ∃ ur ∈ db.user_roles, ∃ rp ∈ db.role_permissions, ∃ p ∈ db.permissions,
        ur.UserID = userID ∧ rp.RoleID = ur.RoleID ∧ rp.PermissionID = p.ID ∧
        p.Resource = resource ∧ p.Action = action) := by
  have key : ∀ res act, (CheckUserPermission none db userID res act = (true, none) ↔
      permissionJoinRows db userID res act ≠ []) ∧
      (CheckUserPermission none db userID res act = (false, none) ↔
      ¬ permissionJoinRows db userID res act ≠ []) := by
    intro res act
    cases h : permissionJoinRows db userID res act <;> simp [CheckUserPermission, h]
  refine ⟨?_, ?_, ?_, ?_, ?_⟩
  · rw [(key resource action).1, permissionJoinRows_ne_nil_iff]
  · rw [(key resource action).2, permissionJoinRows_ne_nil_iff]
  · intro ur hur rp hrp p hp e1 e2 e3
    rw [(key p.Resource p.Action).1, permissionJoinRows_ne_nil_iff]
    exact ⟨ur, hur, rp, hrp, p, hp, e1, e2, e3, rfl, rfl⟩
  · intro hno
    rw [(key resource action).2, permissionJoinRows_ne_nil_iff]
    rintro ⟨ur, hur, rp, hrp, p, hp, e1, e2, e3, e4, e5⟩
    exact hno ur hur rp hrp p hp e1 e2 e3 ⟨e4, e5⟩
  · intro fail h
    cases fail with
    | some e => simp [CheckUserPermission] at h
    | none =>
      rw [← permissionJoinRows_ne_nil_iff, ← (key resource action).1]
      cases hc : CheckUserPermission none db userID resource action with
      | mk b e =>
        have hb : b = true := by simpa [hc] using h
        have he : e = none := by
          have := congrArg Prod.snd hc
          simpa [CheckUserPermission] using this.symm
        rw [hb, he]

/-- Witness for C4 on the sample graph (user 1 with roles 1 and 2): both granted
permissions are found and the permission of neither role is refused. -/
theorem checkUserPermission_iff_two_hop_path_witness :
    CheckUserPermission none rbacDB 1 "sensors" "manage" = (true, none) ∧
    CheckUserPermission none rbacDB 1 "alerts" "view" = (true, none) ∧
    CheckUserPermission none rbacDB 1 "devices" "manage" = (false, none) :=
  ⟨(checkUserPermission_iff_two_hop_path rbacDB 1 "sensors" "manage").2.2.1
      ⟨1, 1, 0⟩ (by decide) ⟨1, 1, 0⟩ (by decide)
      ⟨1, "manage sensors", "sensors", "manage", none, 0, 0⟩ (by decide) rfl rfl rfl,
   (checkUserPermission_iff_two_hop_path rbacDB 1 "alerts" "view").2.2.1
      ⟨1, 2, 0⟩ (by decide) ⟨2, 2, 0⟩ (by decide)
      ⟨2, "view alerts", "alerts", "view", none, 0, 0⟩ (by decide) rfl rfl rfl,
   (checkUserPermission_iff_two_hop_path rbacDB 1 "devices" "manage").2.2.2.1 (by decide)⟩

/-! ## C5: the authorization filter fails closed -/

theorem hasPermissionQuery_iff (db : DB) (userID : Int) (resource action : String) :
    hasPermissionQuery db userID resource action = true ↔
      ∃ ur ∈ db.user_roles, ∃ rp ∈ db.role_permissions, ∃ p ∈ db.permissions,
        ur.UserID = userID ∧ rp.RoleID = ur.RoleID ∧ rp.PermissionID = p.ID ∧
        p.Resource = resource ∧ p.Action = action := by
  simp only [hasPermissionQuery, List.any_eq_true, Bool.and_eq_true, decide_eq_true_eq]
  constructor
  · rintro ⟨ur, hur, rp, hrp, e1, p, hp, e2, e3, e4, e5⟩
    exact ⟨ur, hur, rp, hrp, p, hp, e3, e1.symm, e2, e4, e5⟩
  · rintro ⟨ur, hur, rp, hrp, p, hp, e1, e2, e3, e4, e5⟩
    exact ⟨ur, hur, rp, hrp, e2.symm, p, hp, e3, e1, e4, e5⟩

/-- C5. `CheckPermissionMiddleware` in front of any further handlers `hs`:
it aborts with 401 when the context holds no `user_id`; aborts with 500 when the lookup
fails; aborts with 403 when the lookup answers false; in each of these cases none of `hs`
runs.  It hands the unchanged context on to `hs` when the lookup succeeded and answered
true, and only then: a context that leaves the middleware not aborted had a `user_id`, a
successful lookup and the answer true. -/
theorem checkPermissionMiddleware_fails_closed (fail : Option String) (db : DB)
    (resource action : String) (c : GinContext) (hs : List (GinContext → GinContext)) :
    (c.user_id = none →
      runChain (CheckPermissionMiddleware fail db resource action :: hs) c
        = (c.JSON 401 "未认证的用户").Abort) ∧
    (∀ uid, c.user_id = some uid → fail ≠ none →
      runChain (CheckPermissionMiddleware fail db resource action :: hs) c
        = (c.JSON 500 "权限检查失败").Abort) ∧
    (∀ uid, c.user_id = some uid → fail = none →
      hasPermissionQuery db uid resource action = false →
      runChain (CheckPermissionMiddleware fail db resource action :: hs) c
        = (c.JSON 403 "没有操作权限").Abort) ∧
    (∀ uid, c.user_id = some uid → fail = none →
      hasPermissionQuery db uid resource action = true → c.Aborted = false →
      runChain (CheckPermissionMiddleware fail db resource action :: hs) c = runChain hs c) ∧
    ((CheckPermissionMiddleware fail db resource action c).Aborted = false →
      ∃ uid, c.user_id = some uid ∧ fail = none ∧
        hasPermissionQuery db uid resource action = true) := by
  refine ⟨?_, ?_, ?_, ?_, ?_⟩
  · intro h
    simp [runChain, CheckPermissionMiddleware, h, GinContext.Abort, GinContext.JSON]
  · intro uid h hf
    obtain ⟨e, he⟩ := Option.ne_none_iff_exists'.mp hf
    simp [runChain, CheckPermissionMiddleware, h, he, GinContext.Abort, GinContext.JSON]
  · intro uid h hf hq
    simp [runChain, CheckPermissionMiddleware, h, hf, hq, GinContext.Abort, GinContext.JSON]
  · intro uid h hf hq ha
    simp [runChain, CheckPermissionMiddleware, h, hf, hq, ha]
  · intro h
    cases hu : c.user_id with
    | none => simp [CheckPermissionMiddleware, hu, GinContext.Abort, GinContext.JSON] at h
    | some uid =>
      cases hf : fail with
      | some e =>
        simp [CheckPermissionMiddleware, hu, hf, GinContext.Abort, GinContext.JSON] at h
      | none =>
        cases hq : hasPermissionQuery db uid resource action with
        | false =>
          simp [CheckPermissionMiddleware, hu, hf, hq, GinContext.Abort, GinContext.JSON] at h
        | true => exact ⟨uid, rfl, rfl, hq⟩

/-- Witness for C5: user 1 of the sample graph asks for (devices, manage), which none of
its roles grants, and is stopped with 403 before the handler. -/
theorem checkPermissionMiddleware_fails_closed_witness :
    (authedContext.user_id = some 1 ∧
      hasPermissionQuery rbacDB 1 "devices" "manage" = false) ∧
    runChain [CheckPermissionMiddleware none rbacDB "devices" "manage",
        fun c => c.JSON 200 "handler ran"] authedContext
      = (authedContext.JSON 403 "没有操作权限").Abort :=
  ⟨⟨rfl, by decide⟩,
   (checkPermissionMiddleware_fails_closed none rbacDB "devices" "manage" authedContext
      [fun c => c.JSON 200 "handler ran"]).2.2.1 1 rfl rfl (by decide)⟩

/-! ## C6: the authentication filter -/

theorem dropWhile_head {α : Type} (q : α → Bool) (l : List α) (x : α) (r : List α)
    (h : l.dropWhile q = x :: r) : q x = false := by
  induction l with
  | nil => simp at h
  | cons y ys ih =>
    by_cases hy : q y = true
    · simp only [List.dropWhile_cons, hy, if_true] at h
      exact ih h
    · simp only [List.dropWhile_cons, hy] at h
      simp only [Bool.false_eq_true, if_false, List.cons.injEq] at h
      rw [← h.1]
      simpa using hy

theorem splitN2_bearer (tok : String) : splitN2 ("Bearer " ++ tok) = ["Bearer", tok] := by
  have h : ("Bearer " ++ tok).toList
      = 'B' :: 'e' :: 'a' :: 'r' :: 'e' :: 'r' :: ' ' :: tok.toList := by
    simp [String.toList, String.data_append]
  simp [splitN2, h, List.dropWhile, List.takeWhile]

theorem splitN2_bearer_iff (s : String) :
    ((splitN2 s).length = 2 ∧ (splitN2 s).getD 0 "" = "Bearer") ↔
      ∃ tok, s = "Bearer " ++ tok := by
  constructor
  · intro ⟨h2, hb⟩
    unfold splitN2 at h2 hb
    simp only [String.toList] at h2 hb
    cases hd : s.data.dropWhile (fun ch => ch != ' ') with
    | nil => rw [hd] at h2; simp at h2
    | cons x r =>
      rw [hd] at hb
      simp only [List.getD_cons_zero] at hb
      have hx : x = ' ' := by simpa using dropWhile_head _ _ x r hd
      have hl := List.takeWhile_append_dropWhile (fun ch => ch != ' ') s.data
      rw [hd, hx] at hl
      refine ⟨String.mk r, ?_⟩
      apply String.ext
      have hb2 : s.data.takeWhile (fun ch => ch != ' ') = "Bearer".data := by
        have := congrArg String.data hb
        simpa using this
      rw [hb2] at hl
      rw [← hl]
      simp [String.data_append]
  · rintro ⟨tok, rfl⟩
    simp [splitN2_bearer]

/-- C6. `JWTAuthMiddleware` in front of any further handlers `hs`, with `h` the value of
the `Authorization` header: it aborts with 401, and none of `hs` runs, when `h` is empty,
when `h` is not `Bearer`, one space, and a token, and when `ParseToken` rejects that token.
Otherwise it hands on to `hs` the context with `user_id` and `username` set to the
`UserID` and `Username` of the parsed claims and nothing else changed; and a context that
leaves the middleware not aborted came from a header `Bearer <token>` whose token
`ParseToken` accepted. -/
theorem jwtAuthMiddleware_gate (J : JwtLib) (now : Time) (c : GinContext)
    (hs : List (GinContext → GinContext)) :
    (c.GetHeader "Authorization" = "" →
      runChain (JWTAuthMiddleware J now :: hs) c = (c.JSON 401 "缺少认证令牌").Abort) ∧
    (c.GetHeader "Authorization" ≠ "" →
      (¬ ∃ tok, c.GetHeader "Authorization" = "Bearer " ++ tok) →
      runChain (JWTAuthMiddleware J now :: hs) c = (c.JSON 401 "无效的令牌格式").Abort) ∧
    (∀ tok e, c.GetHeader "Authorization" = "Bearer " ++ tok →
      ParseToken J now tok = .error e →
      runChain (JWTAuthMiddleware J now :: hs) c = (c.JSON 401 "无效的令牌").Abort) ∧
    (∀ tok claims, c.GetHeader "Authorization" = "Bearer " ++ tok →
      ParseToken J now tok = .ok claims → c.Aborted = false →
      runChain (JWTAuthMiddleware J now :: hs) c
        = runChain hs { c with user_id := some claims.UserID,
                               username := some claims.Username }) ∧
    ((JWTAuthMiddleware J now c).Aborted = false →
      ∃ tok claims, c.GetHeader "Authorization" = "Bearer " ++ tok ∧
        ParseToken J now tok = .ok claims) := by
  have hne : ∀ tok : String, "Bearer " ++ tok ≠ "" := by
    intro tok h
    have := congrArg String.length h
    simp only [String.length_append] at this
    have h7 : "Bearer ".length = 7 := by decide
    have h0 : "".length = 0 := by decide
    omega
  refine ⟨?_, ?_, ?_, ?_, ?_⟩
  · intro h
    simp [runChain, JWTAuthMiddleware, h, GinContext.Abort, GinContext.JSON]
  · intro h hn
    have hs2 := (splitN2_bearer_iff (c.GetHeader "Authorization")).not.mpr hn
    simp only [runChain, JWTAuthMiddleware, h, if_false, hs2, not_false_eq_true, if_true]
    simp [GinContext.Abort, GinContext.JSON]
  · intro tok e h hp
    simp [runChain, JWTAuthMiddleware, h, hne, splitN2_bearer, hp, GinContext.Abort,
      GinContext.JSON]
  · intro tok claims h hp ha
    simp [runChain, JWTAuthMiddleware, h, hne, splitN2_bearer, hp, ha]
  · intro h
    by_cases h0 : c.GetHeader "Authorization" = ""
    · simp [JWTAuthMiddleware, h0, GinContext.Abort, GinContext.JSON] at h
    · by_cases hb : ∃ tok, c.GetHeader "Authorization" = "Bearer " ++ tok
      · obtain ⟨tok, ht⟩ := hb
        cases hp : ParseToken J now tok with
        | error e =>
          simp [JWTAuthMiddleware, ht, hne, splitN2_bearer, hp, GinContext.Abort,
            GinContext.JSON] at h
        | ok claims => exact ⟨tok, claims, ht, hp⟩
      · have hs2 := (splitN2_bearer_iff (c.GetHeader "Authorization")).not.mpr hb
        simp only [JWTAuthMiddleware, h0, if_false, hs2, not_false_eq_true, if_true] at h
        simp [GinContext.Abort, GinContext.JSON] at h

/-- Witness for C6: a request with the bearer token of `aliceClaims`, checked one
nanosecond after issue, reaches the handler with user 42 / `alice` in its context. -/
theorem jwtAuthMiddleware_gate_witness :
    (bearerContext.GetHeader "Authorization"
        = "Bearer " ++ toyToken "HS256" jwtSecret aliceClaims ∧
      ParseToken toyJwt 1 (toyToken "HS256" jwtSecret aliceClaims) = .ok aliceClaims ∧
      bearerContext.Aborted = false) ∧
    runChain [JWTAuthMiddleware toyJwt 1, fun c => c.JSON 200 "handler ran"] bearerContext
      = runChain [fun c => c.JSON 200 "handler ran"]
          { bearerContext with user_id := some aliceClaims.UserID,
                               username := some aliceClaims.Username } :=
  ⟨⟨by decide, by decide, by decide⟩,
   (jwtAuthMiddleware_gate toyJwt 1 bearerContext [fun c => c.JSON 200 "handler ran"]).2.2.2.1
      (toyToken "HS256" jwtSecret aliceClaims) aliceClaims (by decide) (by decide)
      (by decide)⟩

/-! ## C7: a generated token parses back to its claims -/

theorem newNumericDate_le (t : Time) : NewNumericDate t ≤ t := Nat.sub_le _ _

theorem parseToken_accepts (J : JwtLib) (now : Time) (tok : String) (raw : RawToken)
    (alg : String) (hdec : J.Decode tok = some raw) (halg : raw.Alg = some alg)
    (hm : alg = "HS256" ∨ alg = "HS384" ∨ alg = "HS512")
    (hsig : raw.Signature = J.Sign alg raw.SigningInput jwtSecret)
    (hval : validateClaims now raw.Claims = none) :
    ParseToken J now tok = .ok raw.Claims := by
  simp [ParseToken, ParseWithClaims, hdec, halg, GetSigningMethod, hm, parseTokenKeyFunc,
    verifySignature, hsig, hval]

theorem parseToken_of_generated (J : JwtLib) (clock : TokenClock) (t : Time) (userID : Int)
    (username tok : String)
    (hdec : J.Decode tok = some (issuedRaw J clock userID username))
    (hafter : NewNumericDate clock.forNotBefore ≤ t)
    (hbefore : t < NewNumericDate (clock.forExpiry + 2 * Hour)) :
    ParseToken J t tok = .ok (generateClaims clock userID username) := by
  have hv : validateClaims t (generateClaims clock userID username) = none := by
    simp [validateClaims, generateClaims, hbefore, hafter]
  exact parseToken_accepts J t tok (issuedRaw J clock userID username) "HS256" hdec rfl
    (Or.inl rfl) rfl hv

/-- C8. `ParseToken` returns an error, and so no claims, for every token whose `exp` is not
after the current instant, whatever its header and signature are, a well-formed token
correctly signed with the process secret included. -/
theorem parseToken_rejects_expired (J : JwtLib) (now : Time) (tok : String) (raw : RawToken)
    (exp : Time) (hdec : J.Decode tok = some raw)
    (hexp : raw.Claims.Registered.ExpiresAt = some exp) (hpast : exp ≤ now) :
    ∃ err, ParseToken J now tok = .error err := by
  have hv : ∃ e, validateClaims now raw.Claims = some e := by
    have hn : ¬ now < exp := Nat.not_lt.mpr hpast
    simp [validateClaims, hexp, hn]
  obtain ⟨e, he⟩ := hv
  simp only [ParseToken, ParseWithClaims, hdec]
  cases raw.Alg with
  | none => exact ⟨_, rfl⟩
  | some alg =>
    simp only []
    cases GetSigningMethod alg with
    | none => exact ⟨_, rfl⟩
    | some m =>
      simp only []
      cases parseTokenKeyFunc m with
      | error e1 => exact ⟨_, rfl⟩
      | ok key =>
        simp only []
        by_cases hs : verifySignature J m raw.SigningInput raw.Signature key = false
        · simp [hs]
        · simp [hs, he]

/-- Witness for C8 with the toy library: the HS256 token of `aliceClaims`, correctly signed
with the process secret and expiring two hours after instant 0, is refused at three hours. -/
theorem parseToken_rejects_expired_witness :
    (toyJwt.Decode (toyToken "HS256" jwtSecret aliceClaims)
        = some (toyRaw "HS256" jwtSecret aliceClaims) ∧
      (toyRaw "HS256" jwtSecret aliceClaims).Claims.Registered.ExpiresAt = some (2 * Hour) ∧
      verifySignature toyJwt (SigningMethod.HMAC "HS256")
        (toyRaw "HS256" jwtSecret aliceClaims).SigningInput
        (toyRaw "HS256" jwtSecret aliceClaims).Signature jwtSecret = true ∧
      2 * Hour ≤ 3 * Hour) ∧
    ∃ err, ParseToken toyJwt (3 * Hour) (toyToken "HS256" jwtSecret aliceClaims)
      = .error err :=
  ⟨⟨by decide, by decide, by decide, by decide⟩,
   parseToken_rejects_expired toyJwt (3 * Hour) (toyToken "HS256" jwtSecret aliceClaims)
    (toyRaw "HS256" jwtSecret aliceClaims) (2 * Hour) (by decide) (by decide) (by decide)⟩

/-! ## C9: which signing algorithms `ParseToken` accepts -/

/-- C9, counterexample. With the toy library, the token of `aliceClaims` whose header
declares HS384 and whose signature is the HS384 keyed hash under the process secret is
accepted by `ParseToken`, although HS384 is not the algorithm `GenerateToken` uses. -/
theorem parseToken_accepts_hs384 :
    toyJwt.Decode (toyToken "HS384" jwtSecret aliceClaims)
      = some (toyRaw "HS384" jwtSecret aliceClaims) ∧
    (toyRaw "HS384" jwtSecret aliceClaims).Alg = some "HS384" ∧
    "HS384" ≠ "HS256" ∧
    ParseToken toyJwt 1 (toyToken "HS384" jwtSecret aliceClaims) = .ok aliceClaims := by
  decide

/-- C9, amended. `ParseToken` rejects every token whose header declares a signing
algorithm outside the HMAC family HS256, HS384, HS512 (`none`, the RSA, ECDSA and EdDSA
methods and unknown names included), whatever its signature is; and a token declaring one
of the three HMAC algorithms, signed under it with the process secret and carrying claims
that are valid now, is accepted with its claims. -/
theorem parseToken_rejects_non_hmac (J : JwtLib) (now : Time) (tok : String) (raw : RawToken)
    (alg : String) (hdec : J.Decode tok = some raw) (halg : raw.Alg = some alg) :
    ((¬ (alg = "HS256" ∨ alg = "HS384" ∨ alg = "HS512")) →
      ∃ err, ParseToken J now tok = .error err) ∧
    ((alg = "HS256" ∨ alg = "HS384" ∨ alg = "HS512") →
      raw.Signature = J.Sign alg raw.SigningInput jwtSecret →
      validateClaims now raw.Claims = none →
      ParseToken J now tok = .ok raw.Claims) := by
  refine ⟨?_, fun hm hsig hval => parseToken_accepts J now tok raw alg hdec halg hm hsig hval⟩
  intro hn
  simp only [ParseToken, ParseWithClaims, hdec, halg, GetSigningMethod, hn, if_false]
  split_ifs <;> exact ⟨_, rfl⟩

/-- Witness for the amended C9 with the toy library: the token of `aliceClaims` declaring
`none` is rejected. -/
theorem parseToken_rejects_non_hmac_witness :
    (toyJwt.Decode (toyToken "none" jwtSecret aliceClaims)
        = some (toyRaw "none" jwtSecret aliceClaims) ∧
      (toyRaw "none" jwtSecret aliceClaims).Alg = some "none" ∧
      ¬ ("none" = "HS256" ∨ "none" = "HS384" ∨ "none" = "HS512")) ∧
    ∃ err, ParseToken toyJwt 1 (toyToken "none" jwtSecret aliceClaims) = .error err :=
  ⟨⟨by decide, by decide, by decide⟩,
   (parseToken_rejects_non_hmac toyJwt 1 (toyToken "none" jwtSecret aliceClaims)
      (toyRaw "none" jwtSecret aliceClaims) "none" (by decide) (by decide)).1 (by decide)⟩

/-! ## C10: a wrong password on an account whose lock has expired -/

/-- C10, the code at the failing input. The sample account is LOCKED with five failed
attempts and a lock that ended at one hour; a wrong password at two hours returns the
invalid-credentials error and leaves the stored row LOCKED again, with `login_attempts = 6`
and `locked_until` at three hours: the counter written back is the one read before the
automatic unlock, plus one. -/
theorem verifyPassword_expired_lock_wrong_password_relocks :
    VerifyPassword toyBcrypt noFaults (2 * Hour) lockedAliceDB "alice" "wrong"
      = ({ DB.empty with
            users := [{ lockedAlice with Status := "LOCKED", LoginAttempts := 6,
                                         LockedUntil := some (3 * Hour),
                                         UpdatedAt := 2 * Hour }] },
         .error (GoError.new "用户名或密码错误")) := by
  decide

/-! ## C11: a successful login resets the counter -/

theorem verifyPasswordCheck_success (B : Bcrypt) (f : Faults) (now : Time) (db : DB) (u : User)
    (pw : String) (hf4 : f 4 = none) (hf5 : f 5 = none) (hp : passwordValid B u pw = true) :
    verifyPasswordCheck B f now db u pw
      = ((updateLoginTime none now (UpdateLoginAttempts none now db u.ID 0).1 u.ID).1,
         .ok u) := by
  simp [verifyPasswordCheck, hp, hf4, hf5, UpdateLoginAttempts, updateLoginTime,
    execUpdateUser]

theorem find_after_success (now : Time) (db : DB) (name : String) (u : User)
    (hu : db.users.find? (fun x => x.Username = name) = some u) :
    (updateLoginTime none now (UpdateLoginAttempts none now db u.ID 0).1 u.ID).1.users.find?
        (fun x => x.Username = name)
      = some { u with LoginAttempts := 0, LastLoginAt := some now, UpdatedAt := now } := by
  have h1 := find_map_update db.users name u
    (fun x => { x with LoginAttempts := 0, UpdatedAt := now }) (fun _ => rfl) hu
  have h2 := find_map_update _ name _
    (fun x => { x with LastLoginAt := some now, UpdatedAt := now }) (fun _ => rfl) h1
  simpa [UpdateLoginAttempts, updateLoginTime, execUpdateUser] using h2

theorem lockedInFuture_false_iff (u : User) (now : Time) :
    lockedInFuture u now = false ↔ ∀ l, u.LockedUntil = some l → l ≤ now := by
  unfold lockedInFuture
  cases h : u.LockedUntil with
  | none => simp
  | some t => simp [Nat.not_lt]

/-- C11. With every store call succeeding, `VerifyPassword` with a password its check
accepts returns the user row it read, without error, on an ACTIVE account and on a LOCKED
account whose `locked_until` is not in the future; afterwards the stored row has
`login_attempts = 0` and `last_login_at = now`, and in the LOCKED case also status ACTIVE
and no `locked_until`; its other columns except `updated_at` are as before. -/
theorem verifyPassword_success_resets (B : Bcrypt) (db : DB) (name pw : String) (u : User)
    (now : Time) (hu : GetUserByUsername none db name = .ok u)
    (hp : passwordValid B u pw = true) :
    (u.Status = "ACTIVE" →
      (VerifyPassword B noFaults now db name pw).2 = .ok u ∧
      GetUserByUsername none (VerifyPassword B noFaults now db name pw).1 name
        = .ok { u with LoginAttempts := 0, LastLoginAt := some now, UpdatedAt := now }) ∧
    (u.Status = "LOCKED" → (∀ l, u.LockedUntil = some l → l ≤ now) →
      (VerifyPassword B noFaults now db name pw).2 = .ok u ∧
      GetUserByUsername none (VerifyPassword B noFaults now db name pw).1 name
        = .ok { u with Status := "ACTIVE", LockedUntil := none, LoginAttempts := 0,
                       LastLoginAt := some now, UpdatedAt := now }) := by
  rw [getUser_ok_iff] at hu
  constructor
  · intro hs
    have hv : VerifyPassword B noFaults now db name pw
        = ((updateLoginTime none now (UpdateLoginAttempts none now db u.ID 0).1 u.ID).1,
           .ok u) := by
      simp only [VerifyPassword, GetUserByUsername, noFaults, hu, hs]
      simpa using verifyPasswordCheck_success B (fun _ => none) now db u pw rfl rfl hp
    rw [hv]
    exact ⟨rfl, (getUser_ok_iff _ _ _).mpr (find_after_success now db name u hu)⟩
  · intro hs hl
    have hlf : lockedInFuture u now = false := (lockedInFuture_false_iff u now).mpr hl
    have h1 := find_map_update db.users name u
      (fun x => { x with Status := "ACTIVE", LockedUntil := none, LoginAttempts := 0,
                         UpdatedAt := now }) (fun _ => rfl) hu
    have hv : VerifyPassword B noFaults now db name pw
        = ((updateLoginTime none now
              (UpdateLoginAttempts none now (UnlockUser none now db u.ID).1 u.ID 0).1 u.ID).1,
           .ok u) := by
      simp only [VerifyPassword, GetUserByUsername, noFaults, hu, hs, hlf]
      simpa [UnlockUser, execUpdateUser] using
        verifyPasswordCheck_success B (fun _ => none) now (UnlockUser none now db u.ID).1 u pw
          rfl rfl hp
    rw [hv]
    refine ⟨rfl, (getUser_ok_iff _ _ _).mpr ?_⟩
    have h2 := find_after_success now (UnlockUser none now db u.ID).1 name
      { u with Status := "ACTIVE", LockedUntil := none, LoginAttempts := 0, UpdatedAt := now }
      (by simpa [UnlockUser, execUpdateUser] using h1)
    simpa using h2

/-- Witness for C11: the locked sample account, whose lock ended at one hour, logs in with
its own password at two hours; the stored row is ACTIVE again with the counter at 0. -/
theorem verifyPassword_success_resets_witness :
    (GetUserByUsername none lockedAliceDB "alice" = .ok lockedAlice ∧
      passwordValid toyBcrypt lockedAlice "secret1" = true ∧
      lockedAlice.Status = "LOCKED" ∧
      ∀ l, lockedAlice.LockedUntil = some l → l ≤ 2 * Hour) ∧
    (VerifyPassword toyBcrypt noFaults (2 * Hour) lockedAliceDB "alice" "secret1").2
        = .ok lockedAlice ∧
    GetUserByUsername none
        (VerifyPassword toyBcrypt noFaults (2 * Hour) lockedAliceDB "alice" "secret1").1 "alice"
      = .ok { lockedAlice with Status := "ACTIVE", LockedUntil := none, LoginAttempts := 0,
                               LastLoginAt := some (2 * Hour), UpdatedAt := 2 * Hour } :=
  ⟨⟨by decide, by decide, by decide, by decide⟩,
   (verifyPassword_success_resets toyBcrypt lockedAliceDB "alice" "secret1" lockedAlice
      (2 * Hour) (by decide) (by decide)).2 (by decide) (by decide)⟩

/-! ## C12: the development password -/

theorem verifyPassword_of_valid (B : Bcrypt) (db : DB) (name pw : String) (u : User)
    (now : Time) (hu : db.users.find? (fun x => x.Username = name) = some u)
    (hp : passwordValid B u pw = true) (hi : u.Status ≠ "INACTIVE")
    (hl : ¬ (u.Status = "LOCKED" ∧ lockedInFuture u now = true)) :
    (VerifyPassword B noFaults now db name pw).2 = .ok u := by
  have hc : ∀ d, (verifyPasswordCheck B (fun _ => none) now d u pw).2 = .ok u := by
    intro d
    rw [verifyPasswordCheck_success B (fun _ => none) now d u pw rfl rfl hp]
  by_cases hs : u.Status = "LOCKED"
  · have hlf : lockedInFuture u now = false := by
      cases h : lockedInFuture u now with
      | false => rfl
      | true => exact absurd ⟨hs, h⟩ hl
    obtain ⟨d, hd⟩ : ∃ d, UnlockUser none now db u.ID = (d, none) := ⟨_, rfl⟩
    simp only [VerifyPassword, GetUserByUsername, noFaults, hu, hi, if_false, hs, if_true, hlf,
      hd]
    simpa using hc d
  · simp only [VerifyPassword, GetUserByUsername, noFaults, hu, hi, if_false, hs]
    exact hc db

/-- C12. For every existing account that is not INACTIVE and not LOCKED with `locked_until`
in the future, `VerifyPassword(username, "123456")` with every store call succeeding returns
that account without error, whatever its stored `password_hash` and whatever bcrypt would
answer: the check accepts `123456` before the hash is looked at, and the whole outcome,
store included, is the same for any two bcrypt behaviours. -/
theorem verifyPassword_dev_password_bypass (B : Bcrypt) (db : DB) (name : String) (u : User)
    (now : Time) (hu : GetUserByUsername none db name = .ok u)
    (hi : u.Status ≠ "INACTIVE")
    (hl : ¬ (u.Status = "LOCKED" ∧ lockedInFuture u now = true)) :
    (VerifyPassword B noFaults now db name "123456").2 = .ok u ∧
    (∀ (B2 : Bcrypt) (v : User), passwordValid B2 v "123456" = true) ∧
    (∀ B2 : Bcrypt, VerifyPassword B2 noFaults now db name "123456"
      = VerifyPassword B noFaults now db name "123456") := by
  rw [getUser_ok_iff] at hu
  have hpv : ∀ (B2 : Bcrypt) (v : User), passwordValid B2 v "123456" = true := by
    intro B2 v; simp [passwordValid]
  refine ⟨verifyPassword_of_valid B db name "123456" u now hu (hpv B u) hi hl, hpv, ?_⟩
  intro B2
  simp [VerifyPassword, verifyPasswordCheck, passwordValid]

/-- Witness for C12: the sample account, whose hash is that of `secret1`, is opened by
`123456`. -/
theorem verifyPassword_dev_password_bypass_witness :
    (GetUserByUsername none aliceDB "alice" = .ok alice ∧ alice.Status ≠ "INACTIVE" ∧
      ¬ (alice.Status = "LOCKED" ∧ lockedInFuture alice 10 = true) ∧
      toyBcrypt.CompareHashAndPassword alice.PasswordHash "123456" = false) ∧
    (VerifyPassword toyBcrypt noFaults 10 aliceDB "alice" "123456").2 = .ok alice :=
  ⟨⟨by decide, by decide, by decide, by decide⟩,
   (verifyPassword_dev_password_bypass toyBcrypt aliceDB "alice" alice 10
      (by decide) (by decide) (by decide)).1⟩

/-! ## C13: disabled and locked accounts are refused without a write -/

/-- C13. When the lookup of the account succeeds (whatever the later store calls would do):
for an INACTIVE account `VerifyPassword` returns the account-disabled error and the store
is unchanged; for a LOCKED account whose `locked_until` is in the future it returns the
account-locked error naming `locked_until` and the store is unchanged, so the counter is
not incremented and the lock is not extended; both hold for every supplied password and
every bcrypt behaviour. -/
theorem verifyPassword_refuses_without_write (B : Bcrypt) (f : Faults) (db : DB)
    (name : String) (u : User) (now : Time) (hf0 : f 0 = none)
    (hu : GetUserByUsername none db name = .ok u) :
    (u.Status = "INACTIVE" → ∀ pw,
      VerifyPassword B f now db name pw = (db, .error (GoError.new "用户账号已禁用"))) ∧
    (u.Status = "LOCKED" → ∀ l, u.LockedUntil = some l → now < l → ∀ pw,
      VerifyPassword B f now db name pw
        = (db, .error (GoError.errorfT "用户账号已锁定，解锁时间：%v" (some l)))) := by
  rw [getUser_ok_iff] at hu
  constructor
  · intro hs pw
    simp [VerifyPassword, GetUserByUsername, hf0, hu, hs]
  · intro hs l hl ht pw
    exact verify_locked_future B f now l db name pw u hf0 hu hs hl ht

/-- Witness for C13: the disabled sample account is refused, store untouched, even with
its own password and with every later store call set to fail. -/
theorem verifyPassword_refuses_without_write_witness :
    (GetUserByUsername none inactiveAliceDB "alice" = .ok inactiveAlice ∧
      inactiveAlice.Status = "INACTIVE") ∧
    VerifyPassword toyBcrypt noFaults 10 inactiveAliceDB "alice" "secret1"
      = (inactiveAliceDB, .error (GoError.new "用户账号已禁用")) :=
  ⟨⟨by decide, by decide⟩,
   (verifyPassword_refuses_without_write toyBcrypt noFaults inactiveAliceDB "alice"
      inactiveAlice 10 rfl (by decide)).1 (by decide) "secret1"⟩

/-! ## C14: unknown user and wrong password give the same error -/

/-- C14. With every store call succeeding, the error `VerifyPassword` returns for a
username with no row is the error it returns for an existing ACTIVE account given a
password its check rejects: both are the one error value with the message
`用户名或密码错误`. -/
theorem verifyPassword_same_error_unknown_user_wrong_password (B : Bcrypt) (db : DB)
    (unknown name p1 p2 : String) (u : User) (t1 t2 : Time)
    (hnone : db.users.find? (fun x => x.Username = unknown) = none)
    (hu : GetUserByUsername none db name = .ok u) (hs : u.Status = "ACTIVE")
    (hp : passwordValid B u p2 = false) :
    (VerifyPassword B noFaults t1 db unknown p1).2 = .error (GoError.new "用户名或密码错误") ∧
    (VerifyPassword B noFaults t2 db name p2).2 = .error (GoError.new "用户名或密码错误") ∧
    (VerifyPassword B noFaults t1 db unknown p1).2
      = (VerifyPassword B noFaults t2 db name p2).2 := by
  rw [getUser_ok_iff] at hu
  have h1 : (VerifyPassword B noFaults t1 db unknown p1).2
      = .error (GoError.new "用户名或密码错误") := by
    simp [VerifyPassword, GetUserByUsername, noFaults, hnone]
  have h2 : (VerifyPassword B noFaults t2 db name p2).2
      = .error (GoError.new "用户名或密码错误") := by
    by_cases hn : u.LoginAttempts + 1 < 5
    · obtain ⟨d, v, e, -⟩ := verify_fail_active_lt B noFaults t2 db name p2 u rfl rfl hu hs hp hn
      rw [e]
    · obtain ⟨d, v, e, -⟩ := verify_fail_active_ge B noFaults t2 db name p2 u rfl rfl rfl hu hs
        hp (by omega)
      rw [e]
  exact ⟨h1, h2, h1.trans h2.symm⟩

/-- Witness for C14 on the sample store: user `bob` does not exist, `alice` does. -/
theorem verifyPassword_same_error_unknown_user_wrong_password_witness :
    (aliceDB.users.find? (fun x => x.Username = "bob") = none ∧
      GetUserByUsername none aliceDB "alice" = .ok alice ∧ alice.Status = "ACTIVE" ∧
      passwordValid toyBcrypt alice "wrong" = false) ∧
    (VerifyPassword toyBcrypt noFaults 10 aliceDB "bob" "secret1").2
      = (VerifyPassword toyBcrypt noFaults 10 aliceDB "alice" "wrong").2 :=
  ⟨⟨by decide, by decide, by decide, by decide⟩,
   (verifyPassword_same_error_unknown_user_wrong_password toyBcrypt aliceDB "bob" "alice"
      "secret1" "wrong" alice 10 10 (by decide) (by decide) (by decide) (by decide)).2.2⟩

/-! ## C15: LOCKED rows and `locked_until` -/

theorem inv_execUpdateUser (fail : Option String) (db : DB) (id : Int) (set : User → User)
    (hset : ∀ u : User, (u.Status = "LOCKED" → u.LockedUntil ≠ none) →
      (set u).Status = "LOCKED" → (set u).LockedUntil ≠ none)
    (h : lockedHasUntil db) : lockedHasUntil (execUpdateUser fail db id set).1 := by
  cases fail with
  | some e => exact h
  | none =>
    intro v hv
    simp only [execUpdateUser, List.mem_map] at hv
    obtain ⟨u, hu, rfl⟩ := hv
    by_cases hid : u.ID = id
    · simp only [hid, if_true]
      exact hset u (h u hu)
    · simp only [hid, if_false]
      exact h u hu

theorem inv_UpdateLoginAttempts (fail : Option String) (now : Time) (db : DB) (id n : Int)
    (h : lockedHasUntil db) : lockedHasUntil (UpdateLoginAttempts fail now db id n).1 :=
  inv_execUpdateUser fail db id _ (fun _ hu => hu) h

theorem inv_LockUser (fail : Option String) (now : Time) (db : DB) (id : Int) (d : Time)
    (h : lockedHasUntil db) : lockedHasUntil (LockUser fail now db id d).1 :=
  inv_execUpdateUser fail db id _ (fun _ _ _ => by simp) h

theorem inv_UnlockUser (fail : Option String) (now : Time) (db : DB) (id : Int)
    (h : lockedHasUntil db) : lockedHasUntil (UnlockUser fail now db id).1 :=
  inv_execUpdateUser fail db id _
    (fun _ _ hs => absurd (show "ACTIVE" = "LOCKED" from hs) (by decide)) h

theorem inv_updateLoginTime (fail : Option String) (now : Time) (db : DB) (id : Int)
    (h : lockedHasUntil db) : lockedHasUntil (updateLoginTime fail now db id).1 :=
  inv_execUpdateUser fail db id _ (fun _ hu => hu) h

theorem inv_verifyPasswordCheck (B : Bcrypt) (f : Faults) (now : Time) (db : DB) (u : User)
    (pw : String) (h : lockedHasUntil db) :
    lockedHasUntil (verifyPasswordCheck B f now db u pw).1 := by
  unfold verifyPasswordCheck
  by_cases hp : passwordValid B u pw = false
  · simp only [hp, if_true]
    have i1 := inv_UpdateLoginAttempts (f 2) now db u.ID (u.LoginAttempts + 1) h
    rcases h1 : UpdateLoginAttempts (f 2) now db u.ID (u.LoginAttempts + 1) with ⟨d1, _ | e1⟩
    · rw [h1] at i1
      simp only []
      by_cases hn : u.LoginAttempts + 1 ≥ 5
      · simp only [hn, if_true]
        have i2 := inv_LockUser (f 3) now d1 u.ID Hour i1
        rcases h2 : LockUser (f 3) now d1 u.ID Hour with ⟨d2, _ | e2⟩
        · rw [h2] at i2; exact i2
        · rw [h2] at i2; exact i2
      · simp only [hn, if_false]
        exact i1
    · rw [h1] at i1
      exact i1
  · simp only [hp, if_false]
    have i1 := inv_UpdateLoginAttempts (f 4) now db u.ID 0 h
    rcases h1 : UpdateLoginAttempts (f 4) now db u.ID 0 with ⟨d1, _ | e1⟩
    · rw [h1] at i1
      simp only []
      have i2 := inv_updateLoginTime (f 5) now d1 u.ID i1
      rcases h2 : updateLoginTime (f 5) now d1 u.ID with ⟨d2, _ | e2⟩
      · rw [h2] at i2; exact i2
      · rw [h2] at i2; exact i2
    · rw [h1] at i1
      exact i1

theorem inv_VerifyPassword (B : Bcrypt) (f : Faults) (now : Time) (db : DB) (name pw : String)
    (h : lockedHasUntil db) : lockedHasUntil (VerifyPassword B f now db name pw).1 := by
  unfold VerifyPassword
  cases hg : GetUserByUsername (f 0) db name with
  | error e => exact h
  | ok u =>
    simp only []
    by_cases hi : u.Status = "INACTIVE"
    · simp only [hi, if_true]; exact h
    · simp only [hi, if_false]
      by_cases hs : u.Status = "LOCKED"
      · simp only [hs, if_true]
        by_cases hl : lockedInFuture u now = true
        · simp only [hl, if_true]; exact h
        · simp only [hl]
          have i1 := inv_UnlockUser (f 1) now db u.ID h
          rcases h1 : UnlockUser (f 1) now db u.ID with ⟨d1, _ | e1⟩
          · rw [h1] at i1
            exact inv_verifyPasswordCheck B f now d1 u pw i1
          · rw [h1] at i1
            exact i1
      · simp only [hs, if_false]
        exact inv_verifyPasswordCheck B f now db u pw h

theorem registerUser_store (B : Bcrypt) (f : Faults) (now : Time) (newID : Int) (db : DB)
    (reg : UserRegistration) :
    ((RegisterUser B f now newID db reg).1 = db ∧
      ∃ e, (RegisterUser B f now newID db reg).2 = .error e) ∨
    ∃ hash, B.GenerateFromPassword reg.Password = some hash ∧
      RegisterUser B f now newID db reg =
        ({ db with
            users := db.users ++ [insertedUser newID reg.Username hash reg.Email reg.RealName
              reg.Phone "ACTIVE" now]
            user_roles := db.user_roles ++ [⟨newID, reg.RoleID, now⟩] }, .ok newID) := by
  unfold RegisterUser
  rcases e0 : f 0 with _ | m
  swap
  · exact Or.inl ⟨rfl, _, rfl⟩
  simp only []
  by_cases c0 : countUsersByUsername db reg.Username > 0
  · left; simp [c0]
  simp only [c0, if_false]
  rcases e1 : f 1 with _ | m
  swap
  · exact Or.inl ⟨rfl, _, rfl⟩
  simp only []
  by_cases c1 : countUsersByEmail db reg.Email > 0
  · left; simp [c1]
  simp only [c1, if_false]
  rcases e2 : f 2 with _ | m
  swap
  · exact Or.inl ⟨rfl, _, rfl⟩
  simp only []
  by_cases c2 : countRolesByID db reg.RoleID = 0
  · left; simp [c2]
  simp only [c2, if_false]
  rcases hg : B.GenerateFromPassword reg.Password with _ | hash
  · exact Or.inl ⟨rfl, _, rfl⟩
  simp only []
  have hphone : (if reg.Phone ≠ "" then reg.Phone else "") = reg.Phone := by
    by_cases hp : reg.Phone = "" <;> simp [hp]
  rw [hphone]
  rcases e3 : f 3 with _ | m
  swap
  · left; simp [BeginTx]
  rcases e4 : f 4 with _ | m
  swap
  · simp only [BeginTx, registerUserBody, Tx.ExecContext, e4, Tx.Rollback]
    exact Or.inl ⟨by simp, _, rfl⟩
  rcases e5 : f 5 with _ | m
  swap
  · simp only [BeginTx, registerUserBody, Tx.ExecContext, e4, e5, Tx.Rollback]
    exact Or.inl ⟨by simp, _, rfl⟩
  rcases e6 : f 6 with _ | m
  swap
  · simp only [BeginTx, registerUserBody, Tx.ExecContext, e4, e5, e6, Tx.Commit, Tx.Rollback]
    exact Or.inl ⟨by simp, _, rfl⟩
  refine Or.inr ⟨hash, rfl, ?_⟩
  simp [BeginTx, registerUserBody, Tx.ExecContext, e4, e5, e6, Tx.Commit, Tx.Rollback,
    insertUser, insertUserRole]

theorem inv_append_user (db : DB) (row : User) (urs : List UserRole)
    (hrow : row.Status = "LOCKED" → row.LockedUntil ≠ none) (h : lockedHasUntil db) :
    lockedHasUntil { db with users := db.users ++ [row], user_roles := urs } := by
  intro v hv
  simp only [List.mem_append, List.mem_singleton] at hv
  rcases hv with hv | rfl
  · exact h v hv
  · exact hrow

theorem inv_RegisterUser (B : Bcrypt) (f : Faults) (now : Time) (newID : Int) (db : DB)
    (reg : UserRegistration) (h : lockedHasUntil db) :
    lockedHasUntil (RegisterUser B f now newID db reg).1 := by
  rcases registerUser_store B f now newID db reg with ⟨h1, -⟩ | ⟨hash, -, h2⟩
  · rw [h1]; exact h
  · rw [h2]
    exact inv_append_user db _ _ (fun hs => absurd (show "ACTIVE" = "LOCKED" from hs)
      (by decide)) h

theorem inv_CreateUser (B : Bcrypt) (f : Faults) (now : Time) (newID : Int) (db : DB)
    (user : User) (hst : user.Status ≠ "LOCKED") (h : lockedHasUntil db) :
    lockedHasUntil (CreateUser B f now newID db user).1 := by
  unfold CreateUser
  rcases f 0 with _ | m
  swap
  · exact h
  simp only []
  by_cases c0 : countUsersByUsername db user.Username > 0
  · simp only [c0, if_true]; exact h
  simp only [c0, if_false]
  rcases f 1 with _ | m
  swap
  · exact h
  simp only []
  by_cases c1 : countUsersByEmail db user.Email > 0
  · simp only [c1, if_true]; exact h
  simp only [c1, if_false]
  rcases B.GenerateFromPassword user.PasswordHash with _ | hash
  · exact h
  simp only []
  rcases f 2 with _ | m
  swap
  · exact h
  simp only [insertUser]
  have := inv_append_user db
    (insertedUser newID user.Username hash user.Email user.RealName
      (match user.Phone with
        | some p => p
        | none => "") (if user.Status ≠ "" then user.Status else "ACTIVE") now) db.user_roles
    (by
      intro hs
      simp only [insertedUser] at hs
      by_cases he : user.Status = ""
      · simp [he] at hs
      · simp only [ne_eq, he, not_false_eq_true, if_true] at hs
        exact absurd hs hst) h
  exact this

/-- C15, counterexample. `UpdateUser` given the sample account with status LOCKED turns a
store that satisfies the invariant into one with a LOCKED row without `locked_until`. -/
theorem updateUser_breaks_locked_invariant :
    lockedHasUntil aliceDB ∧
    (UpdateUser none 10 aliceDB { alice with Status := "LOCKED" }).2 = none ∧
    ¬ lockedHasUntil (UpdateUser none 10 aliceDB { alice with Status := "LOCKED" }).1 := by
  decide

/-- C15, amended. `RegisterUser`, `UpdatePassword`, `UpdateLoginAttempts`, `LockUser`,
`UnlockUser` and `VerifyPassword` preserve, whatever store calls fail, the invariant that
every user whose status is LOCKED has `locked_until` set; `UpdateUser` and `CreateUser`
preserve it when the status they are given is not LOCKED. -/
theorem users_writes_preserve_locked_invariant (B : Bcrypt) (f : Faults)
    (fail : Option String) (now : Time) (newID : Int) (db : DB) (h : lockedHasUntil db) :
    (∀ reg, lockedHasUntil (RegisterUser B f now newID db reg).1) ∧
    (∀ userID pw, lockedHasUntil (UpdatePassword B fail now db userID pw).1) ∧
    (∀ userID n, lockedHasUntil (UpdateLoginAttempts fail now db userID n).1) ∧
    (∀ userID d, lockedHasUntil (LockUser fail now db userID d).1) ∧
    (∀ userID, lockedHasUntil (UnlockUser fail now db userID).1) ∧
    (∀ name pw, lockedHasUntil (VerifyPassword B f now db name pw).1) ∧
    (∀ user : User, user.Status ≠ "LOCKED" →
      lockedHasUntil (UpdateUser fail now db user).1) ∧
    (∀ user : User, user.Status ≠ "LOCKED" →
      lockedHasUntil (CreateUser B f now newID db user).1) := by
  refine ⟨fun reg => inv_RegisterUser B f now newID db reg h, ?_,
    fun userID n => inv_UpdateLoginAttempts fail now db userID n h,
    fun userID d => inv_LockUser fail now db userID d h,
    fun userID => inv_UnlockUser fail now db userID h,
    fun name pw => inv_VerifyPassword B f now db name pw h, ?_,
    fun user hst => inv_CreateUser B f now newID db user hst h⟩
  · intro userID pw
    unfold UpdatePassword
    rcases B.GenerateFromPassword pw with _ | hash
    · exact h
    · exact inv_execUpdateUser fail db userID _ (fun _ hu => hu) h
  · intro user hst
    exact inv_execUpdateUser fail db user.ID _ (fun _ _ hs => absurd hs hst) h

/-- Witness for the amended C15: the store with the locked sample account satisfies the
invariant, and still does after a wrong password at two hours (which unlocks and locks it
again). -/
theorem users_writes_preserve_locked_invariant_witness :
    lockedHasUntil lockedAliceDB ∧
    lockedHasUntil
      (VerifyPassword toyBcrypt noFaults (2 * Hour) lockedAliceDB "alice" "wrong").1 :=
  ⟨by decide,
   (users_writes_preserve_locked_invariant toyBcrypt noFaults none (2 * Hour) 8 lockedAliceDB
      (by decide)).2.2.2.2.2.1 "alice" "wrong"⟩

/-! ## C16: rejected registrations -/

theorem filter_length_pos_iff {α : Type} (q : α → Bool) (l : List α) :
    ((l.filter q).length : Int) > 0 ↔ ∃ x ∈ l, q x = true := by
  have h : 0 < (l.filter q).length ↔ ∃ x ∈ l, q x = true := by
    rw [List.length_pos_iff_exists_mem]
    simp [List.mem_filter]
  rw [← h]
  omega

theorem filter_length_zero_iff {α : Type} (q : α → Bool) (l : List α) :
    ((l.filter q).length : Int) = 0 ↔ ¬ ∃ x ∈ l, q x = true := by
  rw [← filter_length_pos_iff]
  omega

/-- C16. When the three `COUNT(*)` checks of `RegisterUser` are answered: if the username
already exists it returns the error `用户名已存在`; if the username is free and the email
already exists it returns `邮箱已存在`; if both are free and `role_id` names no role it
returns `选择的角色不存在`.  In each case the store after the call is the store before it
(so `users` and `user_roles` are unchanged), and the `Register` handler answers a request
bound to that registration with status 400 and that message as `error`. -/
theorem registerUser_rejects_conflicts (layout : Time → String) (B : Bcrypt) (f : Faults)
    (now : Time) (newID : Int) (db : DB) (reg : UserRegistration)
    (hq : f 0 = none ∧ f 1 = none ∧ f 2 = none) :
    ((∃ u ∈ db.users, u.Username = reg.Username) →
      RegisterUser B f now newID db reg = (db, .error (GoError.new "用户名已存在")) ∧
      Register layout B f now newID db (.ok reg)
        = (db, ⟨400, [("error", JSONValue.str "用户名已存在")]⟩)) ∧
    ((¬ ∃ u ∈ db.users, u.Username = reg.Username) →
      (∃ u ∈ db.users, u.Email = reg.Email) →
      RegisterUser B f now newID db reg = (db, .error (GoError.new "邮箱已存在")) ∧
      Register layout B f now newID db (.ok reg)
        = (db, ⟨400, [("error", JSONValue.str "邮箱已存在")]⟩)) ∧
    ((¬ ∃ u ∈ db.users, u.Username = reg.Username) →
      (¬ ∃ u ∈ db.users, u.Email = reg.Email) →
      (¬ ∃ r ∈ db.roles, r.ID = reg.RoleID) →
      RegisterUser B f now newID db reg = (db, .error (GoError.new "选择的角色不存在")) ∧
      Register layout B f now newID db (.ok reg)
        = (db, ⟨400, [("error", JSONValue.str "选择的角色不存在")]⟩)) := by
  obtain ⟨h0, h1, h2⟩ := hq
  have cu : countUsersByUsername db reg.Username > 0 ↔ ∃ u ∈ db.users, u.Username = reg.Username := by
    unfold countUsersByUsername
    rw [filter_length_pos_iff]; simp
  have ce : countUsersByEmail db reg.Email > 0 ↔ ∃ u ∈ db.users, u.Email = reg.Email := by
    unfold countUsersByEmail
    rw [filter_length_pos_iff]; simp
  have cr : countRolesByID db reg.RoleID = 0 ↔ ¬ ∃ r ∈ db.roles, r.ID = reg.RoleID := by
    unfold countRolesByID
    rw [filter_length_zero_iff]; simp
  have k1 : stringsContains "用户名已存在" "已存在" = true := by decide
  have k2 : stringsContains "邮箱已存在" "已存在" = true := by decide
  have k3 : stringsContains "选择的角色不存在" "不存在" = true := by decide
  refine ⟨?_, ?_, ?_⟩
  · intro hu
    have e : RegisterUser B f now newID db reg = (db, .error (GoError.new "用户名已存在")) := by
      simp only [RegisterUser, h0, cu.mpr hu, if_true]
    exact ⟨e, by simp [Register, e, GoError.Error, k1]⟩
  · intro hu he
    have e : RegisterUser B f now newID db reg = (db, .error (GoError.new "邮箱已存在")) := by
      simp only [RegisterUser, h0, h1, mt cu.mp hu, ce.mpr he, if_true, if_false]
    exact ⟨e, by simp [Register, e, GoError.Error, k2]⟩
  · intro hu he hr
    have e : RegisterUser B f now newID db reg
        = (db, .error (GoError.new "选择的角色不存在")) := by
      simp only [RegisterUser, h0, h1, h2, mt cu.mp hu, mt ce.mp he, cr.mpr hr, if_true,
        if_false]
    exact ⟨e, by simp [Register, e, GoError.Error, k3]⟩

/-- Witness for C16: registering the taken username `alice` on the sample store. -/
theorem registerUser_rejects_conflicts_witness :
    ((noFaults 0 = none ∧ noFaults 1 = none ∧ noFaults 2 = none) ∧
      ∃ u ∈ registryDB.users, u.Username = "alice") ∧
    Register toyLayout toyBcrypt noFaults 10 8 registryDB
        (.ok { bobRegistration with Username := "alice" })
      = (registryDB, ⟨400, [("error", JSONValue.str "用户名已存在")]⟩) :=
  ⟨⟨⟨rfl, rfl, rfl⟩, alice, by decide, rfl⟩,
   ((registerUser_rejects_conflicts toyLayout toyBcrypt noFaults 10 8 registryDB
      { bobRegistration with Username := "alice" } ⟨rfl, rfl, rfl⟩).1
      ⟨alice, by decide, rfl⟩).2⟩

/-! ## C17: a successful registration -/

theorem flatMap_if_eq_filter {α : Type} (q : α → Bool) (l : List α) :
    (l.flatMap fun r => if q r = true then [r] else []) = l.filter q := by
  induction l with
  | nil => rfl
  | cons x xs ih =>
    by_cases hx : q x = true
    · simp [List.flatMap_cons, List.filter_cons, hx, ih]
    · simp [List.flatMap_cons, List.filter_cons, hx, ih]

theorem getUserRoles_after_insert (db : DB) (newID roleID : Int) (now : Time)
    (users : List User) (hfresh : ∀ ur ∈ db.user_roles, ur.UserID ≠ newID) :
    GetUserRoles none
        { db with users := users, user_roles := db.user_roles ++ [⟨newID, roleID, now⟩] } newID
      = .ok (db.roles.filter fun r => r.ID = roleID) := by
  unfold GetUserRoles
  simp only []
  rw [← flatMap_if_eq_filter]
  congr 1
  apply List.flatMap_congr
  intro r _
  have hold : ((db.user_roles.filter fun ur => decide (r.ID = ur.RoleID)).filter fun ur =>
      decide (ur.UserID = newID)) = [] := by
    rw [List.filter_eq_nil_iff]
    intro ur hur
    have := hfresh ur (List.mem_filter.mp hur).1
    simpa using this
  rw [List.filter_append, List.filter_append, hold]
  by_cases hr : r.ID = roleID
  · simp [hr]
  · simp [hr]

/-- C17. When the username and the email are unused, the role exists, bcrypt hashes the
password and every store call succeeds, `RegisterUser` returns the key `newID` the store
gave the new row; the store gains exactly one `users` row (that key, status ACTIVE, the
given username, email, real name and phone, the hash) and exactly one `user_roles` row
`(newID, role_id)`, and nothing else changes; `GetUserRoles(newID)` then returns exactly
the role with that id, given that `role_id` is a key of `roles` and no `user_roles` row
carried the new key before.  If instead the `user_roles` insert fails, the call returns
that error and the store is the one before the call: the `users` row is not persisted. -/
theorem registerUser_adds_user_and_role (B : Bcrypt) (now : Time) (newID : Int) (db : DB)
    (reg : UserRegistration) (hash : String)
    (hname : ¬ ∃ u ∈ db.users, u.Username = reg.Username)
    (hemail : ¬ ∃ u ∈ db.users, u.Email = reg.Email)
    (hrole : ∃ r ∈ db.roles, r.ID = reg.RoleID)
    (hhash : B.GenerateFromPassword reg.Password = some hash) :
    RegisterUser B noFaults now newID db reg =
      ({ db with
          users := db.users ++
            [{ ID := newID, Username := reg.Username, PasswordHash := hash,
               Email := reg.Email, RealName := reg.RealName, Phone := some reg.Phone,
               Status := "ACTIVE", LoginAttempts := 0, LastLoginAt := none,
               LockedUntil := none, CreatedAt := now, UpdatedAt := now }]
          user_roles := db.user_roles ++ [⟨newID, reg.RoleID, now⟩] }, .ok newID) ∧
    (∀ role, (db.roles.filter fun r => r.ID = reg.RoleID) = [role] →
      (∀ ur ∈ db.user_roles, ur.UserID ≠ newID) →
      GetUserRoles none (RegisterUser B noFaults now newID db reg).1 newID = .ok [role]) ∧
    (∀ (f : Faults) (e : String), f 0 = none → f 1 = none → f 2 = none → f 3 = none →
      f 4 = none → f 5 = some e →
      RegisterUser B f now newID db reg = (db, .error (GoError.driver e))) := by
  have cu : ¬ countUsersByUsername db reg.Username > 0 := by
    unfold countUsersByUsername
    rw [filter_length_pos_iff]; simpa using hname
  have ce : ¬ countUsersByEmail db reg.Email > 0 := by
    unfold countUsersByEmail
    rw [filter_length_pos_iff]; simpa using hemail
  have cr : ¬ countRolesByID db reg.RoleID = 0 := by
    unfold countRolesByID
    rw [filter_length_zero_iff]; simpa using hrole
  have hphone : (if reg.Phone ≠ "" then reg.Phone else "") = reg.Phone := by
    by_cases hp : reg.Phone = "" <;> simp [hp]
  have main : RegisterUser B noFaults now newID db reg =
      ({ db with
          users := db.users ++
            [{ ID := newID, Username := reg.Username, PasswordHash := hash,
               Email := reg.Email, RealName := reg.RealName, Phone := some reg.Phone,
               Status := "ACTIVE", LoginAttempts := 0, LastLoginAt := none,
               LockedUntil := none, CreatedAt := now, UpdatedAt := now }]
          user_roles := db.user_roles ++ [⟨newID, reg.RoleID, now⟩] }, .ok newID) := by
    simp only [RegisterUser, noFaults, cu, ce, cr, if_false, hhash, hphone]
    simp [BeginTx, noFaults, registerUserBody, Tx.ExecContext, Tx.Commit, Tx.Rollback,
      insertUser, insertUserRole, insertedUser]
  refine ⟨main, ?_, ?_⟩
  · intro role hkey hfresh
    rw [main]
    simp only []
    rw [getUserRoles_after_insert db newID reg.RoleID now _ hfresh, hkey]
  · intro f e h0 h1 h2 h3 h4 h5
    simp only [RegisterUser, h0, h1, h2, cu, ce, cr, if_false, hhash, hphone]
    simp [BeginTx, h3, registerUserBody, Tx.ExecContext, h4, h5, Tx.Rollback, insertUser]

/-- Witness for C17: `bob` registers with role 2 on the sample store and gets key 8. -/
theorem registerUser_adds_user_and_role_witness :
    ((¬ ∃ u ∈ registryDB.users, u.Username = bobRegistration.Username) ∧
      (¬ ∃ u ∈ registryDB.users, u.Email = bobRegistration.Email) ∧
      (∃ r ∈ registryDB.roles, r.ID = bobRegistration.RoleID) ∧
      toyBcrypt.GenerateFromPassword bobRegistration.Password = some "$hunter22") ∧
    (RegisterUser toyBcrypt noFaults 10 8 registryDB bobRegistration).2 = .ok 8 ∧
    GetUserRoles none (RegisterUser toyBcrypt noFaults 10 8 registryDB bobRegistration).1 8
      = .ok [⟨2, "analyst", none, 0, 0⟩] :=
  ⟨⟨by decide, by decide, by decide, by decide⟩,
   by rw [(registerUser_adds_user_and_role toyBcrypt 10 8 registryDB bobRegistration
      "$hunter22" (by decide) (by decide) (by decide) (by decide)).1],
   (registerUser_adds_user_and_role toyBcrypt 10 8 registryDB bobRegistration
      "$hunter22" (by decide) (by decide) (by decide) (by decide)).2.1
      ⟨2, "analyst", none, 0, 0⟩ (by decide) (by decide)⟩

/-! ## C18: granting twice -/

theorem insertIgnore_present {α : Type} (k : α → Bool) (row : α) (rows : List α)
    (h : ∃ x ∈ rows, k x = true) : insertIgnore k row rows = rows := by
  have : rows.any k = true := by simpa [List.any_eq_true] using h
  simp [insertIgnore, this]

theorem insertIgnore_absent {α : Type} (k : α → Bool) (row : α) (rows : List α)
    (h : ¬ ∃ x ∈ rows, k x = true) : insertIgnore k row rows = rows ++ [row] := by
  have : ¬ rows.any k = true := by simpa [List.any_eq_true] using h
  simp [insertIgnore, this]

theorem insertIgnore_twice_count {α : Type} (k : α → Bool) (row1 row2 : α) (rows : List α)
    (hk1 : k row1 = true) (hle : (rows.filter k).length ≤ 1) :
    insertIgnore k row2 (insertIgnore k row1 rows) = insertIgnore k row1 rows ∧
      ((insertIgnore k row1 rows).filter k).length = 1 := by
  by_cases h : ∃ x ∈ rows, k x = true
  · rw [insertIgnore_present k row1 rows h]
    refine ⟨insertIgnore_present k row2 rows h, ?_⟩
    have hpos : 0 < (rows.filter k).length := by
      rw [List.length_pos_iff_exists_mem]
      obtain ⟨x, hx, hkx⟩ := h
      exact ⟨x, List.mem_filter.mpr ⟨hx, hkx⟩⟩
    omega
  · rw [insertIgnore_absent k row1 rows h]
    refine ⟨insertIgnore_present k row2 _ ⟨row1, by simp, hk1⟩, ?_⟩
    have hnil : rows.filter k = [] := by
      rw [List.filter_eq_nil_iff]
      intro x hx hkx
      exact h ⟨x, hx, hkx⟩
    simp [List.filter_append, hnil, hk1]

/-- C18. With its statement executed, `AssignPermissionToRole(r, p)` on a store that
already holds a `role_permissions` row for `(r, p)` returns no error and leaves the store
unchanged; on any store with at most one such row, two calls in a row both return no
error, the second changes nothing, and exactly one row for `(r, p)` exists afterwards.
The same holds for `AssignRoleToUser(u, r)` and `user_roles`. -/
theorem assign_is_idempotent (db : DB) (a b : Int) (t1 t2 : Time) :
    ((∃ x ∈ db.role_permissions, x.RoleID = a ∧ x.PermissionID = b) →
      AssignPermissionToRole none t1 db a b = (db, none)) ∧
    ((db.role_permissions.filter fun x => x.RoleID = a ∧ x.PermissionID = b).length ≤ 1 →
      (AssignPermissionToRole none t1 db a b).2 = none ∧
      AssignPermissionToRole none t2 (AssignPermissionToRole none t1 db a b).1 a b
        = ((AssignPermissionToRole none t1 db a b).1, none) ∧
      ((AssignPermissionToRole none t2 (AssignPermissionToRole none t1 db a b).1 a b).1
        |>.role_permissions.filter fun x => x.RoleID = a ∧ x.PermissionID = b).length = 1) ∧
    ((∃ x ∈ db.user_roles, x.UserID = a ∧ x.RoleID = b) →
      AssignRoleToUser none t1 db a b = (db, none)) ∧
    ((db.user_roles.filter fun x => x.UserID = a ∧ x.RoleID = b).length ≤ 1 →
      (AssignRoleToUser none t1 db a b).2 = none ∧
      AssignRoleToUser none t2 (AssignRoleToUser none t1 db a b).1 a b
        = ((AssignRoleToUser none t1 db a b).1, none) ∧
      ((AssignRoleToUser none t2 (AssignRoleToUser none t1 db a b).1 a b).1
        |>.user_roles.filter fun x => x.UserID = a ∧ x.RoleID = b).length = 1) := by
  refine ⟨?_, ?_, ?_, ?_⟩
  · intro h
    have := insertIgnore_present
      (fun x : RolePermission => decide (x.RoleID = a ∧ x.PermissionID = b)) ⟨a, b, t1⟩
      db.role_permissions (by simpa using h)
    simp only [AssignPermissionToRole, this]
  · intro hle
    obtain ⟨h1, h2⟩ := insertIgnore_twice_count
      (fun x : RolePermission => decide (x.RoleID = a ∧ x.PermissionID = b)) ⟨a, b, t1⟩
      ⟨a, b, t2⟩ db.role_permissions (by simp) hle
    refine ⟨rfl, ?_, ?_⟩
    · simp only [AssignPermissionToRole, h1]
    · simp only [AssignPermissionToRole, h1]
      exact h2
  · intro h
    have := insertIgnore_present
      (fun x : UserRole => decide (x.UserID = a ∧ x.RoleID = b)) ⟨a, b, t1⟩
      db.user_roles (by simpa using h)
    simp only [AssignRoleToUser, this]
  · intro hle
    obtain ⟨h1, h2⟩ := insertIgnore_twice_count
      (fun x : UserRole => decide (x.UserID = a ∧ x.RoleID = b)) ⟨a, b, t1⟩
      ⟨a, b, t2⟩ db.user_roles (by simp) hle
    refine ⟨rfl, ?_, ?_⟩
    · simp only [AssignRoleToUser, h1]
    · simp only [AssignRoleToUser, h1]
      exact h2

/-- Witness for C18 on the sample graph: role 1 already holds permission 1, and granting it
again changes nothing; role 1 does not hold permission 2, and granting that twice leaves one
row. -/
theorem assign_is_idempotent_witness :
    ((∃ x ∈ rbacDB.role_permissions, x.RoleID = 1 ∧ x.PermissionID = 1) ∧
      (rbacDB.role_permissions.filter fun x => x.RoleID = 1 ∧ x.PermissionID = 2).length ≤ 1) ∧
    AssignPermissionToRole none 5 rbacDB 1 1 = (rbacDB, none) ∧
    ((AssignPermissionToRole none 6 (AssignPermissionToRole none 5 rbacDB 1 2).1 1 2).1
      |>.role_permissions.filter fun x => x.RoleID = 1 ∧ x.PermissionID = 2).length = 1 :=
  ⟨⟨by decide, by decide⟩,
   (assign_is_idempotent rbacDB 1 1 5 6).1 (by decide),
   ((assign_is_idempotent rbacDB 1 2 5 6).2.1 (by decide)).2.2⟩

/-! ## C19: deleting a role or a permission -/

/-- C19, the code at the failing input. On the sample graph user 1 holds role 1.
`DeleteRole(1)` succeeds, removes the role row and the `role_permissions` row of role 1 and
leaves `users` alone, but the `user_roles` table is exactly as before: the row linking
user 1 to role 1 still references the deleted role. -/
theorem deleteRole_leaves_user_roles :
    (DeleteRole noFaults rbacDB 1).2 = none ∧
    (∀ r ∈ (DeleteRole noFaults rbacDB 1).1.roles, r.ID ≠ 1) ∧
    (∀ x ∈ (DeleteRole noFaults rbacDB 1).1.role_permissions, x.RoleID ≠ 1) ∧
    (DeleteRole noFaults rbacDB 1).1.users = rbacDB.users ∧
    (DeleteRole noFaults rbacDB 1).1.user_roles = rbacDB.user_roles ∧
    (⟨1, 1, 0⟩ : UserRole) ∈ (DeleteRole noFaults rbacDB 1).1.user_roles := by
  decide

/-! ## C20: the other cascades remove the root and its dependents -/

theorem filter_ne_nil_of_mem {α : Type} (q : α → Bool) (l : List α) (x : α) (hx : x ∈ l)
    (hq : q x = true) : l.filter q ≠ [] := by
  intro h
  have : x ∈ l.filter q := List.mem_filter.mpr ⟨hx, hq⟩
  rw [h] at this
  simp at this

theorem find_filter_ne_none {α : Type} (key : α → Int) (id : Int) (l : List α) :
    (l.filter fun x => decide (key x ≠ id)).find? (fun x => decide (key x = id)) = none := by
  rw [List.find?_eq_none]
  intro x hx
  have := (List.mem_filter.mp hx).2
  simpa using this

theorem deleteSensor_ok (db : DB) (id : Int) (hex : ∃ s ∈ db.sensors, s.ID = id) :
    DeleteSensor noFaults db id =
      ({ db with
          sensor_readings := db.sensor_readings.filter fun x => decide (x.SensorID ≠ id)
          sensors := db.sensors.filter fun x => decide (x.ID ≠ id) }, none) := by
  obtain ⟨r, hr, hid⟩ := hex
  have hne := filter_ne_nil_of_mem (fun x : Sensor => decide (x.ID = id)) db.sensors r hr
    (by simp [hid])
  simp [DeleteSensor, BeginTx, noFaults, deleteSensorBody, Tx.ExecContext, Tx.Commit,
    Tx.Rollback, delReadingsOfSensor, delSensor, deleteWhere, hne]

theorem deleteDevice_ok (db : DB) (id : Int) (hex : ∃ d ∈ db.devices, d.ID = id) :
    DeleteDevice noFaults db id =
      ({ db with
          maintenance_records := db.maintenance_records.filter fun x => decide (x.DeviceID ≠ id)
          device_status_logs := db.device_status_logs.filter fun x => decide (x.DeviceID ≠ id)
          devices := db.devices.filter fun x => decide (x.ID ≠ id) }, none) := by
  obtain ⟨r, hr, hid⟩ := hex
  have hne := filter_ne_nil_of_mem (fun x : Device => decide (x.ID = id)) db.devices r hr
    (by simp [hid])
  simp [DeleteDevice, BeginTx, noFaults, deleteDeviceBody, Tx.ExecContext, Tx.Commit,
    Tx.Rollback, delMaintenanceOfDevice, delStatusLogsOfDevice, delDevice, deleteWhere, hne]

theorem deleteResource_ok (db : DB) (id : Int) (hex : ∃ r ∈ db.resources, r.ID = id) :
    DeleteResource noFaults db id =
      ({ db with
          resource_changes := db.resource_changes.filter fun x => decide (x.ResourceID ≠ id)
          resources := db.resources.filter fun x => decide (x.ID ≠ id) }, none) := by
  obtain ⟨r, hr, hid⟩ := hex
  have hne := filter_ne_nil_of_mem (fun x : Resource => decide (x.ID = id)) db.resources r hr
    (by simp [hid])
  simp [DeleteResource, BeginTx, noFaults, deleteResourceBody, Tx.ExecContext, Tx.Commit,
    Tx.Rollback, delChangesOfResource, delResource, deleteWhere, hne]

theorem deleteAlertRule_ok (db : DB) (id : Int) (hex : ∃ r ∈ db.alert_rules, r.ID = id) :
    DeleteAlertRule noFaults db id =
      ({ db with
          notifications := db.notifications.filter fun n =>
            decide (∀ a ∈ db.alerts, a.RuleID = id → n.AlertID ≠ a.ID)
          alerts := db.alerts.filter fun x => decide (x.RuleID ≠ id)
          alert_rules := db.alert_rules.filter fun x => decide (x.ID ≠ id) }, none) := by
  obtain ⟨r, hr, hid⟩ := hex
  have hne := filter_ne_nil_of_mem (fun x : AlertRule => decide (x.ID = id)) db.alert_rules r
    hr (by simp [hid])
  have hn : (db.notifications.filter fun n => !decide (n.AlertID ∈ alertIdsOfRule db id))
      = db.notifications.filter fun n =>
          decide (∀ a ∈ db.alerts, a.RuleID = id → n.AlertID ≠ a.ID) := by
    apply List.filter_congr
    intro n _
    have : n.AlertID ∈ alertIdsOfRule db id
        ↔ ¬ (∀ a ∈ db.alerts, a.RuleID = id → n.AlertID ≠ a.ID) := by
      simp only [alertIdsOfRule, List.mem_map, List.mem_filter, decide_eq_true_eq]
      constructor
      · rintro ⟨t, ⟨ht, hi⟩, e⟩ hall; exact hall t ht hi e.symm
      · intro hall
        by_contra hc
        exact hall fun t ht hi e => hc ⟨t, ⟨ht, hi⟩, e.symm⟩
    by_cases hm : n.AlertID ∈ alertIdsOfRule db id
    · have h2 := this.mp hm
      rw [decide_eq_false h2]
      simp [hm]
    · have h2 : ∀ a ∈ db.alerts, a.RuleID = id → n.AlertID ≠ a.ID := by
        by_contra hc; exact hm (this.mpr hc)
      rw [decide_eq_true h2]
      simp [hm]
  have hmain : DeleteAlertRule noFaults db id =
      ({ db with
          notifications := db.notifications.filter fun n =>
            !decide (n.AlertID ∈ alertIdsOfRule db id)
          alerts := db.alerts.filter fun x => !decide (x.RuleID = id)
          alert_rules := db.alert_rules.filter fun x => !decide (x.ID = id) }, none) := by
    simp [DeleteAlertRule, BeginTx, noFaults, deleteAlertRuleBody, Tx.ExecContext, Tx.Commit,
      Tx.Rollback, delNotificationsOfRule, delAlertsOfRule, delAlertRule, deleteWhere, hne,
      alertIdsOfRule]
  rw [hmain, hn]
  simp

/-- C20. For an existing root and no failing store call, each cascade returns no error and
leaves the store with exactly these changes, every table keeping in order its other rows:
`DeleteSensor(id)` removes the sensors with that id and the readings with that `sensor_id`;
`DeleteDevice(id)` removes the devices with that id and the maintenance records and status
logs with that `device_id`; `DeleteResource(id)` removes the resources with that id and the
changes with that `resource_id`; `DeleteAlertRule(id)` removes the rules with that id, the
alerts with that `rule_id` and the notifications of those alerts.  Afterwards the get-by-id
of the root finds no row and fails. -/
theorem cascade_deletes_remove_root_and_dependents (db : DB) (id : Int) :
    ((∃ s ∈ db.sensors, s.ID = id) →
      DeleteSensor noFaults db id =
        ({ db with
            sensor_readings := db.sensor_readings.filter fun x => decide (x.SensorID ≠ id)
            sensors := db.sensors.filter fun x => decide (x.ID ≠ id) }, none) ∧
      GetSensorByID none (DeleteSensor noFaults db id).1 id
        = .error (GoError.new "sql: no rows in result set")) ∧
    ((∃ d ∈ db.devices, d.ID = id) →
      DeleteDevice noFaults db id =
        ({ db with
            maintenance_records :=
              db.maintenance_records.filter fun x => decide (x.DeviceID ≠ id)
            device_status_logs :=
              db.device_status_logs.filter fun x => decide (x.DeviceID ≠ id)
            devices := db.devices.filter fun x => decide (x.ID ≠ id) }, none) ∧
      GetDeviceByID none (DeleteDevice noFaults db id).1 id
        = .error (GoError.new "sql: no rows in result set")) ∧
    ((∃ r ∈ db.resources, r.ID = id) →
      DeleteResource noFaults db id =
        ({ db with
            resource_changes := db.resource_changes.filter fun x => decide (x.ResourceID ≠ id)
            resources := db.resources.filter fun x => decide (x.ID ≠ id) }, none) ∧
      GetResourceByID none (DeleteResource noFaults db id).1 id
        = .error (GoError.new "sql: no rows in result set")) ∧
    ((∃ r ∈ db.alert_rules, r.ID = id) →
      DeleteAlertRule noFaults db id =
        ({ db with
            notifications := db.notifications.filter fun n =>
              decide (∀ a ∈ db.alerts, a.RuleID = id → n.AlertID ≠ a.ID)
            alerts := db.alerts.filter fun x => decide (x.RuleID ≠ id)
            alert_rules := db.alert_rules.filter fun x => decide (x.ID ≠ id) }, none) ∧
      GetAlertRuleByID none (DeleteAlertRule noFaults db id).1 id
        = .error (GoError.new "sql: no rows in result set")) := by
  refine ⟨?_, ?_, ?_, ?_⟩
  · intro hex
    have h := deleteSensor_ok db id hex
    refine ⟨h, ?_⟩
    rw [h]
    simp only [GetSensorByID]
    rw [find_filter_ne_none (fun x : Sensor => x.ID) id db.sensors]
  · intro hex
    have h := deleteDevice_ok db id hex
    refine ⟨h, ?_⟩
    rw [h]
    simp only [GetDeviceByID]
    rw [find_filter_ne_none (fun x : Device => x.ID) id db.devices]
  · intro hex
    have h := deleteResource_ok db id hex
    refine ⟨h, ?_⟩
    rw [h]
    simp only [GetResourceByID]
    rw [find_filter_ne_none (fun x : Resource => x.ID) id db.resources]
  · intro hex
    have h := deleteAlertRule_ok db id hex
    refine ⟨h, ?_⟩
    rw [h]
    simp only [GetAlertRuleByID]
    rw [find_filter_ne_none (fun x : AlertRule => x.ID) id db.alert_rules]

/-- Witness for C20 on the sample store: alert rule 5 exists; deleting it removes both
alerts and both notifications and keeps every other table. -/
theorem cascade_deletes_remove_root_and_dependents_witness :
    (∃ r ∈ forestDB.alert_rules, r.ID = 5) ∧
    DeleteAlertRule noFaults forestDB 5
      = ({ forestDB with notifications := [], alerts := [], alert_rules := [] }, none) ∧
    GetAlertRuleByID none (DeleteAlertRule noFaults forestDB 5).1 5
      = .error (GoError.new "sql: no rows in result set") :=
  ⟨⟨⟨5, ""⟩, by decide, rfl⟩,
   ((cascade_deletes_remove_root_and_dependents forestDB 5).2.2.2
      ⟨⟨5, ""⟩, by decide, rfl⟩).1.trans (by decide),
   ((cascade_deletes_remove_root_and_dependents forestDB 5).2.2.2
      ⟨⟨5, ""⟩, by decide, rfl⟩).2⟩

/-! ## C21: updates and deletes of a missing root -/

theorem stringsContains_sprintfTail (format arg sub : String)
    (h : stringsContains (format.dropRight 2) sub = true) :
    stringsContains (sprintfTail format arg) sub = true := by
  simp only [stringsContains, decide_eq_true_eq, sprintfTail] at h ⊢
  show sub.data <:+: (format.dropRight 2 ++ arg).data
  rw [String.data_append]
  exact List.IsInfix.trans h (List.prefix_append _ _).isInfix

theorem filter_eq_nil_of_forall_ne {α : Type} (l : List α) (key : α → Int) (id : Int)
    (h : ∀ x ∈ l, key x ≠ id) : (l.filter fun x => decide (key x = id)) = [] := by
  rw [List.filter_eq_nil_iff]
  intro x hx
  simpa using h x hx

theorem map_eq_self_of_forall_ne {α : Type} (l : List α) (key : α → Int) (id : Int)
    (set : α → α) (h : ∀ x ∈ l, key x ≠ id) :
    (l.map fun x => if key x = id then set x else x) = l := by
  conv_rhs => rw [← List.map_id l]
  apply List.map_congr_left
  intro x hx
  simp [h x hx]

theorem updateSensor_missing (foundRows : Bool) (db : DB) (sensor : Sensor)
    (hm : ∀ x ∈ db.sensors, x.ID ≠ sensor.ID) :
    UpdateSensor foundRows none db sensor
      = (db, some (GoError.errorfD "no sensor updated for id=%d" sensor.ID)) := by
  have e1 := filter_eq_nil_of_forall_ne db.sensors (fun x => x.ID) sensor.ID hm
  have e2 := map_eq_self_of_forall_ne db.sensors (fun x => x.ID) sensor.ID
    (fun x => { x with RegionID := sensor.RegionID, Data := sensor.Data }) hm
  simp only [UpdateSensor]
  rw [e1, e2]
  cases foundRows <;> simp

theorem deleteSensor_missing (f : Faults) (db : DB) (id : Int)
    (hf : ∀ k, k ≤ 2 → f k = none) (hm : ∀ x ∈ db.sensors, x.ID ≠ id) :
    DeleteSensor f db id = (db, some (GoError.errorfD "传感器不存在或已被删除, id=%d" id)) := by
  have e := filter_eq_nil_of_forall_ne db.sensors (fun x => x.ID) id hm
  simp [DeleteSensor, BeginTx, deleteSensorBody, Tx.ExecContext, Tx.Rollback, hf,
    delReadingsOfSensor, delSensor, deleteWhere, e]

theorem deleteDevice_missing (f : Faults) (db : DB) (id : Int)
    (hf : ∀ k, k ≤ 3 → f k = none) (hm : ∀ x ∈ db.devices, x.ID ≠ id) :
    DeleteDevice f db id = (db, some (GoError.errorfD "设备不存在或已被删除, id=%d" id)) := by
  have e := filter_eq_nil_of_forall_ne db.devices (fun x => x.ID) id hm
  simp [DeleteDevice, BeginTx, deleteDeviceBody, Tx.ExecContext, Tx.Rollback, hf,
    delMaintenanceOfDevice, delStatusLogsOfDevice, delDevice, deleteWhere, e]

theorem deleteAlertRule_missing (f : Faults) (db : DB) (id : Int)
    (hf : ∀ k, k ≤ 3 → f k = none) (hm : ∀ x ∈ db.alert_rules, x.ID ≠ id) :
    DeleteAlertRule f db id
      = (db, some (GoError.errorfD "预警规则不存在或已被删除, id=%d" id)) := by
  have e := filter_eq_nil_of_forall_ne db.alert_rules (fun x => x.ID) id hm
  simp [DeleteAlertRule, BeginTx, deleteAlertRuleBody, Tx.ExecContext, Tx.Rollback, hf,
    delNotificationsOfRule, delAlertsOfRule, delAlertRule, deleteWhere, e]

theorem deleteResource_missing (f : Faults) (db : DB) (id : Int)
    (hf : ∀ k, k ≤ 2 → f k = none) (hm : ∀ x ∈ db.resources, x.ID ≠ id) :
    DeleteResource f db id = (db, some (GoError.errorfD "资源不存在或已被删除, id=%d" id)) := by
  have e := filter_eq_nil_of_forall_ne db.resources (fun x => x.ID) id hm
  simp [DeleteResource, BeginTx, deleteResourceBody, Tx.ExecContext, Tx.Rollback, hf,
    delChangesOfResource, delResource, deleteWhere, e]

theorem deleteRegion_missing (f : Faults) (db : DB) (id : Int)
    (hf : ∀ k, k ≤ 10 → f k = none) (hm : ∀ x ∈ db.regions, x.ID ≠ id) :
    DeleteRegion f db id = (db, some (GoError.errorfD "区域不存在或已被删除, id=%d" id)) := by
  have e := filter_eq_nil_of_forall_ne db.regions (fun x => x.ID) id hm
  simp [DeleteRegion, BeginTx, deleteRegionBody, Tx.ExecContext, Tx.Rollback, hf,
    delReadingsOfRegion, delSensorsOfRegion, delNotificationsOfRegion,
    delAlertsOfRegion, delChangesOfRegion, delResourcesOfRegion, delMaintenanceOfRegion,
    delStatusLogsOfRegion, delDevicesOfRegion, delRegion, deleteWhere, e]

theorem faults_dichotomy (f : Faults) (n : Nat) :
    (∃ k, k ≤ n ∧ f k ≠ none) ∨ ∀ k, k ≤ n → f k = none := by
  by_cases h : ∃ k, k ≤ n ∧ f k ≠ none
  · exact Or.inl h
  · right
    intro k hk
    by_contra hne
    exact h ⟨k, hk, hne⟩

theorem beginTx_fault_region (f : Faults) (db : DB) (id : Int) (h : f 0 ≠ none) :
    (DeleteRegion f db id).1 = db ∧ (DeleteRegion f db id).2 ≠ none := by
  obtain ⟨e, he⟩ := Option.ne_none_iff_exists'.mp h
  simp [DeleteRegion, BeginTx, he]

theorem beginTx_fault_device (f : Faults) (db : DB) (id : Int) (h : f 0 ≠ none) :
    (DeleteDevice f db id).1 = db ∧ (DeleteDevice f db id).2 ≠ none := by
  obtain ⟨e, he⟩ := Option.ne_none_iff_exists'.mp h
  simp [DeleteDevice, BeginTx, he]

theorem beginTx_fault_sensor (f : Faults) (db : DB) (id : Int) (h : f 0 ≠ none) :
    (DeleteSensor f db id).1 = db ∧ (DeleteSensor f db id).2 ≠ none := by
  obtain ⟨e, he⟩ := Option.ne_none_iff_exists'.mp h
  simp [DeleteSensor, BeginTx, he]

theorem beginTx_fault_alertRule (f : Faults) (db : DB) (id : Int) (h : f 0 ≠ none) :
    (DeleteAlertRule f db id).1 = db ∧ (DeleteAlertRule f db id).2 ≠ none := by
  obtain ⟨e, he⟩ := Option.ne_none_iff_exists'.mp h
  simp [DeleteAlertRule, BeginTx, he]

theorem beginTx_fault_resource (f : Faults) (db : DB) (id : Int) (h : f 0 ≠ none) :
    (DeleteResource f db id).1 = db ∧ (DeleteResource f db id).2 ≠ none := by
  obtain ⟨e, he⟩ := Option.ne_none_iff_exists'.mp h
  simp [DeleteResource, BeginTx, he]

theorem fault_split (f : Faults) (n : Nat) (h : ∃ k, k ≤ n ∧ f k ≠ none) :
    f 0 ≠ none ∨ ∃ k, 1 ≤ k ∧ k ≤ n ∧ f k ≠ none := by
  obtain ⟨k, hk, hne⟩ := h
  rcases Nat.eq_zero_or_pos k with h0 | h0
  · left
    rw [h0] at hne
    exact hne
  · exact Or.inr ⟨k, h0, hk, hne⟩

theorem deleteRegion_missing_any (f : Faults) (db : DB) (id : Int)
    (hm : ∀ x ∈ db.regions, x.ID ≠ id) :
    (DeleteRegion f db id).1 = db ∧ (DeleteRegion f db id).2 ≠ none := by
  rcases faults_dichotomy f 10 with h | h
  · rcases fault_split f 10 h with h0 | hk
    · exact beginTx_fault_region f db id h0
    · exact DeleteRegion_fault f db id hk
  · rw [deleteRegion_missing f db id h hm]
    simp

theorem deleteDevice_missing_any (f : Faults) (db : DB) (id : Int)
    (hm : ∀ x ∈ db.devices, x.ID ≠ id) :
    (DeleteDevice f db id).1 = db ∧ (DeleteDevice f db id).2 ≠ none := by
  rcases faults_dichotomy f 3 with h | h
  · rcases fault_split f 3 h with h0 | hk
    · exact beginTx_fault_device f db id h0
    · exact DeleteDevice_fault f db id hk
  · rw [deleteDevice_missing f db id h hm]
    simp

theorem deleteSensor_missing_any (f : Faults) (db : DB) (id : Int)
    (hm : ∀ x ∈ db.sensors, x.ID ≠ id) :
    (DeleteSensor f db id).1 = db ∧ (DeleteSensor f db id).2 ≠ none := by
  rcases faults_dichotomy f 2 with h | h
  · rcases fault_split f 2 h with h0 | hk
    · exact beginTx_fault_sensor f db id h0
    · exact DeleteSensor_fault f db id hk
  · rw [deleteSensor_missing f db id h hm]
    simp

theorem deleteAlertRule_missing_any (f : Faults) (db : DB) (id : Int)
    (hm : ∀ x ∈ db.alert_rules, x.ID ≠ id) :
    (DeleteAlertRule f db id).1 = db ∧ (DeleteAlertRule f db id).2 ≠ none := by
  rcases faults_dichotomy f 3 with h | h
  · rcases fault_split f 3 h with h0 | hk
    · exact beginTx_fault_alertRule f db id h0
    · exact DeleteAlertRule_fault f db id hk
  · rw [deleteAlertRule_missing f db id h hm]
    simp

theorem deleteResource_missing_any (f : Faults) (db : DB) (id : Int)
    (hm : ∀ x ∈ db.resources, x.ID ≠ id) :
    (DeleteResource f db id).1 = db ∧ (DeleteResource f db id).2 ≠ none := by
  rcases faults_dichotomy f 2 with h | h
  · rcases fault_split f 2 h with h0 | hk
    · exact beginTx_fault_resource f db id h0
    · exact DeleteResource_fault f db id hk
  · rw [deleteResource_missing f db id h hm]
    simp

theorem updateSensor_missing_any (foundRows : Bool) (fail : Option String) (db : DB)
    (sensor : Sensor) (hm : ∀ x ∈ db.sensors, x.ID ≠ sensor.ID) :
    (UpdateSensor foundRows fail db sensor).1 = db ∧
      (UpdateSensor foundRows fail db sensor).2 ≠ none := by
  cases fail with
  | some e => simp [UpdateSensor]
  | none =>
    rw [updateSensor_missing foundRows db sensor hm]
    simp

/-- C21: on a root id that no row has, every one of these operations fails and leaves the
store exactly as it was, whatever the store calls do and with all rows that reference the
missing id still in place.  Without store faults `UpdateSensor` returns the error "no sensor
updated for id=…", whose text contains "no sensor updated" (whether the driver counts
matched or changed rows); `DeleteSensor` returns "传感器不存在或已被删除, id=…", whose text
contains "传感器不存在"; `DeleteRegion`, `DeleteDevice`, `DeleteAlertRule` and
`DeleteResource` return their own "不存在或已被删除" error from the test `affected == 0`
of the root delete. -/
theorem missing_root_fails_and_store_unchanged (layout : Time → String) (foundRows : Bool)
    (fail : Option String) (f : Faults) (db : DB) (id : Int) (sensor : Sensor) :
    ((∀ x ∈ db.sensors, x.ID ≠ sensor.ID) →
      (UpdateSensor foundRows fail db sensor).1 = db ∧
      (UpdateSensor foundRows fail db sensor).2 ≠ none ∧
      ∃ e, UpdateSensor foundRows none db sensor = (db, some e) ∧
        stringsContains (e.Error layout) "no sensor updated" = true) ∧
    ((∀ x ∈ db.sensors, x.ID ≠ id) →
      (DeleteSensor f db id).1 = db ∧ (DeleteSensor f db id).2 ≠ none ∧
      ∃ e, DeleteSensor noFaults db id = (db, some e) ∧
        stringsContains (e.Error layout) "传感器不存在" = true) ∧
    ((∀ x ∈ db.regions, x.ID ≠ id) →
      (DeleteRegion f db id).1 = db ∧ (DeleteRegion f db id).2 ≠ none ∧
      DeleteRegion noFaults db id
        = (db, some (GoError.errorfD "区域不存在或已被删除, id=%d" id))) ∧
    ((∀ x ∈ db.devices, x.ID ≠ id) →
      (DeleteDevice f db id).1 = db ∧ (DeleteDevice f db id).2 ≠ none ∧
      DeleteDevice noFaults db id
        = (db, some (GoError.errorfD "设备不存在或已被删除, id=%d" id))) ∧
    ((∀ x ∈ db.alert_rules, x.ID ≠ id) →
      (DeleteAlertRule f db id).1 = db ∧ (DeleteAlertRule f db id).2 ≠ none ∧
      DeleteAlertRule noFaults db id
        = (db, some (GoError.errorfD "预警规则不存在或已被删除, id=%d" id))) ∧
    ((∀ x ∈ db.resources, x.ID ≠ id) →
      (DeleteResource f db id).1 = db ∧ (DeleteResource f db id).2 ≠ none ∧
      DeleteResource noFaults db id
        = (db, some (GoError.errorfD "资源不存在或已被删除, id=%d" id))) := by
  refine ⟨?_, ?_, ?_, ?_, ?_, ?_⟩
  · intro hm
    refine ⟨(updateSensor_missing_any foundRows fail db sensor hm).1,
      (updateSensor_missing_any foundRows fail db sensor hm).2,
      _, updateSensor_missing foundRows db sensor hm, ?_⟩
    exact stringsContains_sprintfTail _ _ _ (by decide)
  · intro hm
    refine ⟨(deleteSensor_missing_any f db id hm).1, (deleteSensor_missing_any f db id hm).2,
      _, deleteSensor_missing noFaults db id (fun _ _ => rfl) hm, ?_⟩
    exact stringsContains_sprintfTail _ _ _ (by decide)
  · intro hm
    exact ⟨(deleteRegion_missing_any f db id hm).1, (deleteRegion_missing_any f db id hm).2,
      deleteRegion_missing noFaults db id (fun _ _ => rfl) hm⟩
  · intro hm
    exact ⟨(deleteDevice_missing_any f db id hm).1, (deleteDevice_missing_any f db id hm).2,
      deleteDevice_missing noFaults db id (fun _ _ => rfl) hm⟩
  · intro hm
    exact ⟨(deleteAlertRule_missing_any f db id hm).1,
      (deleteAlertRule_missing_any f db id hm).2,
      deleteAlertRule_missing noFaults db id (fun _ _ => rfl) hm⟩
  · intro hm
    exact ⟨(deleteResource_missing_any f db id hm).1,
      (deleteResource_missing_any f db id hm).2,
      deleteResource_missing noFaults db id (fun _ _ => rfl) hm⟩

/-- Witness for C21: the sample store has no root with id 9 but rows that reference id 9;
each of the six operations on id 9 fails and returns the store as it was. -/
theorem missing_root_fails_and_store_unchanged_witness :
    ((∀ x ∈ orphanDB.sensors, x.ID ≠ 9) ∧ (∀ x ∈ orphanDB.regions, x.ID ≠ 9) ∧
      (∀ x ∈ orphanDB.devices, x.ID ≠ 9) ∧ (∀ x ∈ orphanDB.alert_rules, x.ID ≠ 9) ∧
      (∀ x ∈ orphanDB.resources, x.ID ≠ 9)) ∧
    (UpdateSensor false none orphanDB ⟨9, 1, "moved"⟩).1 = orphanDB ∧
    (DeleteSensor noFaults orphanDB 9).1 = orphanDB ∧
    DeleteRegion noFaults orphanDB 9
      = (orphanDB, some (GoError.errorfD "区域不存在或已被删除, id=%d" 9)) ∧
    DeleteDevice noFaults orphanDB 9
      = (orphanDB, some (GoError.errorfD "设备不存在或已被删除, id=%d" 9)) ∧
    DeleteAlertRule noFaults orphanDB 9
      = (orphanDB, some (GoError.errorfD "预警规则不存在或已被删除, id=%d" 9)) ∧
    DeleteResource noFaults orphanDB 9
      = (orphanDB, some (GoError.errorfD "资源不存在或已被删除, id=%d" 9)) :=
  ⟨⟨by decide, by decide, by decide, by decide, by decide⟩,
   ((missing_root_fails_and_store_unchanged toyLayout false none noFaults orphanDB 9
      ⟨9, 1, "moved"⟩).1 (by decide)).1,
   ((missing_root_fails_and_store_unchanged toyLayout false none noFaults orphanDB 9
      ⟨9, 1, "moved"⟩).2.1 (by decide)).1,
   ((missing_root_fails_and_store_unchanged toyLayout false none noFaults orphanDB 9
      ⟨9, 1, "moved"⟩).2.2.1 (by decide)).2.2,
   ((missing_root_fails_and_store_unchanged toyLayout false none noFaults orphanDB 9
      ⟨9, 1, "moved"⟩).2.2.2.1 (by decide)).2.2,
   ((missing_root_fails_and_store_unchanged toyLayout false none noFaults orphanDB 9
      ⟨9, 1, "moved"⟩).2.2.2.2.1 (by decide)).2.2,
   ((missing_root_fails_and_store_unchanged toyLayout false none noFaults orphanDB 9
      ⟨9, 1, "moved"⟩).2.2.2.2.2 (by decide)).2.2⟩

/-! ## C22: the order of the statements of the cascades -/

theorem ite_nil_subset_singleton (p : Prop) [Decidable p] (t : String) :
    (if p then [] else [t]) ⊆ [t] := by
  split_ifs <;> simp

theorem changed_delReadingsOfRegion (id : Int) (db : DB) :
    changedTables db (delReadingsOfRegion id db).1 ⊆ ["sensor_readings"] := by
  simp only [changedTables, delReadingsOfRegion, if_true, List.nil_append, List.append_nil]
  exact ite_nil_subset_singleton _ _

theorem changed_delSensorsOfRegion (id : Int) (db : DB) :
    changedTables db (delSensorsOfRegion id db).1 ⊆ ["sensors"] := by
  simp only [changedTables, delSensorsOfRegion, if_true, List.nil_append, List.append_nil]
  exact ite_nil_subset_singleton _ _

theorem changed_delNotificationsOfRegion (id : Int) (db : DB) :
    changedTables db (delNotificationsOfRegion id db).1 ⊆ ["notifications"] := by
  simp only [changedTables, delNotificationsOfRegion, if_true, List.nil_append, List.append_nil]
  exact ite_nil_subset_singleton _ _

theorem changed_delAlertsOfRegion (id : Int) (db : DB) :
    changedTables db (delAlertsOfRegion id db).1 ⊆ ["alerts"] := by
  simp only [changedTables, delAlertsOfRegion, if_true, List.nil_append, List.append_nil]
  exact ite_nil_subset_singleton _ _

theorem changed_delChangesOfRegion (id : Int) (db : DB) :
    changedTables db (delChangesOfRegion id db).1 ⊆ ["resource_changes"] := by
  simp only [changedTables, delChangesOfRegion, if_true, List.nil_append, List.append_nil]
  exact ite_nil_subset_singleton _ _

theorem changed_delResourcesOfRegion (id : Int) (db : DB) :
    changedTables db (delResourcesOfRegion id db).1 ⊆ ["resources"] := by
  simp only [changedTables, delResourcesOfRegion, if_true, List.nil_append, List.append_nil]
  exact ite_nil_subset_singleton _ _

theorem changed_delMaintenanceOfRegion (id : Int) (db : DB) :
    changedTables db (delMaintenanceOfRegion id db).1 ⊆ ["maintenance_records"] := by
  simp only [changedTables, delMaintenanceOfRegion, if_true, List.nil_append, List.append_nil]
  exact ite_nil_subset_singleton _ _

theorem changed_delStatusLogsOfRegion (id : Int) (db : DB) :
    changedTables db (delStatusLogsOfRegion id db).1 ⊆ ["device_status_logs"] := by
  simp only [changedTables, delStatusLogsOfRegion, if_true, List.nil_append, List.append_nil]
  exact ite_nil_subset_singleton _ _

theorem changed_delDevicesOfRegion (id : Int) (db : DB) :
    changedTables db (delDevicesOfRegion id db).1 ⊆ ["devices"] := by
  simp only [changedTables, delDevicesOfRegion, if_true, List.nil_append, List.append_nil]
  exact ite_nil_subset_singleton _ _

theorem changed_delRegion (id : Int) (db : DB) :
    changedTables db (delRegion id db).1 ⊆ ["regions"] := by
  simp only [changedTables, delRegion, if_true, List.nil_append, List.append_nil]
  exact ite_nil_subset_singleton _ _

theorem changed_delMaintenanceOfDevice (id : Int) (db : DB) :
    changedTables db (delMaintenanceOfDevice id db).1 ⊆ ["maintenance_records"] := by
  simp only [changedTables, delMaintenanceOfDevice, if_true, List.nil_append, List.append_nil]
  exact ite_nil_subset_singleton _ _

theorem changed_delStatusLogsOfDevice (id : Int) (db : DB) :
    changedTables db (delStatusLogsOfDevice id db).1 ⊆ ["device_status_logs"] := by
  simp only [changedTables, delStatusLogsOfDevice, if_true, List.nil_append, List.append_nil]
  exact ite_nil_subset_singleton _ _

theorem changed_delDevice (id : Int) (db : DB) :
    changedTables db (delDevice id db).1 ⊆ ["devices"] := by
  simp only [changedTables, delDevice, if_true, List.nil_append, List.append_nil]
  exact ite_nil_subset_singleton _ _

theorem changed_delReadingsOfSensor (id : Int) (db : DB) :
    changedTables db (delReadingsOfSensor id db).1 ⊆ ["sensor_readings"] := by
  simp only [changedTables, delReadingsOfSensor, if_true, List.nil_append, List.append_nil]
  exact ite_nil_subset_singleton _ _

theorem changed_delSensor (id : Int) (db : DB) :
    changedTables db (delSensor id db).1 ⊆ ["sensors"] := by
  simp only [changedTables, delSensor, if_true, List.nil_append, List.append_nil]
  exact ite_nil_subset_singleton _ _

theorem changed_delNotificationsOfRule (id : Int) (db : DB) :
    changedTables db (delNotificationsOfRule id db).1 ⊆ ["notifications"] := by
  simp only [changedTables, delNotificationsOfRule, if_true, List.nil_append, List.append_nil]
  exact ite_nil_subset_singleton _ _

theorem changed_delAlertsOfRule (id : Int) (db : DB) :
    changedTables db (delAlertsOfRule id db).1 ⊆ ["alerts"] := by
  simp only [changedTables, delAlertsOfRule, if_true, List.nil_append, List.append_nil]
  exact ite_nil_subset_singleton _ _

theorem changed_delAlertRule (id : Int) (db : DB) :
    changedTables db (delAlertRule id db).1 ⊆ ["alert_rules"] := by
  simp only [changedTables, delAlertRule, if_true, List.nil_append, List.append_nil]
  exact ite_nil_subset_singleton _ _

theorem changed_delChangesOfResource (id : Int) (db : DB) :
    changedTables db (delChangesOfResource id db).1 ⊆ ["resource_changes"] := by
  simp only [changedTables, delChangesOfResource, if_true, List.nil_append, List.append_nil]
  exact ite_nil_subset_singleton _ _

theorem changed_delResource (id : Int) (db : DB) :
    changedTables db (delResource id db).1 ⊆ ["resources"] := by
  simp only [changedTables, delResource, if_true, List.nil_append, List.append_nil]
  exact ite_nil_subset_singleton _ _

theorem workAfter_region (db : DB) (id : Int) :
    workAfter deleteRegionBody 10 0 id db = db ∧
    workAfter deleteRegionBody 10 1 id db
        = (delReadingsOfRegion id (workAfter deleteRegionBody 10 0 id db)).1 ∧
    workAfter deleteRegionBody 10 2 id db
        = (delSensorsOfRegion id (workAfter deleteRegionBody 10 1 id db)).1 ∧
    workAfter deleteRegionBody 10 3 id db
        = (delNotificationsOfRegion id (workAfter deleteRegionBody 10 2 id db)).1 ∧
    workAfter deleteRegionBody 10 4 id db
        = (delAlertsOfRegion id (workAfter deleteRegionBody 10 3 id db)).1 ∧
    workAfter deleteRegionBody 10 5 id db
        = (delChangesOfRegion id (workAfter deleteRegionBody 10 4 id db)).1 ∧
    workAfter deleteRegionBody 10 6 id db
        = (delResourcesOfRegion id (workAfter deleteRegionBody 10 5 id db)).1 ∧
    workAfter deleteRegionBody 10 7 id db
        = (delMaintenanceOfRegion id (workAfter deleteRegionBody 10 6 id db)).1 ∧
    workAfter deleteRegionBody 10 8 id db
        = (delStatusLogsOfRegion id (workAfter deleteRegionBody 10 7 id db)).1 ∧
    workAfter deleteRegionBody 10 9 id db
        = (delDevicesOfRegion id (workAfter deleteRegionBody 10 8 id db)).1 ∧
    workAfter deleteRegionBody 10 10 id db
        = (delRegion id (workAfter deleteRegionBody 10 9 id db)).1 := by
  refine ⟨?_, ?_, ?_, ?_, ?_, ?_, ?_, ?_, ?_, ?_, ?_⟩
  · simp [workAfter, stopAfter, deleteRegionBody, Tx.ExecContext]
  · simp [workAfter, stopAfter, deleteRegionBody, Tx.ExecContext]
  · simp [workAfter, stopAfter, deleteRegionBody, Tx.ExecContext]
  · simp [workAfter, stopAfter, deleteRegionBody, Tx.ExecContext]
  · simp [workAfter, stopAfter, deleteRegionBody, Tx.ExecContext]
  · simp [workAfter, stopAfter, deleteRegionBody, Tx.ExecContext]
  · simp [workAfter, stopAfter, deleteRegionBody, Tx.ExecContext]
  · simp [workAfter, stopAfter, deleteRegionBody, Tx.ExecContext]
  · simp [workAfter, stopAfter, deleteRegionBody, Tx.ExecContext]
  · simp [workAfter, stopAfter, deleteRegionBody, Tx.ExecContext]
  · simp only [workAfter, stopAfter, deleteRegionBody, Tx.ExecContext]
    simp
    split_ifs <;> simp [Tx.Commit]

theorem changed_sub_region (db : DB) (id : Int) (k : Nat) (hk : k < 10) :
    changedTables (workAfter deleteRegionBody 10 k id db) (workAfter deleteRegionBody 10 (k + 1) id db)
      ⊆ [regionCascadeOrder.getD k ""] := by
  interval_cases k
  · rw [(workAfter_region db id).2.1]
    exact changed_delReadingsOfRegion id _
  · rw [(workAfter_region db id).2.2.1]
    exact changed_delSensorsOfRegion id _
  · rw [(workAfter_region db id).2.2.2.1]
    exact changed_delNotificationsOfRegion id _
  · rw [(workAfter_region db id).2.2.2.2.1]
    exact changed_delAlertsOfRegion id _
  · rw [(workAfter_region db id).2.2.2.2.2.1]
    exact changed_delChangesOfRegion id _
  · rw [(workAfter_region db id).2.2.2.2.2.2.1]
    exact changed_delResourcesOfRegion id _
  · rw [(workAfter_region db id).2.2.2.2.2.2.2.1]
    exact changed_delMaintenanceOfRegion id _
  · rw [(workAfter_region db id).2.2.2.2.2.2.2.2.1]
    exact changed_delStatusLogsOfRegion id _
  · rw [(workAfter_region db id).2.2.2.2.2.2.2.2.2.1]
    exact changed_delDevicesOfRegion id _
  · rw [(workAfter_region db id).2.2.2.2.2.2.2.2.2.2]
    exact changed_delRegion id _

theorem changed_sample_region (k : Nat) (hk : k < 10) :
    changedTables (workAfter deleteRegionBody 10 k 1 forestDB)
        (workAfter deleteRegionBody 10 (k + 1) 1 forestDB)
      = [regionCascadeOrder.getD k ""] := by
  interval_cases k <;> decide

theorem workAfter_device (db : DB) (id : Int) :
    workAfter deleteDeviceBody 3 0 id db = db ∧
    workAfter deleteDeviceBody 3 1 id db
        = (delMaintenanceOfDevice id (workAfter deleteDeviceBody 3 0 id db)).1 ∧
    workAfter deleteDeviceBody 3 2 id db
        = (delStatusLogsOfDevice id (workAfter deleteDeviceBody 3 1 id db)).1 ∧
    workAfter deleteDeviceBody 3 3 id db
        = (delDevice id (workAfter deleteDeviceBody 3 2 id db)).1 := by
  refine ⟨?_, ?_, ?_, ?_⟩
  · simp [workAfter, stopAfter, deleteDeviceBody, Tx.ExecContext]
  · simp [workAfter, stopAfter, deleteDeviceBody, Tx.ExecContext]
  · simp [workAfter, stopAfter, deleteDeviceBody, Tx.ExecContext]
  · simp only [workAfter, stopAfter, deleteDeviceBody, Tx.ExecContext]
    simp
    split_ifs <;> simp [Tx.Commit]

theorem changed_sub_device (db : DB) (id : Int) (k : Nat) (hk : k < 3) :
    changedTables (workAfter deleteDeviceBody 3 k id db) (workAfter deleteDeviceBody 3 (k + 1) id db)
      ⊆ [deviceCascadeOrder.getD k ""] := by
  interval_cases k
  · rw [(workAfter_device db id).2.1]
    exact changed_delMaintenanceOfDevice id _
  · rw [(workAfter_device db id).2.2.1]
    exact changed_delStatusLogsOfDevice id _
  · rw [(workAfter_device db id).2.2.2]
    exact changed_delDevice id _

theorem changed_sample_device (k : Nat) (hk : k < 3) :
    changedTables (workAfter deleteDeviceBody 3 k 13 forestDB)
        (workAfter deleteDeviceBody 3 (k + 1) 13 forestDB)
      = [deviceCascadeOrder.getD k ""] := by
  interval_cases k <;> decide

theorem workAfter_sensor (db : DB) (id : Int) :
    workAfter deleteSensorBody 2 0 id db = db ∧
    workAfter deleteSensorBody 2 1 id db
        = (delReadingsOfSensor id (workAfter deleteSensorBody 2 0 id db)).1 ∧
    workAfter deleteSensorBody 2 2 id db
        = (delSensor id (workAfter deleteSensorBody 2 1 id db)).1 := by
  refine ⟨?_, ?_, ?_⟩
  · simp [workAfter, stopAfter, deleteSensorBody, Tx.ExecContext]
  · simp [workAfter, stopAfter, deleteSensorBody, Tx.ExecContext]
  · simp only [workAfter, stopAfter, deleteSensorBody, Tx.ExecContext]
    simp
    split_ifs <;> simp [Tx.Commit]

theorem changed_sub_sensor (db : DB) (id : Int) (k : Nat) (hk : k < 2) :
    changedTables (workAfter deleteSensorBody 2 k id db) (workAfter deleteSensorBody 2 (k + 1) id db)
      ⊆ [sensorCascadeOrder.getD k ""] := by
  interval_cases k
  · rw [(workAfter_sensor db id).2.1]
    exact changed_delReadingsOfSensor id _
  · rw [(workAfter_sensor db id).2.2]
    exact changed_delSensor id _

theorem changed_sample_sensor (k : Nat) (hk : k < 2) :
    changedTables (workAfter deleteSensorBody 2 k 10 forestDB)
        (workAfter deleteSensorBody 2 (k + 1) 10 forestDB)
      = [sensorCascadeOrder.getD k ""] := by
  interval_cases k <;> decide

theorem workAfter_alertRule (db : DB) (id : Int) :
    workAfter deleteAlertRuleBody 3 0 id db = db ∧
    workAfter deleteAlertRuleBody 3 1 id db
        = (delNotificationsOfRule id (workAfter deleteAlertRuleBody 3 0 id db)).1 ∧
    workAfter deleteAlertRuleBody 3 2 id db
        = (delAlertsOfRule id (workAfter deleteAlertRuleBody 3 1 id db)).1 ∧
    workAfter deleteAlertRuleBody 3 3 id db
        = (delAlertRule id (workAfter deleteAlertRuleBody 3 2 id db)).1 := by
  refine ⟨?_, ?_, ?_, ?_⟩
  · simp [workAfter, stopAfter, deleteAlertRuleBody, Tx.ExecContext]
  · simp [workAfter, stopAfter, deleteAlertRuleBody, Tx.ExecContext]
  · simp [workAfter, stopAfter, deleteAlertRuleBody, Tx.ExecContext]
  · simp only [workAfter, stopAfter, deleteAlertRuleBody, Tx.ExecContext]
    simp
    split_ifs <;> simp [Tx.Commit]

theorem changed_sub_alertRule (db : DB) (id : Int) (k : Nat) (hk : k < 3) :
    changedTables (workAfter deleteAlertRuleBody 3 k id db) (workAfter deleteAlertRuleBody 3 (k + 1) id db)
      ⊆ [alertRuleCascadeOrder.getD k ""] := by
  interval_cases k
  · rw [(workAfter_alertRule db id).2.1]
    exact changed_delNotificationsOfRule id _
  · rw [(workAfter_alertRule db id).2.2.1]
    exact changed_delAlertsOfRule id _
  · rw [(workAfter_alertRule db id).2.2.2]
    exact changed_delAlertRule id _

theorem changed_sample_alertRule (k : Nat) (hk : k < 3) :
    changedTables (workAfter deleteAlertRuleBody 3 k 5 forestDB)
        (workAfter deleteAlertRuleBody 3 (k + 1) 5 forestDB)
      = [alertRuleCascadeOrder.getD k ""] := by
  interval_cases k <;> decide

theorem workAfter_resource (db : DB) (id : Int) :
    workAfter deleteResourceBody 2 0 id db = db ∧
    workAfter deleteResourceBody 2 1 id db
        = (delChangesOfResource id (workAfter deleteResourceBody 2 0 id db)).1 ∧
    workAfter deleteResourceBody 2 2 id db
        = (delResource id (workAfter deleteResourceBody 2 1 id db)).1 := by
  refine ⟨?_, ?_, ?_⟩
  · simp [workAfter, stopAfter, deleteResourceBody, Tx.ExecContext]
  · simp [workAfter, stopAfter, deleteResourceBody, Tx.ExecContext]
  · simp only [workAfter, stopAfter, deleteResourceBody, Tx.ExecContext]
    simp
    split_ifs <;> simp [Tx.Commit]

theorem changed_sub_resource (db : DB) (id : Int) (k : Nat) (hk : k < 2) :
    changedTables (workAfter deleteResourceBody 2 k id db) (workAfter deleteResourceBody 2 (k + 1) id db)
      ⊆ [resourceCascadeOrder.getD k ""] := by
  interval_cases k
  · rw [(workAfter_resource db id).2.1]
    exact changed_delChangesOfResource id _
  · rw [(workAfter_resource db id).2.2]
    exact changed_delResource id _

theorem changed_sample_resource (k : Nat) (hk : k < 2) :
    changedTables (workAfter deleteResourceBody 2 k 12 forestDB)
        (workAfter deleteResourceBody 2 (k + 1) 12 forestDB)
      = [resourceCascadeOrder.getD k ""] := by
  interval_cases k <;> decide

/-- C22: the tables the statements of the cascades delete from, in the order the statements
are issued.  The store a cascade has reached after its first `k` statements is observed by
failing statement `k + 1`.  For every store and id, statement `k + 1` of `DeleteRegion`
changes no table but entry `k` of sensor_readings, sensors, notifications, alerts,
resource_changes, resources, maintenance_records, device_status_logs, devices, regions; the
statements of `DeleteDevice`, `DeleteSensor`, `DeleteAlertRule` and `DeleteResource` likewise
follow their order lists; on the sample store every statement does change its table.  In
each of the five orders a table that references another table of the order stands strictly
before it, and the root table is last. -/
theorem cascade_statement_order (db : DB) (id : Int) :
    regionCascadeOrder
      = ["sensor_readings", "sensors", "notifications", "alerts", "resource_changes",
         "resources", "maintenance_records", "device_status_logs", "devices", "regions"] ∧
    (∀ k, k < 10 →
      changedTables (workAfter deleteRegionBody 10 k id db)
          (workAfter deleteRegionBody 10 (k + 1) id db)
        ⊆ [regionCascadeOrder.getD k ""]) ∧
    (∀ k, k < 3 →
      changedTables (workAfter deleteDeviceBody 3 k id db)
          (workAfter deleteDeviceBody 3 (k + 1) id db)
        ⊆ [deviceCascadeOrder.getD k ""]) ∧
    (∀ k, k < 2 →
      changedTables (workAfter deleteSensorBody 2 k id db)
          (workAfter deleteSensorBody 2 (k + 1) id db)
        ⊆ [sensorCascadeOrder.getD k ""]) ∧
    (∀ k, k < 3 →
      changedTables (workAfter deleteAlertRuleBody 3 k id db)
          (workAfter deleteAlertRuleBody 3 (k + 1) id db)
        ⊆ [alertRuleCascadeOrder.getD k ""]) ∧
    (∀ k, k < 2 →
      changedTables (workAfter deleteResourceBody 2 k id db)
          (workAfter deleteResourceBody 2 (k + 1) id db)
        ⊆ [resourceCascadeOrder.getD k ""]) ∧
    (∀ k, k < 10 →
      changedTables (workAfter deleteRegionBody 10 k 1 forestDB)
          (workAfter deleteRegionBody 10 (k + 1) 1 forestDB)
        = [regionCascadeOrder.getD k ""]) ∧
    (∀ k, k < 3 →
      changedTables (workAfter deleteDeviceBody 3 k 13 forestDB)
          (workAfter deleteDeviceBody 3 (k + 1) 13 forestDB)
        = [deviceCascadeOrder.getD k ""]) ∧
    (∀ k, k < 2 →
      changedTables (workAfter deleteSensorBody 2 k 10 forestDB)
          (workAfter deleteSensorBody 2 (k + 1) 10 forestDB)
        = [sensorCascadeOrder.getD k ""]) ∧
    (∀ k, k < 3 →
      changedTables (workAfter deleteAlertRuleBody 3 k 5 forestDB)
          (workAfter deleteAlertRuleBody 3 (k + 1) 5 forestDB)
        = [alertRuleCascadeOrder.getD k ""]) ∧
    (∀ k, k < 2 →
      changedTables (workAfter deleteResourceBody 2 k 12 forestDB)
          (workAfter deleteResourceBody 2 (k + 1) 12 forestDB)
        = [resourceCascadeOrder.getD k ""]) ∧
    (∀ order ∈ [regionCascadeOrder, deviceCascadeOrder, sensorCascadeOrder,
        alertRuleCascadeOrder, resourceCascadeOrder],
      ∀ ref ∈ tableReferences, ref.1 ∈ order → ref.2 ∈ order →
        order.indexOf ref.1 < order.indexOf ref.2) ∧
    (regionCascadeOrder.getLast? = some "regions" ∧
      deviceCascadeOrder.getLast? = some "devices" ∧
      sensorCascadeOrder.getLast? = some "sensors" ∧
      alertRuleCascadeOrder.getLast? = some "alert_rules" ∧
      resourceCascadeOrder.getLast? = some "resources") :=
  ⟨rfl, changed_sub_region db id, changed_sub_device db id, changed_sub_sensor db id,
    changed_sub_alertRule db id, changed_sub_resource db id, changed_sample_region,
    changed_sample_device, changed_sample_sensor, changed_sample_alertRule,
    changed_sample_resource, by decide, by decide⟩

/-- Witness for C22: on the sample store the second statement of `DeleteRegion` for region 1
changes the table sensors and nothing else. -/
theorem cascade_statement_order_witness :
    (1 < 10) ∧
    changedTables (workAfter deleteRegionBody 10 1 1 forestDB)
        (workAfter deleteRegionBody 10 2 1 forestDB) = ["sensors"] :=
  ⟨by decide, (cascade_statement_order forestDB 1).2.2.2.2.2.2.1 1 (by decide)⟩

/-! ## C23 and C24: registration, login and the token -/

theorem toyBcrypt_sound : toyBcrypt.Sound := by
  intro p h hg
  simp [toyBcrypt] at hg ⊢
  exact hg.symm

/-- C25: `UpdatePassword(userID, p)`, when hashing gives `hash` and the statement succeeds,
returns no error and rewrites the rows with that id to carry `hash` and the new
`updated_at`; every other column of every row of `users` (id, username, email, real name,
phone, status, `login_attempts`, `last_login_at`, `locked_until`, `created_at`), every row
with another id, and every other table are as before, and `hash` compares equal with `p`
under the contract of bcrypt.  `ParseToken` does not read the store: a token issued before
the update for a user still parses to that user id and username after it, at any instant
from the last clock reading of `GenerateToken` on and before the expiry. -/
theorem updatePassword_changes_only_the_hash (B : Bcrypt) (J : JwtLib) (now : Time) (db : DB)
    (userID : Int) (p hash : String) (hB : B.Sound)
    (hgen : B.GenerateFromPassword p = some hash) :
    (UpdatePassword B none now db userID p).2 = none ∧
    (UpdatePassword B none now db userID p).1.users
      = db.users.map (fun u =>
          if u.ID = userID then { u with PasswordHash := hash, UpdatedAt := now } else u) ∧
    ((UpdatePassword B none now db userID p).1.users.map fun u =>
        (u.ID, u.Username, u.Email, u.RealName, u.Phone, u.Status, u.LoginAttempts,
          u.LastLoginAt, u.LockedUntil, u.CreatedAt))
      = (db.users.map fun u =>
        (u.ID, u.Username, u.Email, u.RealName, u.Phone, u.Status, u.LoginAttempts,
          u.LastLoginAt, u.LockedUntil, u.CreatedAt)) ∧
    (∀ u ∈ db.users, u.ID ≠ userID → u ∈ (UpdatePassword B none now db userID p).1.users) ∧
    { (UpdatePassword B none now db userID p).1 with users := db.users } = db ∧
    B.CompareHashAndPassword hash p = true ∧
    (∀ clock t uid name tok, GenerateToken J clock uid name = .ok tok →
      J.Decode tok = some (issuedRaw J clock uid name) →
      clock.forNotBefore ≤ t → t < NewNumericDate (clock.forExpiry + 2 * Hour) →
      ParseToken J t tok = .ok (generateClaims clock uid name)) := by
  have e : UpdatePassword B none now db userID p
      = ({ db with users := db.users.map fun u =>
            if u.ID = userID then { u with PasswordHash := hash, UpdatedAt := now } else u },
         none) := by
    simp [UpdatePassword, hgen, execUpdateUser]
  rw [e]
  refine ⟨rfl, rfl, ?_, ?_, rfl, hB p hash hgen, ?_⟩
  · simp only [List.map_map]
    apply List.map_congr_left
    intro u _
    simp only [Function.comp]
    split_ifs <;> rfl
  · intro u hu hne
    simp only [List.mem_map]
    exact ⟨u, hu, by simp [hne]⟩
  · intro clock t uid name tok _ hdec h1 h2
    exact parseToken_of_generated J clock t uid name tok hdec
      (le_trans (newNumericDate_le _) h1) h2

/-- Witness for C25: the password of the sample account is replaced at instant 9. -/
theorem updatePassword_changes_only_the_hash_witness :
    (toyBcrypt.Sound ∧ toyBcrypt.GenerateFromPassword "newpass" = some "$newpass") ∧
    (UpdatePassword toyBcrypt none 9 registryDB 7 "newpass").1.users
      = [{ alice with PasswordHash := "$newpass", UpdatedAt := 9 }] ∧
    { (UpdatePassword toyBcrypt none 9 registryDB 7 "newpass").1 with
        users := registryDB.users } = registryDB :=
  ⟨⟨toyBcrypt_sound, rfl⟩,
   (updatePassword_changes_only_the_hash toyBcrypt toyJwt 9 registryDB 7 "newpass"
      "$newpass" toyBcrypt_sound rfl).2.1.trans (by decide),
   (updatePassword_changes_only_the_hash toyBcrypt toyJwt 9 registryDB 7 "newpass"
      "$newpass" toyBcrypt_sound rfl).2.2.2.2.1⟩

/-! ## C26: the listing of roles -/

/-- C26: `GetAvailableRoles`, when its query succeeds, returns a list that is a permutation
of the rows of `roles` (every row once, and nothing else) and is ascending in `role_id`; on
the store holding the five system roles it returns exactly those five, from `SYSTEM_ADMIN`
(id 1) to `INSPECTOR` (id 5). -/
theorem getAvailableRoles_all_rows_ascending (db : DB) :
    (∃ l, GetAvailableRoles none db = .ok l ∧ l.Perm db.roles ∧ l.Sorted roleIdLE ∧
      l.length = db.roles.length ∧ ∀ r, l.count r = db.roles.count r) ∧
    GetAvailableRoles none seededRolesDB
      = .ok [⟨1, "SYSTEM_ADMIN", none, 0, 0⟩, ⟨2, "DATA_ADMIN", none, 0, 0⟩,
             ⟨3, "FOREST_GUARD", none, 0, 0⟩, ⟨4, "PUBLIC_USER", none, 0, 0⟩,
             ⟨5, "INSPECTOR", none, 0, 0⟩] :=
  ⟨⟨_, rfl, List.perm_insertionSort _ _, List.sorted_insertionSort _ _,
     (List.perm_insertionSort _ _).length_eq,
     fun r => (List.perm_insertionSort _ _).count_eq r⟩,
   by decide⟩

/-! ## C27: which filters stand in front of which route -/

theorem jwtAuthMiddleware_cases (J : JwtLib) (now : Time) (c : GinContext) :
    (∃ claims,
      ParseToken J now ((splitN2 (c.GetHeader "Authorization")).getD 1 "") = .ok claims ∧
      JWTAuthMiddleware J now c
        = { c with user_id := some claims.UserID, username := some claims.Username }) ∨
    (∃ msg, JWTAuthMiddleware J now c = (c.JSON 401 msg).Abort) := by
  by_cases h1 : c.GetHeader "Authorization" = ""
  · exact Or.inr ⟨_, by simp [JWTAuthMiddleware, h1]; rfl⟩
  · by_cases h2 : (splitN2 (c.GetHeader "Authorization")).length = 2 ∧
        (splitN2 (c.GetHeader "Authorization")).getD 0 "" = "Bearer"
    · cases hp : ParseToken J now ((splitN2 (c.GetHeader "Authorization")).getD 1 "") with
      | error e =>
        exact Or.inr ⟨"无效的令牌", by
          simp only [JWTAuthMiddleware, if_neg h1, if_neg (not_not_intro h2), hp]⟩
      | ok claims =>
        exact Or.inl ⟨claims, rfl, by
          simp only [JWTAuthMiddleware, if_neg h1, if_neg (not_not_intro h2), hp]⟩
    · exact Or.inr ⟨"无效的令牌格式", by simp only [JWTAuthMiddleware, if_neg h1, if_pos h2]⟩

theorem checkPermissionMiddleware_cases (fail : Option String) (db : DB)
    (resource action : String) (c : GinContext) :
    (∃ uid, c.user_id = some uid ∧ fail = none ∧
      hasPermissionQuery db uid resource action = true ∧
      CheckPermissionMiddleware fail db resource action c = c) ∨
    (∃ status msg, CheckPermissionMiddleware fail db resource action c
      = (c.JSON status msg).Abort) := by
  cases hu : c.user_id with
  | none => exact Or.inr ⟨401, "未认证的用户", by simp [CheckPermissionMiddleware, hu]⟩
  | some uid =>
    cases hf : fail with
    | some e => exact Or.inr ⟨500, "权限检查失败", by simp [CheckPermissionMiddleware, hu]⟩
    | none =>
      cases hq : hasPermissionQuery db uid resource action with
      | false =>
        exact Or.inr ⟨403, "没有操作权限", by simp [CheckPermissionMiddleware, hu, hq]⟩
      | true => exact Or.inl ⟨uid, rfl, rfl, hq, by simp [CheckPermissionMiddleware, hu, hq]⟩

theorem routes_table_facts :
    ∀ r ∈ routes,
      (r.JWT = false ↔
        (r.Method, r.Path) ∈
          [("GET", "/static/*filepath"), ("HEAD", "/static/*filepath"), ("GET", "/"),
           ("HEAD", "/"), ("POST", "/register"), ("POST", "/login"), ("GET", "/roles"),
           ("GET", "/api/regions"), ("GET", "/api/regions/:id")]) ∧
      (r.Permission ≠ none → r.JWT = true) := by
  decide

theorem routes_authenticated_only :
    (routes.filter fun r => r.JWT && r.Permission.isNone).map (fun r => (r.Method, r.Path))
      = [("GET", "/api/user/me"), ("PUT", "/api/user/password"),
         ("GET", "/api/sensors/:id/readings"), ("POST", "/api/sensors/:id/readings"),
         ("POST", "/api/sensors/readings/batch"), ("GET", "/api/alerts/:id/notifications"),
         ("POST", "/api/notifications"), ("GET", "/api/resources/:id/changes"),
         ("POST", "/api/resource-changes"), ("GET", "/api/resources/summary"),
         ("GET", "/api/devices/:id/status"), ("GET", "/api/devices/:id/status/logs"),
         ("POST", "/api/devices/:id/status"), ("GET", "/api/devices/:id/maintenance"),
         ("POST", "/api/devices/:id/maintenance"), ("DELETE", "/api/maintenance/:id"),
         ("POST", "/api/reports/generate"), ("GET", "/api/reports/:id/export")] := by
  decide

theorem runChain_cons_pass (h : GinContext → GinContext)
    (hs : List (GinContext → GinContext)) (c : GinContext) (hp : (h c).Aborted = false) :
    runChain (h :: hs) c = runChain hs (h c) := by
  simp [runChain, hp]

theorem runChain_cons_stop (h : GinContext → GinContext)
    (hs : List (GinContext → GinContext)) (c : GinContext) (hp : (h c).Aborted = true) :
    runChain (h :: hs) c = h c := by
  simp [runChain, hp]

/-- Counterexample for C27: `GET /api/regions` is none of the three exempt routes and has
neither filter, so its handler runs for a request without a token; `DELETE
/api/maintenance/:id` is behind `JWTAuthMiddleware` only, so its handler runs for user 42,
who holds no role and hence no permission in the sample graph. -/
theorem routes_without_permission_filter :
    Route.mk "GET" "/api/regions" false none "ListRegions" ∈ routes ∧
    Route.mk "DELETE" "/api/maintenance/:id" true none "DeleteMaintenanceRecord" ∈ routes ∧
    runChain (routeChain toyJwt 1 none rbacDB
        (Route.mk "GET" "/api/regions" false none "ListRegions")
        fun c => c.JSON 200 "handler ran") anonContext
      = anonContext.JSON 200 "handler ran" ∧
    (∀ resource action, hasPermissionQuery rbacDB 42 resource action = false) ∧
    runChain (routeChain toyJwt 1 none rbacDB
        (Route.mk "DELETE" "/api/maintenance/:id" true none "DeleteMaintenanceRecord")
        fun c => c.JSON 200 "handler ran") bearerContext
      = { bearerContext with user_id := some 42, username := some "alice",
                             Response := some (200, "handler ran") } := by
  refine ⟨by decide, by decide, by decide, ?_, by decide⟩
  intro resource action
  have hno : ∀ ur ∈ rbacDB.user_roles, ur.UserID ≠ 42 := by decide
  cases h : hasPermissionQuery rbacDB 42 resource action with
  | false => rfl
  | true =>
    obtain ⟨ur, hur, _, _, _, _, hid, _⟩ :=
      (hasPermissionQuery_iff rbacDB 42 resource action).mp h
    exact absurd hid (hno ur hur)

/-- C27, amended: the filters of the route table.  A route is outside the group that uses
`JWTAuthMiddleware` exactly when it is one of the static file routes, `POST /register`,
`POST /login`, `GET /roles`, `GET /api/regions` or `GET /api/regions/:id`.  A route that
declares a (resource, action) pair is in that group and its chain is the authentication
filter, the permission filter for that pair, then the handler; for a request that enters
the chain not aborted, either the token parsed to claims, the permission lookup succeeded
and answered true for the user of the claims, and the handler runs on the context that
carries those claims, or the outcome is an aborted context with status 401, 403 or 500 that
is the same whatever the handler is.  An authenticated route without a pair has the
authentication filter alone in front of its handler. -/
theorem route_filters (J : JwtLib) (now : Time) (fail : Option String) (db : DB) (r : Route)
    (hr : r ∈ routes) :
    (r.JWT = false ↔
      (r.Method, r.Path) ∈
        [("GET", "/static/*filepath"), ("HEAD", "/static/*filepath"), ("GET", "/"),
         ("HEAD", "/"), ("POST", "/register"), ("POST", "/login"), ("GET", "/roles"),
         ("GET", "/api/regions"), ("GET", "/api/regions/:id")]) ∧
    (∀ ra, r.Permission = some ra →
      r.JWT = true ∧
      (∀ handler, routeChain J now fail db r handler
        = [JWTAuthMiddleware J now, CheckPermissionMiddleware fail db ra.1 ra.2, handler]) ∧
      ∀ c : GinContext, c.Aborted = false →
        (∃ claims,
          ParseToken J now ((splitN2 (c.GetHeader "Authorization")).getD 1 "") = .ok claims ∧
          fail = none ∧ hasPermissionQuery db claims.UserID ra.1 ra.2 = true ∧
          ∀ handler, runChain (routeChain J now fail db r handler) c
            = runChain [handler]
                { c with user_id := some claims.UserID, username := some claims.Username }) ∨
        (∃ stopped : GinContext, stopped.Aborted = true ∧
          (∃ status msg, stopped.Response = some (status, msg) ∧ status ∈ [401, 403, 500]) ∧
          ∀ handler, runChain (routeChain J now fail db r handler) c = stopped)) ∧
    (r.JWT = true → r.Permission = none →
      (∀ handler, routeChain J now fail db r handler = [JWTAuthMiddleware J now, handler]) ∧
      ∀ c : GinContext, c.Aborted = false →
        (∃ claims,
          ParseToken J now ((splitN2 (c.GetHeader "Authorization")).getD 1 "") = .ok claims ∧
          ∀ handler, runChain (routeChain J now fail db r handler) c
            = runChain [handler]
                { c with user_id := some claims.UserID, username := some claims.Username }) ∨
        (∃ msg, ∀ handler, runChain (routeChain J now fail db r handler) c
          = (c.JSON 401 msg).Abort)) := by
  refine ⟨(routes_table_facts r hr).1, ?_, ?_⟩
  · intro ra hra
    have hj : r.JWT = true := (routes_table_facts r hr).2 (by simp [hra])
    have hchain : ∀ handler, routeChain J now fail db r handler
        = [JWTAuthMiddleware J now, CheckPermissionMiddleware fail db ra.1 ra.2, handler] := by
      intro handler
      simp [routeChain, hj, hra]
    refine ⟨hj, hchain, ?_⟩
    intro c hc
    rcases jwtAuthMiddleware_cases J now c with ⟨claims, hp, he⟩ | ⟨msg, he⟩
    · have ha : (JWTAuthMiddleware J now c).Aborted = false := by rw [he]; exact hc
      rcases checkPermissionMiddleware_cases fail db ra.1 ra.2 (JWTAuthMiddleware J now c)
        with ⟨uid, hu, hf, hq, hpass⟩ | ⟨status, msg, hstop⟩
      · left
        have hid : uid = claims.UserID := by
          rw [he] at hu
          simpa using hu.symm
        subst hid
        refine ⟨claims, hp, hf, hq, ?_⟩
        intro handler
        rw [hchain, runChain_cons_pass _ _ _ ha,
          runChain_cons_pass _ _ _ (by rw [hpass]; exact ha), hpass, he]
      · right
        have hst : status ∈ [401, 403, 500] := by
          have h1 := congrArg GinContext.Response hstop
          rw [he] at h1
          cases hf : fail with
          | some e =>
            simp [CheckPermissionMiddleware, hf, GinContext.JSON, GinContext.Abort] at h1
            simp [← h1.1]
          | none =>
            cases hq : hasPermissionQuery db claims.UserID ra.1 ra.2 with
            | false =>
              simp [CheckPermissionMiddleware, hf, hq, GinContext.JSON, GinContext.Abort] at h1
              simp [← h1.1]
            | true =>
              have h2 := congrArg GinContext.Aborted hstop
              rw [he] at h2
              simp [CheckPermissionMiddleware, hf, hq, GinContext.JSON, GinContext.Abort,
                hc] at h2
        refine ⟨((JWTAuthMiddleware J now c).JSON status msg).Abort, rfl,
          ⟨status, msg, rfl, hst⟩, ?_⟩
        intro handler
        rw [hchain, runChain_cons_pass _ _ _ ha,
          runChain_cons_stop _ _ _ (by rw [hstop]; rfl), hstop]
    · right
      refine ⟨(c.JSON 401 msg).Abort, rfl, ⟨401, msg, rfl, by simp⟩, ?_⟩
      intro handler
      rw [hchain, runChain_cons_stop _ _ _ (by rw [he]; rfl), he]
  · intro hj hnone
    have hchain : ∀ handler, routeChain J now fail db r handler
        = [JWTAuthMiddleware J now, handler] := by
      intro handler
      simp [routeChain, hj, hnone]
    refine ⟨hchain, ?_⟩
    intro c hc
    rcases jwtAuthMiddleware_cases J now c with ⟨claims, hp, he⟩ | ⟨msg, he⟩
    · left
      refine ⟨claims, hp, ?_⟩
      intro handler
      rw [hchain, runChain_cons_pass _ _ _ (by rw [he]; exact hc), he]
    · right
      refine ⟨msg, ?_⟩
      intro handler
      rw [hchain, runChain_cons_stop _ _ _ (by rw [he]; rfl), he]

/-- Witness for C27, amended: `DELETE /api/regions/:id` declares (regions, manage); a
request without a token is stopped with 401 and the handler does not run. -/
theorem route_filters_witness :
    Route.mk "DELETE" "/api/regions/:id" true (some ("regions", "manage")) "DeleteRegion"
      ∈ routes ∧
    anonContext.Aborted = false ∧
    routeChain toyJwt 1 none rbacDB
        (Route.mk "DELETE" "/api/regions/:id" true (some ("regions", "manage")) "DeleteRegion")
        (fun c => c.JSON 200 "handler ran")
      = [JWTAuthMiddleware toyJwt 1, CheckPermissionMiddleware none rbacDB "regions" "manage",
         fun c => c.JSON 200 "handler ran"] ∧
    runChain (routeChain toyJwt 1 none rbacDB
        (Route.mk "DELETE" "/api/regions/:id" true (some ("regions", "manage")) "DeleteRegion")
        fun c => c.JSON 200 "handler ran") anonContext
      = (anonContext.JSON 401 "缺少认证令牌").Abort :=
  ⟨by decide, rfl,
   ((route_filters toyJwt 1 none rbacDB
      (Route.mk "DELETE" "/api/regions/:id" true (some ("regions", "manage")) "DeleteRegion")
      (by decide)).2.1 ("regions", "manage") rfl).2.1 _,
   by decide⟩

/-! ## C28: updates and deletes of a missing RBAC row -/

/-- Counterexample for C28: the sample store has no role 99, no permission 99 and no user
99, and each of the six operations on id 99 returns no error. -/
theorem rbac_missing_row_returns_no_error :
    (∀ r ∈ registryDB.roles, r.ID ≠ 99) ∧ (∀ p ∈ registryDB.permissions, p.ID ≠ 99) ∧
    (∀ u ∈ registryDB.users, u.ID ≠ 99) ∧
    UpdateRole none 1 registryDB ⟨99, "ghost", none, 0, 0⟩ = (registryDB, none) ∧
    DeleteRole noFaults registryDB 99 = (registryDB, none) ∧
    UpdatePermission none 1 registryDB ⟨99, "ghost", "sensors", "view", none, 0, 0⟩
      = (registryDB, none) ∧
    DeletePermission noFaults registryDB 99 = (registryDB, none) ∧
    UpdateUser none 1 registryDB { alice with ID := 99 } = (registryDB, none) ∧
    UpdatePassword toyBcrypt none 1 registryDB 99 "newpass" = (registryDB, none) := by
  decide

/-- C28, amended: on an id that no row has, none of the six operations reports anything.
When the store calls succeed (and, for `UpdatePassword`, hashing succeeds), `UpdateRole`,
`UpdatePermission`, `UpdateUser` and `UpdatePassword` return no error and leave the store
as it was; `DeleteRole` and `DeletePermission` return no error, leave `roles` and
`permissions` as they were, and still delete the `role_permissions` rows that name the
id. -/
theorem rbac_missing_row_is_silent (B : Bcrypt) (now : Time) (db : DB) (role : Role)
    (permission : Permission) (user : User) (id : Int) (p hash : String) :
    ((∀ r ∈ db.roles, r.ID ≠ role.ID) → UpdateRole none now db role = (db, none)) ∧
    ((∀ r ∈ db.roles, r.ID ≠ id) →
      DeleteRole noFaults db id
        = ({ db with role_permissions :=
              db.role_permissions.filter fun x => !decide (x.RoleID = id) }, none)) ∧
    ((∀ x ∈ db.permissions, x.ID ≠ permission.ID) →
      UpdatePermission none now db permission = (db, none)) ∧
    ((∀ x ∈ db.permissions, x.ID ≠ id) →
      DeletePermission noFaults db id
        = ({ db with role_permissions :=
              db.role_permissions.filter fun x => !decide (x.PermissionID = id) }, none)) ∧
    ((∀ u ∈ db.users, u.ID ≠ user.ID) → UpdateUser none now db user = (db, none)) ∧
    ((∀ u ∈ db.users, u.ID ≠ id) → B.GenerateFromPassword p = some hash →
      UpdatePassword B none now db id p = (db, none)) := by
  refine ⟨?_, ?_, ?_, ?_, ?_, ?_⟩
  · intro hm
    have e := map_eq_self_of_forall_ne db.roles (fun x => x.ID) role.ID
      (fun x => { x with RoleName := role.RoleName, Description := role.Description,
                         UpdatedAt := now }) hm
    simp only [UpdateRole]
    rw [e]
  · intro hm
    have e : (db.roles.filter fun x => !decide (x.ID = id)) = db.roles := by
      rw [List.filter_eq_self]
      intro x hx
      simpa using hm x hx
    simp [DeleteRole, noFaults, deleteWhere, e]
  · intro hm
    have e := map_eq_self_of_forall_ne db.permissions (fun x => x.ID) permission.ID
      (fun x => { x with PermissionName := permission.PermissionName,
                         Resource := permission.Resource, Action := permission.Action,
                         Description := permission.Description, UpdatedAt := now }) hm
    simp only [UpdatePermission]
    rw [e]
  · intro hm
    have e : (db.permissions.filter fun x => !decide (x.ID = id)) = db.permissions := by
      rw [List.filter_eq_self]
      intro x hx
      simpa using hm x hx
    simp [DeletePermission, noFaults, deleteWhere, e]
  · intro hm
    have e := map_eq_self_of_forall_ne db.users (fun x => x.ID) user.ID
      (fun u => { u with Email := user.Email, RealName := user.RealName, Phone := user.Phone,
                         Status := user.Status, UpdatedAt := now }) hm
    simp only [UpdateUser, execUpdateUser]
    rw [e]
  · intro hm hgen
    have e := map_eq_self_of_forall_ne db.users (fun x => x.ID) id
      (fun u => { u with PasswordHash := hash, UpdatedAt := now }) hm
    simp only [UpdatePassword, hgen, execUpdateUser]
    rw [e]

/-- Witness for C28, amended: deleting role 9, which the store does not have, removes the
grant row that names it and reports nothing. -/
theorem rbac_missing_row_is_silent_witness :
    (∀ r ∈ ({ rbacDB with role_permissions := rbacDB.role_permissions ++ [⟨9, 1, 0⟩] } : DB).roles,
      r.ID ≠ 9) ∧
    DeleteRole noFaults { rbacDB with role_permissions := rbacDB.role_permissions ++ [⟨9, 1, 0⟩] }
      9 = (rbacDB, none) :=
  ⟨by decide,
   ((rbac_missing_row_is_silent toyBcrypt 0
      { rbacDB with role_permissions := rbacDB.role_permissions ++ [⟨9, 1, 0⟩] }
      ⟨9, "ghost", none, 0, 0⟩ ⟨9, "ghost", "sensors", "view", none, 0, 0⟩ alice 9 "x"
      "$x").2.1 (by decide)).trans (by decide)⟩

/-! ## C29: the request gate and `CheckUserPermission` agree -/

theorem checkUserPermission_eq_decide (db : DB) (userID : Int) (resource action : String) :
    (CheckUserPermission none db userID resource action).1
      = decide (permissionJoinRows db userID resource action ≠ []) := by
  simp only [CheckUserPermission]
  cases h : permissionJoinRows db userID resource action with
  | nil => simp
  | cons a l => simp

/-- C29: for every store, user id, resource and action, the `EXISTS` query of
`CheckPermissionMiddleware` and the `COUNT(*) > 0` of `CheckUserPermission` give the same
answer when both queries succeed; so for a request authenticated as that user the
middleware lets the request through exactly when `CheckUserPermission` answers true, and
stops it with 403 exactly when it answers false.  When the query of either fails, the
middleware answers 500 and `CheckUserPermission` returns false with the error. -/
theorem middleware_agrees_with_checkUserPermission (db : DB) (userID : Int)
    (resource action : String) :
    hasPermissionQuery db userID resource action
      = (CheckUserPermission none db userID resource action).1 ∧
    (CheckUserPermission none db userID resource action).2 = none ∧
    (∀ c : GinContext, c.user_id = some userID →
      CheckPermissionMiddleware none db resource action c
        = if (CheckUserPermission none db userID resource action).1 = true then c
          else (c.JSON 403 "没有操作权限").Abort) ∧
    (∀ (c : GinContext) (e : String), c.user_id = some userID →
      CheckPermissionMiddleware (some e) db resource action c
        = (c.JSON 500 "权限检查失败").Abort ∧
      CheckUserPermission (some e) db userID resource action
        = (false, some (GoError.driver e))) := by
  have h : hasPermissionQuery db userID resource action
      = (CheckUserPermission none db userID resource action).1 := by
    rw [checkUserPermission_eq_decide, Bool.eq_iff_iff, hasPermissionQuery_iff,
      decide_eq_true_iff, permissionJoinRows_ne_nil_iff]
  refine ⟨h, rfl, ?_, ?_⟩
  · intro c hc
    rw [← h]
    cases hq : hasPermissionQuery db userID resource action <;>
      simp [CheckPermissionMiddleware, hc, hq]
  · intro c e hc
    exact ⟨by simp [CheckPermissionMiddleware, hc], rfl⟩

/-- Witness for C29 on the sample graph: user 1 may manage sensors and may not manage
devices, by the middleware and by `CheckUserPermission` alike. -/
theorem middleware_agrees_with_checkUserPermission_witness :
    authedContext.user_id = some 1 ∧
    (CheckUserPermission none rbacDB 1 "sensors" "manage").1 = true ∧
    CheckPermissionMiddleware none rbacDB "sensors" "manage" authedContext = authedContext ∧
    (CheckUserPermission none rbacDB 1 "devices" "manage").1 = false ∧
    CheckPermissionMiddleware none rbacDB "devices" "manage" authedContext
      = (authedContext.JSON 403 "没有操作权限").Abort :=
  ⟨rfl, by decide,
   ((middleware_agrees_with_checkUserPermission rbacDB 1 "sensors" "manage").2.2.1
      authedContext rfl).trans (by decide),
   by decide,
   ((middleware_agrees_with_checkUserPermission rbacDB 1 "devices" "manage").2.2.1
      authedContext rfl).trans (by decide)⟩

/-! ## C30: the path parameter the role-permission handlers read -/

theorem param_absent (params : List (String × String)) (key : String)
    (h : ∀ kv ∈ params, kv.1 ≠ key) : Param params key = "" := by
  have hnone : params.find? (fun kv => decide (kv.1 = key)) = none := by
    rw [List.find?_eq_none]
    intro kv hkv
    simpa using h kv hkv
  simp [Param, hnone]

/-- C30 fails in the code: the three routes declare the role id as path parameter `id`, and
the three handlers read `c.Param("role_id")`.  For every non-empty path segment in the place
of `:id` (a valid integer included) the router binds `id` to it, `role_id` is unbound, so
`ParseInt` is given the empty string and fails: each handler answers 400 "无效的角色ID" and
leaves the store as it was, whatever the body and the state of the store; no role id reaches
`AssignPermissionToRole`, `RemovePermissionFromRole` or `GetRolePermissions`.  With the
segment bound to `role_id` instead, the same handler does reach the controller. -/
theorem role_permission_handlers_read_unbound_param (layout : Time → String)
    (fail : Option String) (now : Time) (db : DB) (bind : Except String Int)
    (seg perm : String) (hseg : seg ≠ "") (hperm : perm ≠ "") :
    (Route.mk "POST" "/api/roles/:id/permissions" true (some ("permissions", "manage"))
        "AssignPermission" ∈ routes ∧
      Route.mk "DELETE" "/api/roles/:id/permissions/:permission_id" true
        (some ("permissions", "manage")) "RemovePermission" ∈ routes ∧
      Route.mk "GET" "/api/roles/:id/permissions" true (some ("permissions", "view"))
        "GetRolePermissions" ∈ routes) ∧
    matchSegments (pathSegments "/api/roles/:id/permissions")
        ["", "api", "roles", seg, "permissions"] = some [("id", seg)] ∧
    matchSegments (pathSegments "/api/roles/:id/permissions/:permission_id")
        ["", "api", "roles", seg, "permissions", perm]
      = some [("id", seg), ("permission_id", perm)] ∧
    AssignPermission layout fail now db [("id", seg)] bind
      = (db, ⟨400, [("error", JSONValue.str "无效的角色ID")]⟩) ∧
    RemovePermission layout fail db [("id", seg), ("permission_id", perm)]
      = (db, ⟨400, [("error", JSONValue.str "无效的角色ID")]⟩) ∧
    GetRolePermissionsHandler layout fail db [("id", seg)]
      = RolePermissionsResponse.error 400 "无效的角色ID" ∧
    (pathSegments "/api/roles/1/permissions" = ["", "api", "roles", "1", "permissions"] ∧
      ParseInt "1" = some 1 ∧
      AssignPermission toyLayout none 0 rbacDB [("role_id", "1")] (.ok 3)
        = ((AssignPermissionToRole none 0 rbacDB 1 3).1,
           ⟨200, [("message", JSONValue.str "权限分配成功")]⟩)) := by
  have hp1 : pathSegments "/api/roles/:id/permissions"
      = ["", "api", "roles", ":id", "permissions"] := by decide
  have hp2 : pathSegments "/api/roles/:id/permissions/:permission_id"
      = ["", "api", "roles", ":id", "permissions", ":permission_id"] := by decide
  have e1 : Param [("id", seg)] "role_id" = "" :=
    param_absent _ _ (by simp)
  have e2 : Param [("id", seg), ("permission_id", perm)] "role_id" = "" :=
    param_absent _ _ (by simp)
  have e3 : ParseInt "" = none := by decide
  refine ⟨by decide, ?_, ?_, ?_, ?_, ?_, by decide, by decide, by decide⟩
  · rw [hp1]
    simp [matchSegments, hseg]
  · rw [hp2]
    simp [matchSegments, hseg, hperm]
  · simp only [AssignPermission, e1, e3]
  · simp only [RemovePermission, e2, e3]
  · simp only [GetRolePermissionsHandler, e1, e3]

/-- Witness for C30: the request `POST /api/roles/1/permissions` with `permission_id` 3 on
the sample graph is answered 400 and grants nothing. -/
theorem role_permission_handlers_read_unbound_param_witness :
    ("1" ≠ "" ∧ "3" ≠ "") ∧
    matchSegments (pathSegments "/api/roles/:id/permissions")
        (pathSegments "/api/roles/1/permissions") = some [("id", "1")] ∧
    AssignPermission toyLayout none 0 rbacDB [("id", "1")] (.ok 3)
      = (rbacDB, ⟨400, [("error", JSONValue.str "无效的角色ID")]⟩) :=
  ⟨⟨by decide, by decide⟩, by decide,
   (role_permission_handlers_read_unbound_param toyLayout none 0 rbacDB (.ok 3) "1" "3"
      (by decide) (by decide)).2.2.2.1⟩

end SmartForest
